import Mathlib

/-! Routing delay budgets (`vpr/SRC/route/route_budgets.cpp`).

A shallow embedding of the `route_budgets` class of VPR and theorems about it.

Modelling conventions

* C++ `float`/`double` values are idealised as exact rationals (`ℚ`); a slack that may be
  `+infinity` is an `Option ℚ` whose `none` is `+infinity`.
* A `float **` table indexed `[inet][ipin]` is a function `Nat → Nat → ℚ`; net and pin indices
  are natural numbers.  The constructor leaves the table pointers uninitialised and
  `alloc_net_delay` returns uninitialised memory: the model keeps the content the state has,
  which is arbitrary.  Reading a table that was never allocated is undefined in C++; nothing
  below relies on the content of such a table.
* The process-wide contexts (`g_vpr_ctx.clustering()`, `g_vpr_ctx.atom()`), the timing analyser
  behind `perform_sta`, `calculate_clb_net_pin_criticality` and `std::pow` are fields of `Env`.
* `VTR_ASSERT` / `VTR_ASSERT_MSG` failures are the `Except` error `VtrError.assertion_failed`.
* Division is total on `ℚ`.  To state that no division by zero is reached, the functions that
  divide have a second, `_checked` embedding in which every division of the source is
  `checked_div`, which fails with `VtrError.division_by_zero` on a zero divisor.
-/

namespace RouteBudgets

/-! ## Data model -/

/-- A `float **` table indexed by net and pin. -/
abbrev Table := Nat → Nat → ℚ

/-- The assignment `t[inet][ipin] = v`. -/
def Table.set (t : Table) (inet ipin : Nat) (v : ℚ) : Table :=
  fun a b => if a = inet ∧ b = ipin then v else t a b

abbrev AtomPinId := Nat

abbrev NodeId := Nat

inductive analysis_type where
  | SETUP
  | HOLD
deriving DecidableEq

inductive TagType where
  | DATA_ARRIVAL
  | DATA_REQUIRED
deriving DecidableEq

/-- A timing tag: its time and the node it originates from (`none` is `NodeId::INVALID()`). -/
structure TimingTag where
  time : ℚ
  origin_node : Option NodeId
deriving DecidableEq

/-- The part of `SetupHoldTimingInfo` (and of its analyser) that `route_budgets` reads.
A slack of `none` is `std::numeric_limits<float>::infinity()`. -/
structure SetupHoldTimingInfo where
  setup_pin_slack : AtomPinId → Option ℚ
  hold_pin_slack : AtomPinId → Option ℚ
  setup_tags : NodeId → TagType → List TimingTag
  hold_tags : NodeId → TagType → List TimingTag

structure t_net_pin where
  block : Nat
  block_pin : Nat
deriving DecidableEq

structure t_net where
  pins : List t_net_pin
deriving DecidableEq

inductive e_routing_budgets_algorithm where
  | MINIMAX
  | SCALE_DELAY
  | DISABLE
deriving DecidableEq

structure t_router_opts where
  routing_budgets_algorithm : e_routing_budgets_algorithm
  max_criticality : ℚ
  criticality_exp : ℚ

/-- Everything `route_budgets` reaches outside itself: the clustered net list
(`cluster_ctx.clbs_nlist.net`), the pin lookups, the timing analysis run by `perform_sta`
on a table of delays, the criticality of a net pin, and `std::pow`. -/
structure Env where
  net : List t_net
  find_clb_pin_connected_atom_pins : Nat → Nat → List AtomPinId
  atom_pin_tnode : AtomPinId → NodeId
  perform_sta : Table → SetupHoldTimingInfo
  calculate_clb_net_pin_criticality : Nat → Nat → ℚ
  pow : ℚ → ℚ → ℚ

/-- The member variables of `route_budgets`. -/
structure route_budgets where
  delay_min_budget : Table
  delay_max_budget : Table
  delay_target : Table
  delay_lower_bound : Table
  delay_upper_bound : Table
  num_times_congested : Nat → Nat
  set : Bool

inductive VtrError where
  | assertion_failed
  | division_by_zero
deriving DecidableEq

/-- `cluster_ctx.clbs_nlist.net[inet].pins.size()`. -/
def Env.num_pins (env : Env) (inet : Nat) : Nat :=
  match env.net.get? inet with
  | some n => n.pins.length
  | none => 0

/-- `cluster_ctx.clbs_nlist.net[inet].pins[ipin]`. -/
def Env.net_pin (env : Env) (inet ipin : Nat) : t_net_pin :=
  match env.net.get? inet with
  | some n => n.pins.getD ipin ⟨0, 0⟩
  | none => ⟨0, 0⟩

/-- The pin `ipin` of net `inet` is a sink the loops of the class visit:
`inet < net.size()` and `1 <= ipin < net[inet].pins.size()`. -/
def Env.isSink (env : Env) (inet ipin : Nat) : Prop :=
  inet < env.net.length ∧ 1 ≤ ipin ∧ ipin < env.num_pins inet

instance (env : Env) (inet ipin : Nat) : Decidable (env.isSink inet ipin) := by
  unfold Env.isSink; infer_instance

/-- The loop `for (unsigned inet = 0; inet < net.size(); inet++) body`. -/
def forNets {σ : Type} (env : Env) (body : Nat → σ → σ) (s : σ) : σ :=
  (List.range env.net.length).foldl (fun st inet => body inet st) s

/-- The loop `for (unsigned ipin = 1; ipin < net[inet].pins.size(); ipin++) body`. -/
def forSinks {σ : Type} (env : Env) (inet : Nat) (body : Nat → σ → σ) (s : σ) : σ :=
  (List.range' 1 (env.num_pins inet - 1)).foldl (fun st ipin => body ipin st) s

/-- The loop over nets with a body that may fail an assertion. -/
def forNetsM {σ : Type} (env : Env) (body : Nat → σ → Except VtrError σ) (s : σ) :
    Except VtrError σ :=
  (List.range env.net.length).foldlM (fun st inet => body inet st) s

/-- The loop over the sink pins of a net with a body that may fail an assertion. -/
def forSinksM {σ : Type} (env : Env) (inet : Nat) (body : Nat → σ → Except VtrError σ) (s : σ) :
    Except VtrError σ :=
  (List.range' 1 (env.num_pins inet - 1)).foldlM (fun st ipin => body ipin st) s

/-! ## Construction and allocation -/

/-- The constructor `route_budgets::route_budgets()`: the congestion counters are resized to
the number of nets with value 0 and `set = false`; the five table pointers are not
initialised, so the tables are those of the indeterminate memory `mem`. -/
def route_budgets.new (mem : route_budgets) : route_budgets :=
  { mem with num_times_congested := fun _ => 0, set := false }

/-- The function `route_budgets::if_set`. -/
def route_budgets.if_set (rb : route_budgets) : Bool :=
  rb.set

/-- The function `route_budgets::calculate_delay_tagets`. -/
def calculate_delay_tagets (env : Env) (rb : route_budgets) : route_budgets :=
  forNets env (fun inet rb =>
    forSinks env inet (fun ipin rb =>
      { rb with delay_target := (rb.delay_target.set inet ipin
          (min (0.5 * (rb.delay_min_budget inet ipin + rb.delay_max_budget inet ipin))
            (rb.delay_min_budget inet ipin + 0.1e-9))) }) rb) rb

/-- The function `route_budgets::keep_budget_in_bounds`, on the table `temp_budgets`. -/
def keep_budget_in_bounds (env : Env) (rb : route_budgets) (temp_budgets : Table) : Table :=
  forNets env (fun inet t =>
    forSinks env inet (fun ipin t =>
      let t1 := t.set inet ipin (max (t inet ipin) (rb.delay_lower_bound inet ipin))
      t1.set inet ipin (min (t1 inet ipin) (rb.delay_upper_bound inet ipin))) t) temp_budgets

/-- The function `route_budgets::keep_min_below_max_budget`. -/
def keep_min_below_max_budget (env : Env) (rb : route_budgets) : route_budgets :=
  forNets env (fun inet rb =>
    forSinks env inet (fun ipin rb =>
      if rb.delay_min_budget inet ipin > rb.delay_max_budget inet ipin then
        { rb with delay_min_budget :=
            (rb.delay_min_budget.set inet ipin (rb.delay_max_budget inet ipin)) }
      else rb) rb) rb

/-- Modelled from the spec: `find_minimum_tag` of the timing library, the first tag of
earliest time (`none` when the range is empty). -/
def find_minimum_tag : List TimingTag → Option TimingTag
  | [] => none
  | t :: ts => some (ts.foldl (fun best x => if x.time < best.time then x else best) t)

/-- Modelled from the spec: `find_maximum_tag` of the timing library, the first tag of
latest time (`none` when the range is empty). -/
def find_maximum_tag : List TimingTag → Option TimingTag
  | [] => none
  | t :: ts => some (ts.foldl (fun best x => if best.time < x.time then x else best) t)

/-- The tags of a node in the analysis of the given type:
`setup_tags(node, type)`, replaced by `hold_tags(node, type)` when the analysis is `HOLD`. -/
def tags_of (timing_analyzer : SetupHoldTimingInfo) (analysis : analysis_type)
    (node : NodeId) (type : TagType) : List TimingTag :=
  if analysis = analysis_type.HOLD then timing_analyzer.hold_tags node type
  else timing_analyzer.setup_tags node type

/-- The function `route_budgets::get_total_path_delay`; `-1` is its "no path" result.
The three iterator tests before the final `return` compare iterators of non-empty ranges
with `end()` and hold. -/
def get_total_path_delay (timing_analyzer : SetupHoldTimingInfo) (analysis : analysis_type)
    (timing_node : NodeId) : ℚ :=
  let arrival_tags := tags_of timing_analyzer analysis timing_node TagType.DATA_ARRIVAL
  let required_tags := tags_of timing_analyzer analysis timing_node TagType.DATA_REQUIRED
  match find_minimum_tag arrival_tags, find_maximum_tag required_tags with
  | some min_arrival_tag, some max_required_tag =>
    match max_required_tag.origin_node with
    | none => -1
    | some sink_node =>
      let sink_node_tags := tags_of timing_analyzer analysis sink_node TagType.DATA_REQUIRED
      match find_minimum_tag sink_node_tags with
      | none => -1
      | some min_sink_node_tag =>
        let final_required_time := min_sink_node_tag.time
        let future_path_delay := final_required_time - max_required_tag.time
        let past_path_delay := min_arrival_tag.time
        past_path_delay + future_path_delay
  | _, _ => -1

/-- The function `std::min(clb_min_slack, slack)` where `slack` may be `+infinity`. -/
def min_slack (clb_min_slack : ℚ) : Option ℚ → ℚ
  | none => clb_min_slack
  | some s => min clb_min_slack s

/-- The function `route_budgets::calculate_clb_pin_slack`. -/
def calculate_clb_pin_slack (env : Env) (rb : route_budgets) (inet ipin : Nat)
    (timing_info : SetupHoldTimingInfo) (type : analysis_type) : ℚ :=
  let net_pin := env.net_pin inet ipin
  let atom_pins := env.find_clb_pin_connected_atom_pins net_pin.block net_pin.block_pin
  atom_pins.foldl (fun clb_min_slack atom_pin =>
    if timing_info.setup_pin_slack atom_pin = none then clb_min_slack
    else if type = analysis_type.HOLD then
      min_slack clb_min_slack (timing_info.hold_pin_slack atom_pin)
    else min_slack clb_min_slack (timing_info.setup_pin_slack atom_pin))
    (rb.delay_upper_bound inet ipin)

/-- The `total_path_delay` that `allocate_slack` computes for a sink pin. -/
def total_path_delay (env : Env) (timing_info : SetupHoldTimingInfo)
    (analysis : analysis_type) (inet ipin : Nat) : ℚ :=
  let net_pin := env.net_pin inet ipin
  let atom_pins := env.find_clb_pin_connected_atom_pins net_pin.block net_pin.block_pin
  atom_pins.foldl (fun total atom_pin =>
    let timing_node := env.atom_pin_tnode atom_pin
    let new_total_path_delay := get_total_path_delay timing_info analysis timing_node
    if new_total_path_delay = -1 then total else max new_total_path_delay total) 0

/-- The body of the two loops of `allocate_slack` for the sink pin `ipin` of net `inet`;
the state is the table `temp_budgets` and the running `max_budget_change`. -/
def allocate_slack_pin (env : Env) (rb : route_budgets) (timing_info : SetupHoldTimingInfo)
    (net_delay : Table) (analysis : analysis_type) (inet ipin : Nat) (st : Table × ℚ) :
    Table × ℚ :=
  let total := total_path_delay env timing_info analysis inet ipin
  if total = 0 then (st.1.set inet ipin 0, st.2)
  else
    let path_slack :=
      if analysis = analysis_type.HOLD then
        calculate_clb_pin_slack env rb inet ipin timing_info analysis_type.HOLD
      else calculate_clb_pin_slack env rb inet ipin timing_info analysis_type.SETUP
    let temp :=
      if analysis = analysis_type.HOLD then
        st.1.set inet ipin (-1 * net_delay inet ipin * path_slack / total)
      else st.1.set inet ipin (net_delay inet ipin * path_slack / total)
    (temp, max st.2 (net_delay inet ipin * path_slack / total))

/-- The function `route_budgets::allocate_slack`: the new `temp_budgets` and the returned
`max_budget_change`. -/
def allocate_slack (env : Env) (rb : route_budgets) (timing_info : SetupHoldTimingInfo)
    (temp_budgets : Table) (net_delay : Table) (analysis : analysis_type) : Table × ℚ :=
  forNets env (fun inet st =>
    forSinks env inet (fun ipin st =>
      allocate_slack_pin env rb timing_info net_delay analysis inet ipin st) st)
    (temp_budgets, 0)

/-- The loop
`while (iteration < 3 || max_budget_change > 800e-12) { round; iteration++; if (iteration > 7) break; }`
of `allocate_slack_minimax_PERT`, where `round` runs the timing analysis, `allocate_slack` and
`keep_budget_in_bounds` and yields the new `max_budget_change`.  The result is the state
after the loop and the final value of `iteration`, the number of rounds performed. -/
def pert_while {σ : Type} (round : σ → σ × ℚ) (iteration : Nat) (max_budget_change : ℚ)
    (s : σ) : σ × Nat :=
  if iteration < 3 ∨ max_budget_change > 800e-12 then
    let r := round s
    if iteration + 1 > 7 then (r.1, iteration + 1)
    else pert_while round (iteration + 1) r.2 r.1
  else (s, iteration)
termination_by 8 - iteration
decreasing_by omega

/-- One round of the first loop of `allocate_slack_minimax_PERT`, on `delay_max_budget`
with analysis type `SETUP`. -/
def setup_round (env : Env) (net_delay : Table) (rb : route_budgets) : route_budgets × ℚ :=
  let timing_info := env.perform_sta rb.delay_max_budget
  let r := allocate_slack env rb timing_info rb.delay_max_budget net_delay analysis_type.SETUP
  let rb1 := { rb with delay_max_budget := r.1 }
  ({ rb1 with delay_max_budget := keep_budget_in_bounds env rb1 rb1.delay_max_budget }, r.2)

/-- One round of the second loop of `allocate_slack_minimax_PERT`, on `delay_min_budget`
with analysis type `HOLD`. -/
def hold_round (env : Env) (net_delay : Table) (rb : route_budgets) : route_budgets × ℚ :=
  let timing_info := env.perform_sta rb.delay_min_budget
  let r := allocate_slack env rb timing_info rb.delay_min_budget net_delay analysis_type.HOLD
  let rb1 := { rb with delay_min_budget := r.1 }
  ({ rb1 with delay_min_budget := keep_budget_in_bounds env rb1 rb1.delay_min_budget }, r.2)

/-- The state of `allocate_slack_minimax_PERT` after its first loop. -/
def minimax_phase1 (env : Env) (net_delay : Table) (rb : route_budgets) : route_budgets :=
  (pert_while (setup_round env net_delay) 0 900e-12 rb).1

/-- The state of `allocate_slack_minimax_PERT` after the copy of the max budgets into the
min budgets and its second loop. -/
def minimax_phase2 (env : Env) (net_delay : Table) (rb : route_budgets) : route_budgets :=
  let rb1 := forNets env (fun inet rb =>
    forSinks env inet (fun ipin rb =>
      { rb with delay_min_budget :=
          (rb.delay_min_budget.set inet ipin (rb.delay_max_budget inet ipin)) }) rb) rb
  (pert_while (hold_round env net_delay) 0 900e-12 rb1).1

/-- The function `route_budgets::allocate_slack_minimax_PERT`. -/
def allocate_slack_minimax_PERT (env : Env) (net_delay : Table) (rb : route_budgets) :
    route_budgets :=
  let rb1 := minimax_phase1 env net_delay rb
  let rb2 := minimax_phase2 env net_delay rb1
  let rb3 := keep_min_below_max_budget env rb2
  let bottom_range : ℚ := -1e-9
  let timing_info := env.perform_sta rb3.delay_min_budget
  let r := allocate_slack env rb3 timing_info rb3.delay_min_budget net_delay analysis_type.HOLD
  let rb4 := { rb3 with delay_min_budget := r.1 }
  let rb5 := forNets env (fun inet rb =>
    forSinks env inet (fun ipin rb =>
      { rb with delay_min_budget :=
          (rb.delay_min_budget.set inet ipin (max (rb.delay_min_budget inet ipin) bottom_range)) })
      rb) rb4
  keep_min_below_max_budget env rb5

/-- The body of the two loops of `allocate_slack_using_delays_and_criticalities` for the sink
pin `ipin` of net `inet`; the failure is that of
`VTR_ASSERT_MSG(..., "Delay budgets do not fit in delay bounds")`. -/
def allocate_slack_using_delays_and_criticalities_pin (env : Env) (net_delay : Table)
    (router_opts : t_router_opts) (inet ipin : Nat) (rb : route_budgets) :
    Except VtrError route_budgets :=
  let pin_criticality := env.calculate_clb_net_pin_criticality inet ipin
  let pin_criticality := max (pin_criticality - (1 - router_opts.max_criticality)) 0
  let pin_criticality := env.pow pin_criticality router_opts.criticality_exp
  let pin_criticality := min pin_criticality router_opts.max_criticality
  let rb := { rb with delay_min_budget := (rb.delay_min_budget.set inet ipin 0) }
  let rb := { rb with delay_lower_bound := (rb.delay_lower_bound.set inet ipin 0) }
  let rb := { rb with delay_upper_bound := (rb.delay_upper_bound.set inet ipin 100e-9) }
  let rb :=
    if pin_criticality = 0 then
      { rb with delay_max_budget :=
          (rb.delay_max_budget.set inet ipin (rb.delay_upper_bound inet ipin)) }
    else
      { rb with delay_max_budget :=
          (rb.delay_max_budget.set inet ipin
            (min (net_delay inet ipin / pin_criticality) (rb.delay_upper_bound inet ipin))) }
  if rb.delay_max_budget inet ipin ≥ rb.delay_min_budget inet ipin
      ∧ rb.delay_lower_bound inet ipin ≤ rb.delay_min_budget inet ipin
      ∧ rb.delay_upper_bound inet ipin ≥ rb.delay_max_budget inet ipin
      ∧ rb.delay_upper_bound inet ipin ≥ rb.delay_lower_bound inet ipin then
    Except.ok { rb with delay_target := (rb.delay_target.set inet ipin
      (min (0.5 * (rb.delay_min_budget inet ipin + rb.delay_max_budget inet ipin))
        (rb.delay_min_budget inet ipin + 0.1e-9))) }
  else Except.error VtrError.assertion_failed

/-- The function `route_budgets::allocate_slack_using_delays_and_criticalities`. -/
def allocate_slack_using_delays_and_criticalities (env : Env) (net_delay : Table)
    (router_opts : t_router_opts) (rb : route_budgets) : Except VtrError route_budgets :=
  forNetsM env (fun inet rb =>
    forSinksM env inet (fun ipin rb =>
      allocate_slack_using_delays_and_criticalities_pin env net_delay router_opts inet ipin rb)
      rb) rb

/-- The initialisation loop of `load_route_budgets` after the tables are allocated. -/
def init_bounds (env : Env) (rb : route_budgets) : route_budgets :=
  forNets env (fun inet rb =>
    forSinks env inet (fun ipin rb =>
      let rb := { rb with delay_lower_bound := (rb.delay_lower_bound.set inet ipin 0) }
      let rb := { rb with delay_upper_bound := (rb.delay_upper_bound.set inet ipin 100e-9) }
      { rb with delay_max_budget :=
          (rb.delay_max_budget.set inet ipin (rb.delay_lower_bound inet ipin)) }) rb) rb

/-- The function `route_budgets::load_route_budgets`.  The freshly allocated tables hold
indeterminate values: those of the incoming state. -/
def load_route_budgets (env : Env) (net_delay : Table) (router_opts : t_router_opts)
    (rb : route_budgets) : Except VtrError route_budgets :=
  if router_opts.routing_budgets_algorithm = e_routing_budgets_algorithm.DISABLE then
    Except.ok { rb with set := false }
  else
    let rb := init_bounds env rb
    if router_opts.routing_budgets_algorithm = e_routing_budgets_algorithm.MINIMAX then
      let rb := allocate_slack_minimax_PERT env net_delay rb
      let rb := calculate_delay_tagets env rb
      Except.ok { rb with set := true }
    else if router_opts.routing_budgets_algorithm = e_routing_budgets_algorithm.SCALE_DELAY then
      match allocate_slack_using_delays_and_criticalities env net_delay router_opts rb with
      | Except.ok rb => Except.ok { rb with set := true }
      | Except.error e => Except.error e
    else Except.ok { rb with set := true }

/-! ## Congestion feedback and accessors -/

def SHORT_PATH_EXP : ℚ := 0.5

def MIN_DELAY_DECREMENT : ℚ := 1e-9

/-- The function `route_budgets::update_congestion_times`. -/
def update_congestion_times (rb : route_budgets) (inet : Nat) : route_budgets :=
  { rb with num_times_congested :=
      fun i => if i = inet then rb.num_times_congested i + 1 else rb.num_times_congested i }

/-- The function `route_budgets::not_congested_this_iteration`. -/
def not_congested_this_iteration (rb : route_budgets) (inet : Nat) : route_budgets :=
  { rb with num_times_congested :=
      fun i => if i = inet then 0 else rb.num_times_congested i }

/-- The function `route_budgets::lower_budgets`. -/
def lower_budgets (env : Env) (rb : route_budgets) : route_budgets :=
  forNets env (fun inet rb =>
    if rb.num_times_congested inet ≥ 3 then
      forSinks env inet (fun ipin rb =>
        if rb.delay_min_budget inet ipin - rb.delay_lower_bound inet ipin ≥ 1e-9 then
          { rb with delay_min_budget :=
              (rb.delay_min_budget.set inet ipin
                (rb.delay_min_budget inet ipin - MIN_DELAY_DECREMENT)) }
        else rb) rb
    else rb) rb

/-- The function `route_budgets::get_delay_target`; the failure is that of
`VTR_ASSERT(ipin)`, the only check of the function (it does not read `set`). -/
def get_delay_target (rb : route_budgets) (inet ipin : Nat) : Except VtrError ℚ :=
  if ipin = 0 then Except.error VtrError.assertion_failed
  else Except.ok (rb.delay_target inet ipin)

/-- The function `route_budgets::get_min_delay_budget`, with the same only check. -/
def get_min_delay_budget (rb : route_budgets) (inet ipin : Nat) : Except VtrError ℚ :=
  if ipin = 0 then Except.error VtrError.assertion_failed
  else Except.ok (rb.delay_min_budget inet ipin)

/-- The function `route_budgets::get_max_delay_budget`, with the same only check. -/
def get_max_delay_budget (rb : route_budgets) (inet ipin : Nat) : Except VtrError ℚ :=
  if ipin = 0 then Except.error VtrError.assertion_failed
  else Except.ok (rb.delay_max_budget inet ipin)

/-- The function `route_budgets::get_crit_short_path`. -/
def get_crit_short_path (env : Env) (rb : route_budgets) (inet ipin : Nat) :
    Except VtrError ℚ :=
  if ipin = 0 then Except.error VtrError.assertion_failed
  else if rb.delay_target inet ipin = 0 then Except.ok 0
  else Except.ok (env.pow
    ((rb.delay_target inet ipin - rb.delay_lower_bound inet ipin) / rb.delay_target inet ipin)
    SHORT_PATH_EXP)

/-- The trace of a loop of `allocate_slack_minimax_PERT`: the state and `max_budget_change`
after `n` rounds (`900e-12` before the first round). -/
def rounds {σ : Type} (round : σ → σ × ℚ) (s : σ) : Nat → σ × ℚ
  | 0 => (s, 900e-12)
  | n + 1 => round (rounds round s n).1

/-! ## Derived notions used in the statements -/

/-- The five table entries and the congestion counter that the loops read and write at a pin. -/
structure PinView where
  min : ℚ
  max : ℚ
  target : ℚ
  lower_bound : ℚ
  upper_bound : ℚ
  congested : Nat

/-- The view of the state at pin `ipin` of net `inet`. -/
def route_budgets.view (rb : route_budgets) (inet ipin : Nat) : PinView :=
  ⟨rb.delay_min_budget inet ipin, rb.delay_max_budget inet ipin, rb.delay_target inet ipin,
    rb.delay_lower_bound inet ipin, rb.delay_upper_bound inet ipin, rb.num_times_congested inet⟩

/-- The value `allocate_slack` stores in `temp_budgets` for the sink pin `ipin` of net `inet`:
the entry its loop body writes there. -/
def allocate_slack_budget (env : Env) (rb : route_budgets) (timing_info : SetupHoldTimingInfo)
    (net_delay : Table) (analysis : analysis_type) (inet ipin : Nat) : ℚ :=
  (allocate_slack_pin env rb timing_info net_delay analysis inet ipin (fun _ _ => 0, 0)).1
    inet ipin

/-- The states `s` and `s1` agree on everything but `delay_max_budget`. -/
def same_but_max (s s1 : route_budgets) : Prop :=
  s1.delay_min_budget = s.delay_min_budget ∧ s1.delay_target = s.delay_target
    ∧ s1.delay_lower_bound = s.delay_lower_bound ∧ s1.delay_upper_bound = s.delay_upper_bound
    ∧ s1.num_times_congested = s.num_times_congested ∧ s1.set = s.set

/-- The states `s` and `s1` agree on everything but `delay_min_budget`. -/
def same_but_min (s s1 : route_budgets) : Prop :=
  s1.delay_max_budget = s.delay_max_budget ∧ s1.delay_target = s.delay_target
    ∧ s1.delay_lower_bound = s.delay_lower_bound ∧ s1.delay_upper_bound = s.delay_upper_bound
    ∧ s1.num_times_congested = s.num_times_congested ∧ s1.set = s.set

/-- The reshaped criticality of a sink pin in the words of the specification:
`c'' = min(max(c - (1 - m), 0)^e, m)` for the raw criticality `c` of the pin,
`m = max_criticality` and `e = criticality_exp`. -/
def reshaped_criticality (env : Env) (router_opts : t_router_opts) (inet ipin : Nat) : ℚ :=
  min (env.pow (max (env.calculate_clb_net_pin_criticality inet ipin
        - (1 - router_opts.max_criticality)) 0) router_opts.criticality_exp)
    router_opts.max_criticality

/-- The max budget of a sink pin under the criticality strategy in the words of the
specification: `100 ns` if `c'' = 0`, else `min(delay_estimate / c'', 100 ns)`. -/
def scaled_max_budget (env : Env) (net_delay : Table) (router_opts : t_router_opts)
    (inet ipin : Nat) : ℚ :=
  if reshaped_criticality env router_opts inet ipin = 0 then 100e-9
  else min (net_delay inet ipin / reshaped_criticality env router_opts inet ipin) 100e-9

/-- The assertion "Delay budgets do not fit in delay bounds" fails at some sink pin: the max
budget computed for it is negative. -/
def budgets_do_not_fit (env : Env) (net_delay : Table) (router_opts : t_router_opts) : Prop :=
  ∃ a b, env.isSink a b ∧ scaled_max_budget env net_delay router_opts a b < 0

/-- The writes of `allocate_slack_using_delays_and_criticalities` for one sink pin when its
assertion holds. -/
def scaled_pin_writes (env : Env) (net_delay : Table) (router_opts : t_router_opts)
    (inet ipin : Nat) (rb : route_budgets) : route_budgets :=
  { rb with
    delay_min_budget := (rb.delay_min_budget.set inet ipin 0)
    delay_lower_bound := (rb.delay_lower_bound.set inet ipin 0)
    delay_upper_bound := (rb.delay_upper_bound.set inet ipin 100e-9)
    delay_max_budget :=
      (rb.delay_max_budget.set inet ipin (scaled_max_budget env net_delay router_opts inet ipin))
    delay_target := (rb.delay_target.set inet ipin
      (min (0.5 * (0 + scaled_max_budget env net_delay router_opts inet ipin)) (0 + 0.1e-9))) }

/-- The loops of `allocate_slack_using_delays_and_criticalities` when every assertion holds. -/
def scaled_writes (env : Env) (net_delay : Table) (router_opts : t_router_opts)
    (rb : route_budgets) : route_budgets :=
  forNets env (fun inet st =>
    forSinks env inet (fun ipin st => scaled_pin_writes env net_delay router_opts inet ipin st)
      st) rb

/-- The round of the first loop of `allocate_slack_minimax_PERT` (analysis type `SETUP`) or of
its second loop (analysis type `HOLD`). -/
def pert_round (env : Env) (net_delay : Table) :
    analysis_type → route_budgets → route_budgets × ℚ
  | analysis_type.SETUP => setup_round env net_delay
  | analysis_type.HOLD => hold_round env net_delay

/-! ## The functions that divide, with every division checked -/

/-- The quotient `x / y` of the source, failing when the divisor `y` is zero. -/
def checked_div (x y : ℚ) : Except VtrError ℚ :=
  if y = 0 then Except.error VtrError.division_by_zero else Except.ok (x / y)

/-- The body of the loops of `allocate_slack` (see `allocate_slack_pin`) with its divisions by
`total_path_delay` checked. -/
def allocate_slack_pin_checked (env : Env) (rb : route_budgets)
    (timing_info : SetupHoldTimingInfo) (net_delay : Table) (analysis : analysis_type)
    (inet ipin : Nat) (st : Table × ℚ) : Except VtrError (Table × ℚ) :=
  let total := total_path_delay env timing_info analysis inet ipin
  if total = 0 then Except.ok (st.1.set inet ipin 0, st.2)
  else do
    let path_slack :=
      if analysis = analysis_type.HOLD then
        calculate_clb_pin_slack env rb inet ipin timing_info analysis_type.HOLD
      else calculate_clb_pin_slack env rb inet ipin timing_info analysis_type.SETUP
    let temp ←
      if analysis = analysis_type.HOLD then do
        let q ← checked_div (-1 * net_delay inet ipin * path_slack) total
        pure (st.1.set inet ipin q)
      else do
        let q ← checked_div (net_delay inet ipin * path_slack) total
        pure (st.1.set inet ipin q)
    let change ← checked_div (net_delay inet ipin * path_slack) total
    pure (temp, max st.2 change)

/-- The function `route_budgets::allocate_slack` with its divisions checked. -/
def allocate_slack_checked (env : Env) (rb : route_budgets) (timing_info : SetupHoldTimingInfo)
    (temp_budgets : Table) (net_delay : Table) (analysis : analysis_type) :
    Except VtrError (Table × ℚ) :=
  forNetsM env (fun inet st =>
    forSinksM env inet (fun ipin st =>
      allocate_slack_pin_checked env rb timing_info net_delay analysis inet ipin st) st)
    (temp_budgets, 0)

/-- The body of the loops of `allocate_slack_using_delays_and_criticalities` (see
`allocate_slack_using_delays_and_criticalities_pin`) with its division by the pin criticality
checked. -/
def allocate_slack_using_delays_and_criticalities_pin_checked (env : Env) (net_delay : Table)
    (router_opts : t_router_opts) (inet ipin : Nat) (rb : route_budgets) :
    Except VtrError route_budgets :=
  let pin_criticality := env.calculate_clb_net_pin_criticality inet ipin
  let pin_criticality := max (pin_criticality - (1 - router_opts.max_criticality)) 0
  let pin_criticality := env.pow pin_criticality router_opts.criticality_exp
  let pin_criticality := min pin_criticality router_opts.max_criticality
  let rb := { rb with delay_min_budget := (rb.delay_min_budget.set inet ipin 0) }
  let rb := { rb with delay_lower_bound := (rb.delay_lower_bound.set inet ipin 0) }
  let rb := { rb with delay_upper_bound := (rb.delay_upper_bound.set inet ipin 100e-9) }
  do
    let rb ←
      if pin_criticality = 0 then
        pure { rb with delay_max_budget :=
          (rb.delay_max_budget.set inet ipin (rb.delay_upper_bound inet ipin)) }
      else do
        let q ← checked_div (net_delay inet ipin) pin_criticality
        pure { rb with delay_max_budget :=
          (rb.delay_max_budget.set inet ipin (min q (rb.delay_upper_bound inet ipin))) }
    if rb.delay_max_budget inet ipin ≥ rb.delay_min_budget inet ipin
        ∧ rb.delay_lower_bound inet ipin ≤ rb.delay_min_budget inet ipin
        ∧ rb.delay_upper_bound inet ipin ≥ rb.delay_max_budget inet ipin
        ∧ rb.delay_upper_bound inet ipin ≥ rb.delay_lower_bound inet ipin then
      Except.ok { rb with delay_target := (rb.delay_target.set inet ipin
        (min (0.5 * (rb.delay_min_budget inet ipin + rb.delay_max_budget inet ipin))
          (rb.delay_min_budget inet ipin + 0.1e-9))) }
    else Except.error VtrError.assertion_failed

/-- The function `route_budgets::allocate_slack_using_delays_and_criticalities` with its
division checked. -/
def allocate_slack_using_delays_and_criticalities_checked (env : Env) (net_delay : Table)
    (router_opts : t_router_opts) (rb : route_budgets) : Except VtrError route_budgets :=
  forNetsM env (fun inet rb =>
    forSinksM env inet (fun ipin rb =>
      allocate_slack_using_delays_and_criticalities_pin_checked env net_delay router_opts
        inet ipin rb) rb) rb

/-- The function `route_budgets::get_crit_short_path` with its division by the target
checked. -/
def get_crit_short_path_checked (env : Env) (rb : route_budgets) (inet ipin : Nat) :
    Except VtrError ℚ :=
  if ipin = 0 then Except.error VtrError.assertion_failed
  else if rb.delay_target inet ipin = 0 then Except.ok 0
  else do
    let q ← checked_div (rb.delay_target inet ipin - rb.delay_lower_bound inet ipin)
      (rb.delay_target inet ipin)
    pure (env.pow q SHORT_PATH_EXP)

/-- The quantity `net_delay[inet][ipin] * path_slack / total_path_delay` that `allocate_slack`
computes for a sink pin whose `total_path_delay` is not zero. -/
def slack_share (env : Env) (rb : route_budgets) (timing_info : SetupHoldTimingInfo)
    (net_delay : Table) (analysis : analysis_type) (inet ipin : Nat) : ℚ :=
  net_delay inet ipin * calculate_clb_pin_slack env rb inet ipin timing_info analysis
    / total_path_delay env timing_info analysis inet ipin

/-- The atom pins connected to pin `ipin` of net `inet`. -/
def Env.atom_pins (env : Env) (inet ipin : Nat) : List AtomPinId :=
  env.find_clb_pin_connected_atom_pins (env.net_pin inet ipin).block
    (env.net_pin inet ipin).block_pin

/-- The slack of an atom pin in the analysis of the given type (`none` is `+infinity`). -/
def pin_slack (timing_info : SetupHoldTimingInfo) (type : analysis_type)
    (atom_pin : AtomPinId) : Option ℚ :=
  if type = analysis_type.HOLD then timing_info.hold_pin_slack atom_pin
  else timing_info.setup_pin_slack atom_pin

/-! ## Sequences of congestion reports -/

/-- A report of the router about a net after a routing iteration, named after the call it
makes: `update_congestion_times(inet)` or `not_congested_this_iteration(inet)`. -/
inductive congestion_report where
  | update_congestion_times (inet : Nat)
  | not_congested_this_iteration (inet : Nat)
deriving DecidableEq

/-- The net a report is about. -/
def congestion_report.inet : congestion_report → Nat
  | congestion_report.update_congestion_times i => i
  | congestion_report.not_congested_this_iteration i => i

/-- Whether a report says that its net was congested. -/
def congestion_report.congested : congestion_report → Bool
  | congestion_report.update_congestion_times _ => true
  | congestion_report.not_congested_this_iteration _ => false

/-- The call a report makes on the object. -/
def route_budgets.report (rb : route_budgets) : congestion_report → route_budgets
  | congestion_report.update_congestion_times i => update_congestion_times rb i
  | congestion_report.not_congested_this_iteration i => not_congested_this_iteration rb i

/-- The calls of a sequence of reports, in order. -/
def route_budgets.reports (rb : route_budgets) (l : List congestion_report) : route_budgets :=
  l.foldl route_budgets.report rb

/-- The reports about net `inet`, the most recent first. -/
def recent_reports (inet : Nat) (l : List congestion_report) : List congestion_report :=
  (l.filter (fun r => r.inet = inet)).reverse

/-- The length of the trailing run of `update_congestion_times` calls for net `inet`: the
number of reports about the net since its last `not_congested_this_iteration` (or since the
start), in the words of the claim. -/
def trailing_run (inet : Nat) (l : List congestion_report) : Nat :=
  ((recent_reports inet l).takeWhile congestion_report.congested).length

/-! ## An example design -/

/-- A design of one net with a driver and one sink pin, whose sink resolves to one atom pin.
The timing analysis always reports a slack of `1 ns` and a total path delay of `1 ns`, so a
loop of `allocate_slack_minimax_PERT` never sees a change of at most `800 ps`; every pin has
raw criticality `crit`, and `pow x e` is `x` (the power for the exponent 1). -/
def example_env (crit : ℚ) : Env where
  net := [⟨[⟨0, 0⟩, ⟨1, 0⟩]⟩]
  find_clb_pin_connected_atom_pins := fun _ _ => [0]
  atom_pin_tnode := fun a => a
  perform_sta := fun _ =>
    { setup_pin_slack := fun _ => some 1e-9
      hold_pin_slack := fun _ => some 1e-9
      setup_tags := fun _ _ => [⟨1e-9, some 0⟩]
      hold_tags := fun _ _ => [⟨1e-9, some 0⟩] }
  calculate_clb_net_pin_criticality := fun _ _ => crit
  pow := fun x _ => x

/-- The example design with an oracle that reports the setup slack `setup` and the hold
slack `hold` for every atom pin (`none` is `+infinity`); the total path delay stays `1 ns`. -/
def example_env_slack (setup hold : Option ℚ) : Env where
  net := [⟨[⟨0, 0⟩, ⟨1, 0⟩]⟩]
  find_clb_pin_connected_atom_pins := fun _ _ => [0]
  atom_pin_tnode := fun a => a
  perform_sta := fun _ =>
    { setup_pin_slack := fun _ => setup
      hold_pin_slack := fun _ => hold
      setup_tags := fun _ _ => [⟨1e-9, some 0⟩]
      hold_tags := fun _ _ => [⟨1e-9, some 0⟩] }
  calculate_clb_net_pin_criticality := fun _ _ => 0
  pow := fun x _ => x

/-- A delay estimate of `5 ns` for every pin. -/
def example_net_delay : Table := fun _ _ => 5e-9

/-- A state whose tables hold `7` everywhere. -/
def example_mem : route_budgets :=
  ⟨fun _ _ => 7, fun _ _ => 7, fun _ _ => 7, fun _ _ => 7, fun _ _ => 7, fun _ => 0, false⟩

/-- The router options with the given strategy, `max_criticality = 0.99` and
`criticality_exp = 1`. -/
def example_opts (alg : e_routing_budgets_algorithm) : t_router_opts :=
  ⟨alg, 0.99, 1⟩

/-- A loaded state of the example design whose net has been reported congested 3 times in a
row: every pin has `lower_bound = 0`, `upper_bound = max = 100 ns` and the min budget and
target `mn`. -/
def example_congested (mn : ℚ) : route_budgets :=
  ⟨fun _ _ => mn, fun _ _ => 100e-9, fun _ _ => mn, fun _ _ => 0, fun _ _ => 100e-9,
    fun _ => 3, true⟩

/-- The state of the example design after the initialisation of `load_route_budgets` and one
round of the first loop of `allocate_slack_minimax_PERT`. -/
def example_round1 : route_budgets :=
  (setup_round (example_env 0) example_net_delay (init_bounds (example_env 0) example_mem)).1

/-! ## Lemmas on the loops -/

theorem foldl_preserve {σ κ β : Type} (g : σ → β) (body : κ → σ → σ)
    (h : ∀ i s, g (body i s) = g s) (l : List κ) (s : σ) :
    g (l.foldl (fun st i => body i st) s) = g s := by
  induction l generalizing s with
  | nil => rfl
  | cons i l ih => rw [List.foldl_cons, ih, h]

theorem foldl_pointwise {σ α : Type} (proj : σ → Nat → α) (f : Nat → α → α)
    (body : Nat → σ → σ)
    (h : ∀ i s k, proj (body i s) k = if k = i then f i (proj s k) else proj s k)
    (l : List Nat) (hl : l.Nodup) (s : σ) (k : Nat) :
    proj (l.foldl (fun st i => body i st) s) k = if k ∈ l then f k (proj s k) else proj s k := by
  induction l generalizing s with
  | nil => simp
  | cons i l ih =>
    rw [List.foldl_cons, ih (List.nodup_cons.mp hl).2, h]
    have hi : i ∉ l := (List.nodup_cons.mp hl).1
    by_cases hk : k = i
    · subst hk
      simp [hi]
    · by_cases hkl : k ∈ l <;> simp [hk, hkl]

theorem forSinks_preserve {σ β : Type} (env : Env) (inet : Nat) (g : σ → β)
    (body : Nat → σ → σ) (h : ∀ j s, g (body j s) = g s) (s : σ) :
    g (forSinks env inet body s) = g s :=
  foldl_preserve g body h _ s

theorem forNets_preserve {σ β : Type} (env : Env) (g : σ → β)
    (body : Nat → σ → σ) (h : ∀ i s, g (body i s) = g s) (s : σ) :
    g (forNets env body s) = g s :=
  foldl_preserve g body h _ s

theorem forSinks_entry {σ α : Type} (env : Env) (i : Nat) (proj : σ → Nat → Nat → α)
    (f : Nat → α → α) (body : Nat → σ → σ)
    (h : ∀ j s a b, proj (body j s) a b
      = if a = i ∧ b = j then f j (proj s a b) else proj s a b)
    (s : σ) (a b : Nat) :
    proj (forSinks env i body s) a b
      = if a = i ∧ 1 ≤ b ∧ b < env.num_pins i then f b (proj s a b) else proj s a b := by
  by_cases ha : a = i
  · subst ha
    have := foldl_pointwise (fun st k => proj st a k) f body
      (fun j st k => by simpa using h j st a k)
      (List.range' 1 (env.num_pins a - 1)) (List.nodup_range' 1 _) s b
    unfold forSinks
    rw [this]
    have hm : b ∈ List.range' 1 (env.num_pins a - 1) ↔ (1 ≤ b ∧ b < env.num_pins a) := by
      rw [List.mem_range'_1]; omega
    simp [hm]
  · have := forSinks_preserve env i (fun st => proj st a b) body
      (fun j st => by simpa [ha] using h j st a b) s
    simpa [ha] using this

theorem forNets_entry {σ α : Type} (env : Env) (proj : σ → Nat → Nat → α)
    (g : Nat → Nat → α → α) (body : Nat → σ → σ)
    (h : ∀ i s a b, proj (body i s) a b = if a = i then g i b (proj s a b) else proj s a b)
    (s : σ) (a b : Nat) :
    proj (forNets env body s) a b
      = if a < env.net.length then g a b (proj s a b) else proj s a b := by
  have := foldl_pointwise (fun st k => proj st k b) (fun k x => g k b x) body
    (fun i st k => h i st k b) (List.range env.net.length) (List.nodup_range _) s a
  unfold forNets
  rw [this]
  simp

theorem forNets_forSinks_entry {σ α : Type} (env : Env) (proj : σ → Nat → Nat → α)
    (f : Nat → Nat → α → α) (body : Nat → Nat → σ → σ)
    (h : ∀ i j s a b, proj (body i j s) a b
      = if a = i ∧ b = j then f i j (proj s a b) else proj s a b)
    (s : σ) (a b : Nat) :
    proj (forNets env (fun inet st => forSinks env inet (fun ipin st => body inet ipin st) st) s)
        a b
      = if env.isSink a b then f a b (proj s a b) else proj s a b := by
  have := forNets_entry env proj
    (fun i b x => if 1 ≤ b ∧ b < env.num_pins i then f i b x else x)
    (fun inet st => forSinks env inet (fun ipin st => body inet ipin st) st)
    (fun i st a b => by
      rw [forSinks_entry env i proj (f i) (fun ipin st => body i ipin st) (h i) st a b]
      by_cases ha : a = i <;> simp [ha]) s a b
  rw [this]
  unfold Env.isSink
  by_cases h1 : a < env.net.length <;> by_cases h2 : 1 ≤ b ∧ b < env.num_pins a <;> simp [h1, h2]

theorem forNets_forSinks_preserve {σ β : Type} (env : Env) (g : σ → β)
    (body : Nat → Nat → σ → σ) (h : ∀ i j s, g (body i j s) = g s) (s : σ) :
    g (forNets env (fun inet st => forSinks env inet (fun ipin st => body inet ipin st) st) s)
      = g s :=
  forNets_preserve env g _ (fun i st => forSinks_preserve env i g _ (h i) st) s

theorem foldlM_guard_ok {σ κ : Type} (A : κ → Prop) (pbody : κ → σ → σ)
    (body : κ → σ → Except VtrError σ)
    (h : ∀ i s, A i → body i s = Except.ok (pbody i s))
    (l : List κ) (s : σ) (hl : ∀ i ∈ l, A i) :
    l.foldlM (fun st i => body i st) s = Except.ok (l.foldl (fun st i => pbody i st) s) := by
  induction l generalizing s with
  | nil => rfl
  | cons i l ih =>
    rw [List.foldlM_cons, h i s (hl i (List.mem_cons_self _ _))]
    exact ih _ (fun k hk => hl k (List.mem_cons_of_mem _ hk))

theorem foldlM_guard_error {σ κ : Type} (A : κ → Prop) (pbody : κ → σ → σ)
    (body : κ → σ → Except VtrError σ) (e : VtrError)
    (h : ∀ i s, A i → body i s = Except.ok (pbody i s))
    (h' : ∀ i s, ¬ A i → body i s = Except.error e)
    (l : List κ) (s : σ) (hl : ¬ ∀ i ∈ l, A i) :
    l.foldlM (fun st i => body i st) s = Except.error e := by
  induction l generalizing s with
  | nil => simp at hl
  | cons i l ih =>
    rw [List.foldlM_cons]
    by_cases hi : A i
    · rw [h i s hi]
      refine ih _ (fun hall => hl ?_)
      intro k hk
      rcases List.mem_cons.mp hk with rfl | hk
      · exact hi
      · exact hall k hk
    · rw [h' i s hi]
      rfl

theorem mem_sinks_iff (env : Env) (a b : Nat) :
    (a ∈ List.range env.net.length ∧ b ∈ List.range' 1 (env.num_pins a - 1))
      ↔ env.isSink a b := by
  unfold Env.isSink
  rw [List.mem_range, List.mem_range'_1]
  omega

/-- A loop over the sink pins whose body asserts a condition `A` of the pin and otherwise is
`pbody` succeeds when `A` holds at every sink pin, with the result of the loop of `pbody`. -/
theorem forNetsM_forSinksM_ok {σ : Type} (env : Env) (A : Nat → Nat → Prop)
    (pbody : Nat → Nat → σ → σ) (body : Nat → Nat → σ → Except VtrError σ)
    (h : ∀ i j s, A i j → body i j s = Except.ok (pbody i j s))
    (s : σ) (hA : ∀ a b, env.isSink a b → A a b) :
    forNetsM env (fun inet st => forSinksM env inet (fun ipin st => body inet ipin st) st) s
      = Except.ok
          (forNets env (fun inet st => forSinks env inet (fun ipin st => pbody inet ipin st) st)
            s) := by
  unfold forNetsM forNets
  refine foldlM_guard_ok (fun i => ∀ j ∈ List.range' 1 (env.num_pins i - 1), A i j)
    (fun inet st => forSinks env inet (fun ipin st => pbody inet ipin st) st)
    (fun inet st => forSinksM env inet (fun ipin st => body inet ipin st) st)
    (fun i st hi => ?_) _ s (fun i hi j hj => hA i j ((mem_sinks_iff env i j).mp ⟨hi, hj⟩))
  exact foldlM_guard_ok (A i) (pbody i) (body i) (h i) _ st hi

/-- The same loop fails the assertion when `A` fails at some sink pin. -/
theorem forNetsM_forSinksM_error {σ : Type} (env : Env) (A : Nat → Nat → Prop)
    (pbody : Nat → Nat → σ → σ) (body : Nat → Nat → σ → Except VtrError σ) (e : VtrError)
    (h : ∀ i j s, A i j → body i j s = Except.ok (pbody i j s))
    (h' : ∀ i j s, ¬ A i j → body i j s = Except.error e)
    (s : σ) (hA : ¬ ∀ a b, env.isSink a b → A a b) :
    forNetsM env (fun inet st => forSinksM env inet (fun ipin st => body inet ipin st) st) s
      = Except.error e := by
  unfold forNetsM
  refine foldlM_guard_error (fun i => ∀ j ∈ List.range' 1 (env.num_pins i - 1), A i j)
    (fun inet st => forSinks env inet (fun ipin st => pbody inet ipin st) st)
    (fun inet st => forSinksM env inet (fun ipin st => body inet ipin st) st) e
    (fun i st hi => ?_) (fun i st hi => ?_) _ s
    (fun hall => hA (fun a b hs => hall a ((mem_sinks_iff env a b).mpr hs).1 b
      ((mem_sinks_iff env a b).mpr hs).2))
  · exact foldlM_guard_ok (A i) (pbody i) (body i) (h i) _ st hi
  · exact foldlM_guard_error (A i) (pbody i) (body i) e (h i) (h' i) _ st hi

theorem pert_while_unfold {σ : Type} (round : σ → σ × ℚ) (i : Nat) (c : ℚ) (s : σ) :
    pert_while round i c s
      = if i < 3 ∨ c > 800e-12 then
          (if i + 1 > 7 then ((round s).1, i + 1)
           else pert_while round (i + 1) (round s).2 (round s).1)
        else (s, i) := by
  rw [pert_while]

theorem pert_while_trace {σ : Type} (round : σ → σ × ℚ) (s : σ) :
    pert_while round 0 900e-12 s
      = if (rounds round s 3).2 ≤ 800e-12 then ((rounds round s 3).1, 3)
        else if (rounds round s 4).2 ≤ 800e-12 then ((rounds round s 4).1, 4)
        else if (rounds round s 5).2 ≤ 800e-12 then ((rounds round s 5).1, 5)
        else if (rounds round s 6).2 ≤ 800e-12 then ((rounds round s 6).1, 6)
        else if (rounds round s 7).2 ≤ 800e-12 then ((rounds round s 7).1, 7)
        else ((rounds round s 8).1, 8) := by
  have step : ∀ (i : Nat), 3 ≤ i → i < 7 →
      pert_while round i (rounds round s i).2 (rounds round s i).1
        = if (rounds round s i).2 ≤ 800e-12 then ((rounds round s i).1, i)
          else pert_while round (i + 1) (rounds round s (i + 1)).2 (rounds round s (i + 1)).1 := by
    intro i h3 h7
    rw [pert_while_unfold]
    have h1 : ¬ i < 3 := by omega
    have h2 : ¬ i + 1 > 7 := by omega
    by_cases hc : (rounds round s i).2 ≤ 800e-12
    · have : ¬ (rounds round s i).2 > 800e-12 := not_lt.mpr hc
      simp only [h1, this, or_self, if_false, hc, if_true]
    · have : (rounds round s i).2 > 800e-12 := not_le.mp hc
      simp only [h1, this, or_true, if_true, h2, if_false, hc, rounds]
  have early : ∀ (i : Nat), i < 3 → ∀ c,
      pert_while round i c (rounds round s i).1
        = pert_while round (i + 1) (rounds round s (i + 1)).2 (rounds round s (i + 1)).1 := by
    intro i h3 c
    rw [pert_while_unfold]
    have h2 : ¬ i + 1 > 7 := by omega
    simp only [h3, true_or, if_true, h2, if_false, rounds]
  have last : pert_while round 7 (rounds round s 7).2 (rounds round s 7).1
        = if (rounds round s 7).2 ≤ 800e-12 then ((rounds round s 7).1, 7)
          else ((rounds round s 8).1, 8) := by
    rw [pert_while_unfold]
    by_cases hc : (rounds round s 7).2 ≤ 800e-12
    · have : ¬ (rounds round s 7).2 > 800e-12 := not_lt.mpr hc
      simp only [show ¬ (7 < 3) by omega, this, or_self, if_false, hc, if_true]
    · have : (rounds round s 7).2 > 800e-12 := not_le.mp hc
      simp only [this, or_true, if_true, show 7 + 1 > 7 by omega, hc, if_false]
      rfl
  have e0 := early 0 (by omega) 900e-12
  have e1 := early 1 (by omega) (rounds round s 1).2
  have e2 := early 2 (by omega) (rounds round s 2).2
  have s3 := step 3 (by omega) (by omega)
  have s4 := step 4 (by omega) (by omega)
  have s5 := step 5 (by omega) (by omega)
  have s6 := step 6 (by omega) (by omega)
  simp only [Nat.reduceAdd] at e0 e1 e2 s3 s4 s5 s6
  have r0 : (rounds round s 0).1 = s := rfl
  rw [r0] at e0
  rw [e0, e1, e2, s3, s4, s5, s6, last]

/-- The number of rounds a loop performs and the state it ends in. -/
theorem pert_while_rounds {σ : Type} (round : σ → σ × ℚ) (s : σ) :
    ∃ N, 3 ≤ N ∧ N ≤ 8 ∧ pert_while round 0 900e-12 s = ((rounds round s N).1, N) := by
  rw [pert_while_trace]
  split_ifs
  · exact ⟨3, by omega, by omega, rfl⟩
  · exact ⟨4, by omega, by omega, rfl⟩
  · exact ⟨5, by omega, by omega, rfl⟩
  · exact ⟨6, by omega, by omega, rfl⟩
  · exact ⟨7, by omega, by omega, rfl⟩
  · exact ⟨8, by omega, by omega, rfl⟩

/-! ## What each operation does at a pin -/

theorem init_bounds_view (env : Env) (rb : route_budgets) (a b : Nat) :
    (init_bounds env rb).view a b
      = if env.isSink a b then
          { rb.view a b with lower_bound := 0, upper_bound := 100e-9, max := 0 }
        else rb.view a b := by
  unfold init_bounds
  rw [forNets_forSinks_entry env route_budgets.view
    (fun _ _ v => { v with lower_bound := 0, upper_bound := 100e-9, max := 0 })]
  intro i j s a b
  by_cases h : a = i ∧ b = j <;> simp [route_budgets.view, Table.set, h]

theorem init_bounds_set (env : Env) (rb : route_budgets) :
    (init_bounds env rb).set = rb.set := by
  unfold init_bounds
  refine forNets_forSinks_preserve env (fun s => s.set) _ (fun i j s => ?_) rb
  rfl

theorem init_bounds_congested (env : Env) (rb : route_budgets) :
    (init_bounds env rb).num_times_congested = rb.num_times_congested := by
  unfold init_bounds
  refine forNets_forSinks_preserve env (fun s => s.num_times_congested) _ (fun i j s => ?_) rb
  rfl

theorem calculate_delay_tagets_view (env : Env) (rb : route_budgets) (a b : Nat) :
    (calculate_delay_tagets env rb).view a b
      = if env.isSink a b then
          { rb.view a b with
            target := min (0.5 * ((rb.view a b).min + (rb.view a b).max))
              ((rb.view a b).min + 0.1e-9) }
        else rb.view a b := by
  unfold calculate_delay_tagets
  rw [forNets_forSinks_entry env route_budgets.view
    (fun _ _ v => { v with target := min (0.5 * (v.min + v.max)) (v.min + 0.1e-9) })]
  intro i j s a b
  by_cases h : a = i ∧ b = j
  · obtain ⟨rfl, rfl⟩ := h
    simp [route_budgets.view, Table.set]
  · simp [route_budgets.view, Table.set, h]

theorem calculate_delay_tagets_set (env : Env) (rb : route_budgets) :
    (calculate_delay_tagets env rb).set = rb.set := by
  unfold calculate_delay_tagets
  refine forNets_forSinks_preserve env (fun s => s.set) _ (fun i j s => ?_) rb
  rfl

theorem keep_budget_in_bounds_apply (env : Env) (rb : route_budgets) (t : Table) (a b : Nat) :
    keep_budget_in_bounds env rb t a b
      = if env.isSink a b then
          min (max (t a b) (rb.delay_lower_bound a b)) (rb.delay_upper_bound a b)
        else t a b := by
  unfold keep_budget_in_bounds
  rw [forNets_forSinks_entry env (fun (t : Table) a b => t a b)
    (fun i j x => min (max x (rb.delay_lower_bound i j)) (rb.delay_upper_bound i j))]
  intro i j s a b
  by_cases h : a = i ∧ b = j
  · obtain ⟨rfl, rfl⟩ := h
    simp [Table.set]
  · simp [Table.set, h]

theorem keep_min_below_max_budget_view (env : Env) (rb : route_budgets) (a b : Nat) :
    (keep_min_below_max_budget env rb).view a b
      = if env.isSink a b ∧ (rb.view a b).min > (rb.view a b).max then
          { rb.view a b with min := (rb.view a b).max }
        else rb.view a b := by
  unfold keep_min_below_max_budget
  rw [forNets_forSinks_entry env route_budgets.view
    (fun _ _ v => if v.min > v.max then { v with min := v.max } else v)]
  · by_cases h1 : env.isSink a b <;> simp [h1]
  · intro i j s a b
    by_cases h : a = i ∧ b = j
    · obtain ⟨rfl, rfl⟩ := h
      by_cases h2 : s.delay_min_budget a b > s.delay_max_budget a b <;>
        simp [route_budgets.view, Table.set, h2]
    · by_cases h2 : s.delay_min_budget i j > s.delay_max_budget i j <;>
        simp [route_budgets.view, Table.set, h, h2]

theorem keep_min_below_max_budget_set (env : Env) (rb : route_budgets) :
    (keep_min_below_max_budget env rb).set = rb.set := by
  unfold keep_min_below_max_budget
  refine forNets_forSinks_preserve env (fun s => s.set) _ (fun i j s => ?_) rb
  by_cases h2 : s.delay_min_budget i j > s.delay_max_budget i j <;> simp [h2]

theorem allocate_slack_pin_fst (env : Env) (rb : route_budgets)
    (timing_info : SetupHoldTimingInfo) (net_delay : Table) (analysis : analysis_type)
    (i j : Nat) (st : Table × ℚ) (a b : Nat) :
    (allocate_slack_pin env rb timing_info net_delay analysis i j st).1 a b
      = if a = i ∧ b = j then allocate_slack_budget env rb timing_info net_delay analysis i j
        else st.1 a b := by
  unfold allocate_slack_budget allocate_slack_pin
  by_cases h : a = i ∧ b = j
  · obtain ⟨rfl, rfl⟩ := h
    cases analysis <;> simp only [] <;> split_ifs <;> simp_all [Table.set]
  · cases analysis <;> simp only [] <;> split_ifs <;> simp_all [Table.set]

theorem allocate_slack_fst (env : Env) (rb : route_budgets) (timing_info : SetupHoldTimingInfo)
    (t net_delay : Table) (analysis : analysis_type) (a b : Nat) :
    (allocate_slack env rb timing_info t net_delay analysis).1 a b
      = if env.isSink a b then allocate_slack_budget env rb timing_info net_delay analysis a b
        else t a b := by
  unfold allocate_slack
  rw [forNets_forSinks_entry env (fun (st : Table × ℚ) a b => st.1 a b)
    (fun i j _ => allocate_slack_budget env rb timing_info net_delay analysis i j)
    (fun i j st => allocate_slack_pin env rb timing_info net_delay analysis i j st)]
  intro i j st a b
  exact allocate_slack_pin_fst env rb timing_info net_delay analysis i j st a b

theorem clamp_bounds (x lb ub : ℚ) (h : lb ≤ ub) :
    lb ≤ min (max x lb) ub ∧ min (max x lb) ub ≤ ub :=
  ⟨le_min (le_max_right _ _) h, min_le_right _ _⟩

theorem setup_round_max (env : Env) (net_delay : Table) (rb : route_budgets) (a b : Nat) :
    (setup_round env net_delay rb).1.delay_max_budget a b
      = if env.isSink a b then
          min (max (allocate_slack_budget env rb (env.perform_sta rb.delay_max_budget)
            net_delay analysis_type.SETUP a b) (rb.delay_lower_bound a b))
            (rb.delay_upper_bound a b)
        else rb.delay_max_budget a b := by
  unfold setup_round
  simp only [keep_budget_in_bounds_apply, allocate_slack_fst]
  by_cases h : env.isSink a b <;> simp [h]

theorem hold_round_min (env : Env) (net_delay : Table) (rb : route_budgets) (a b : Nat) :
    (hold_round env net_delay rb).1.delay_min_budget a b
      = if env.isSink a b then
          min (max (allocate_slack_budget env rb (env.perform_sta rb.delay_min_budget)
            net_delay analysis_type.HOLD a b) (rb.delay_lower_bound a b))
            (rb.delay_upper_bound a b)
        else rb.delay_min_budget a b := by
  unfold hold_round
  simp only [keep_budget_in_bounds_apply, allocate_slack_fst]
  by_cases h : env.isSink a b <;> simp [h]

theorem rounds_setup_frame (env : Env) (net_delay : Table) (rb : route_budgets) (n : Nat) :
    same_but_max rb (rounds (setup_round env net_delay) rb n).1 := by
  induction n with
  | zero => exact ⟨rfl, rfl, rfl, rfl, rfl, rfl⟩
  | succ n ih =>
    obtain ⟨h1, h2, h3, h4, h5, h6⟩ := ih
    exact ⟨h1, h2, h3, h4, h5, h6⟩

theorem rounds_hold_frame (env : Env) (net_delay : Table) (rb : route_budgets) (n : Nat) :
    same_but_min rb (rounds (hold_round env net_delay) rb n).1 := by
  induction n with
  | zero => exact ⟨rfl, rfl, rfl, rfl, rfl, rfl⟩
  | succ n ih =>
    obtain ⟨h1, h2, h3, h4, h5, h6⟩ := ih
    exact ⟨h1, h2, h3, h4, h5, h6⟩

/-- After at least one round of the first loop every sink's max budget is its clamped
allocation, hence inside the bounds. -/
theorem rounds_setup_max_bounds (env : Env) (net_delay : Table) (rb : route_budgets) (n : Nat)
    (hn : 1 ≤ n) (a b : Nat) (hs : env.isSink a b)
    (hb : rb.delay_lower_bound a b ≤ rb.delay_upper_bound a b) :
    rb.delay_lower_bound a b ≤ (rounds (setup_round env net_delay) rb n).1.delay_max_budget a b
      ∧ (rounds (setup_round env net_delay) rb n).1.delay_max_budget a b
          ≤ rb.delay_upper_bound a b := by
  obtain ⟨m, rfl⟩ : ∃ m, n = m + 1 := ⟨n - 1, by omega⟩
  obtain ⟨-, -, h3, h4, -, -⟩ := rounds_setup_frame env net_delay rb m
  show _ ≤ (setup_round env net_delay (rounds (setup_round env net_delay) rb m).1).1.delay_max_budget a b
    ∧ (setup_round env net_delay (rounds (setup_round env net_delay) rb m).1).1.delay_max_budget a b ≤ _
  rw [setup_round_max, if_pos hs, h3, h4]
  exact clamp_bounds _ _ _ hb

theorem same_but_min_refl (s : route_budgets) : same_but_min s s :=
  ⟨rfl, rfl, rfl, rfl, rfl, rfl⟩

theorem same_but_min_trans {s s1 s2 : route_budgets} (h1 : same_but_min s s1)
    (h2 : same_but_min s1 s2) : same_but_min s s2 :=
  ⟨h2.1.trans h1.1, h2.2.1.trans h1.2.1, h2.2.2.1.trans h1.2.2.1,
    h2.2.2.2.1.trans h1.2.2.2.1, h2.2.2.2.2.1.trans h1.2.2.2.2.1,
    h2.2.2.2.2.2.trans h1.2.2.2.2.2⟩

/-- A loop over the sink pins whose body writes `delay_min_budget` only writes
`delay_min_budget` only. -/
theorem forNets_forSinks_same_but_min (env : Env) (body : Nat → Nat → route_budgets → route_budgets)
    (h : ∀ i j s, same_but_min s (body i j s)) (s : route_budgets) :
    same_but_min s
      (forNets env (fun inet st => forSinks env inet (fun ipin st => body inet ipin st) st) s) := by
  have := forNets_forSinks_preserve env
    (fun s : route_budgets => (s.delay_max_budget, s.delay_target, s.delay_lower_bound,
      s.delay_upper_bound, s.num_times_congested, s.set)) body
    (fun i j s => by
      obtain ⟨a1, a2, a3, a4, a5, a6⟩ := h i j s
      simp only [a1, a2, a3, a4, a5, a6]) s
  simp only [Prod.mk.injEq] at this
  exact this

theorem keep_min_below_max_budget_frame (env : Env) (rb : route_budgets) :
    same_but_min rb (keep_min_below_max_budget env rb) := by
  unfold keep_min_below_max_budget
  refine forNets_forSinks_same_but_min env _ (fun i j s => ?_) rb
  by_cases h : s.delay_min_budget i j > s.delay_max_budget i j
  · simp only [h, if_true]
    exact ⟨rfl, rfl, rfl, rfl, rfl, rfl⟩
  · simp only [h, if_false]
    exact same_but_min_refl s

theorem keep_min_below_max_budget_min (env : Env) (rb : route_budgets) (a b : Nat) :
    (keep_min_below_max_budget env rb).delay_min_budget a b
      = if env.isSink a b ∧ rb.delay_min_budget a b > rb.delay_max_budget a b then
          rb.delay_max_budget a b
        else rb.delay_min_budget a b := by
  have := congrArg PinView.min (keep_min_below_max_budget_view env rb a b)
  simp only [route_budgets.view] at this
  rw [this]
  split_ifs <;> rfl

/-- The state of `allocate_slack_minimax_PERT` after its first loop: only `delay_max_budget`
is written, and each sink's max budget is inside its bounds. -/
theorem minimax_phase1_spec (env : Env) (net_delay : Table) (rb : route_budgets) :
    same_but_max rb (minimax_phase1 env net_delay rb)
      ∧ ∀ a b, env.isSink a b → rb.delay_lower_bound a b ≤ rb.delay_upper_bound a b →
          rb.delay_lower_bound a b ≤ (minimax_phase1 env net_delay rb).delay_max_budget a b
            ∧ (minimax_phase1 env net_delay rb).delay_max_budget a b
                ≤ rb.delay_upper_bound a b := by
  obtain ⟨N, h3, -, hN⟩ := pert_while_rounds (setup_round env net_delay) rb
  unfold minimax_phase1
  rw [hN]
  exact ⟨rounds_setup_frame env net_delay rb N,
    fun a b hs hb => rounds_setup_max_bounds env net_delay rb N (by omega) a b hs hb⟩

/-- The second loop of `allocate_slack_minimax_PERT`, with the copy before it, writes
`delay_min_budget` only. -/
theorem minimax_phase2_frame (env : Env) (net_delay : Table) (rb : route_budgets) :
    same_but_min rb (minimax_phase2 env net_delay rb) := by
  obtain ⟨N, -, -, hN⟩ := pert_while_rounds (hold_round env net_delay)
    (forNets env (fun inet rb =>
      forSinks env inet (fun ipin rb =>
        { rb with delay_min_budget :=
            (rb.delay_min_budget.set inet ipin (rb.delay_max_budget inet ipin)) }) rb) rb)
  unfold minimax_phase2
  simp only
  rw [hN]
  refine same_but_min_trans ?_ (rounds_hold_frame env net_delay _ N)
  refine forNets_forSinks_same_but_min env _ (fun i j s => ?_) rb
  exact ⟨rfl, rfl, rfl, rfl, rfl, rfl⟩

/-- The function `allocate_slack_minimax_PERT`: it leaves the targets, the bounds, the counters
and `set` alone; each sink's max budget ends inside its bounds; each sink's min budget ends
at most its max budget, and not below `-1e-9` unless the max budget is. -/
theorem allocate_slack_minimax_PERT_spec (env : Env) (net_delay : Table) (rb : route_budgets) :
    (allocate_slack_minimax_PERT env net_delay rb).delay_target = rb.delay_target
      ∧ (allocate_slack_minimax_PERT env net_delay rb).delay_lower_bound = rb.delay_lower_bound
      ∧ (allocate_slack_minimax_PERT env net_delay rb).delay_upper_bound = rb.delay_upper_bound
      ∧ (allocate_slack_minimax_PERT env net_delay rb).num_times_congested
          = rb.num_times_congested
      ∧ (allocate_slack_minimax_PERT env net_delay rb).set = rb.set
      ∧ ∀ a b, env.isSink a b →
          (rb.delay_lower_bound a b ≤ rb.delay_upper_bound a b →
            rb.delay_lower_bound a b
                ≤ (allocate_slack_minimax_PERT env net_delay rb).delay_max_budget a b
              ∧ (allocate_slack_minimax_PERT env net_delay rb).delay_max_budget a b
                ≤ rb.delay_upper_bound a b)
          ∧ (allocate_slack_minimax_PERT env net_delay rb).delay_min_budget a b
              ≤ (allocate_slack_minimax_PERT env net_delay rb).delay_max_budget a b
          ∧ (-1e-9 ≤ (allocate_slack_minimax_PERT env net_delay rb).delay_max_budget a b →
              -1e-9 ≤ (allocate_slack_minimax_PERT env net_delay rb).delay_min_budget a b) := by
  obtain ⟨⟨p1, p2, p3, p4, p5, p6⟩, hmax⟩ := minimax_phase1_spec env net_delay rb
  set rb1 := minimax_phase1 env net_delay rb with hrb1
  have f2 := minimax_phase2_frame env net_delay rb1
  set rb2 := minimax_phase2 env net_delay rb1 with hrb2
  have f3 := keep_min_below_max_budget_frame env rb2
  set rb3 := keep_min_below_max_budget env rb2 with hrb3
  set rb4 : route_budgets := { rb3 with delay_min_budget :=
    (allocate_slack env rb3 (env.perform_sta rb3.delay_min_budget) rb3.delay_min_budget
      net_delay analysis_type.HOLD).1 } with hrb4
  have f4 : same_but_min rb3 rb4 := ⟨rfl, rfl, rfl, rfl, rfl, rfl⟩
  set rb5 := forNets env (fun inet rb =>
    forSinks env inet (fun ipin rb =>
      { rb with delay_min_budget :=
          (rb.delay_min_budget.set inet ipin (max (rb.delay_min_budget inet ipin) (-1e-9))) })
      rb) rb4 with hrb5
  have f5 : same_but_min rb4 rb5 := by
    refine forNets_forSinks_same_but_min env _ (fun i j s => ?_) rb4
    exact ⟨rfl, rfl, rfl, rfl, rfl, rfl⟩
  have hfin : allocate_slack_minimax_PERT env net_delay rb = keep_min_below_max_budget env rb5 :=
    rfl
  have f6 := keep_min_below_max_budget_frame env rb5
  obtain ⟨q1, q2, q3, q4, q5, q6⟩ :=
    same_but_min_trans f2 (same_but_min_trans f3 (same_but_min_trans f4
      (same_but_min_trans f5 f6)))
  have h5 : ∀ a b, env.isSink a b → -1e-9 ≤ rb5.delay_min_budget a b := by
    intro a b hs
    have := forNets_forSinks_entry env (fun (s : route_budgets) a b => s.delay_min_budget a b)
      (fun _ _ x => max x (-1e-9))
      (fun inet ipin (rb : route_budgets) =>
        { rb with delay_min_budget :=
          (rb.delay_min_budget.set inet ipin (max (rb.delay_min_budget inet ipin) (-1e-9))) })
      (fun i j s a b => by
        by_cases h : a = i ∧ b = j
        · obtain ⟨rfl, rfl⟩ := h
          simp [Table.set]
        · simp [Table.set, h]) rb4 a b
    rw [if_pos hs] at this
    rw [hrb5, this]
    exact le_max_right _ _
  rw [hfin]
  refine ⟨q2.trans p2, q3.trans p3, q4.trans p4, q5.trans p5, q6.trans p6, fun a b hs => ?_⟩
  have hmx : (keep_min_below_max_budget env rb5).delay_max_budget a b
      = rb1.delay_max_budget a b := by rw [q1]
  have hmx5 : rb5.delay_max_budget a b = rb1.delay_max_budget a b := by
    rw [(same_but_min_trans f2 (same_but_min_trans f3 (same_but_min_trans f4 f5))).1]
  refine ⟨fun hb => ?_, ?_, ?_⟩
  · rw [hmx]
    exact hmax a b hs hb
  · rw [hmx, keep_min_below_max_budget_min, hmx5]
    by_cases hgt : rb5.delay_min_budget a b > rb1.delay_max_budget a b
    · simp [hs, hgt]
    · simp [hgt]
      exact not_lt.mp hgt
  · rw [hmx, keep_min_below_max_budget_min, hmx5]
    intro hm
    by_cases hgt : rb5.delay_min_budget a b > rb1.delay_max_budget a b
    · simpa [hs, hgt] using hm
    · simpa [hgt] using h5 a b hs

/-! ## The criticality strategy -/

theorem scaled_max_budget_le (env : Env) (net_delay : Table) (router_opts : t_router_opts)
    (i j : Nat) : scaled_max_budget env net_delay router_opts i j ≤ 100e-9 := by
  unfold scaled_max_budget
  split_ifs
  · exact le_refl _
  · exact min_le_right _ _

theorem scaled_pin_ok (env : Env) (net_delay : Table) (router_opts : t_router_opts)
    (i j : Nat) (rb : route_budgets)
    (h : 0 ≤ scaled_max_budget env net_delay router_opts i j) :
    allocate_slack_using_delays_and_criticalities_pin env net_delay router_opts i j rb
      = Except.ok (scaled_pin_writes env net_delay router_opts i j rb) := by
  have hle := scaled_max_budget_le env net_delay router_opts i j
  unfold allocate_slack_using_delays_and_criticalities_pin scaled_pin_writes
  unfold scaled_max_budget reshaped_criticality at *
  by_cases hc : min (env.pow (max (env.calculate_clb_net_pin_criticality i j
        - (1 - router_opts.max_criticality)) 0) router_opts.criticality_exp)
      router_opts.max_criticality = 0
  · simp only [hc, if_true] at h hle ⊢
    simp [Table.set]
    norm_num
  · simp only [hc, if_false] at h hle ⊢
    simp only [Table.set, and_self, if_true]
    rw [if_pos]
    refine ⟨h, le_refl _, hle, ?_⟩
    norm_num

theorem scaled_pin_error (env : Env) (net_delay : Table) (router_opts : t_router_opts)
    (i j : Nat) (rb : route_budgets)
    (h : ¬ 0 ≤ scaled_max_budget env net_delay router_opts i j) :
    allocate_slack_using_delays_and_criticalities_pin env net_delay router_opts i j rb
      = Except.error VtrError.assertion_failed := by
  unfold allocate_slack_using_delays_and_criticalities_pin
  unfold scaled_max_budget reshaped_criticality at *
  by_cases hc : min (env.pow (max (env.calculate_clb_net_pin_criticality i j
        - (1 - router_opts.max_criticality)) 0) router_opts.criticality_exp)
      router_opts.max_criticality = 0
  · simp only [hc, if_true] at h
    exact absurd (by norm_num) h
  · simp only [hc, if_false] at h ⊢
    simp only [Table.set, and_self, if_true]
    rw [if_neg]
    intro hcon
    exact h hcon.1

theorem scaled_writes_view (env : Env) (net_delay : Table) (router_opts : t_router_opts)
    (rb : route_budgets) (a b : Nat) :
    (scaled_writes env net_delay router_opts rb).view a b
      = if env.isSink a b then
          { rb.view a b with
            min := 0, lower_bound := 0, upper_bound := 100e-9
            max := scaled_max_budget env net_delay router_opts a b
            target := min (0.5 * (0 + scaled_max_budget env net_delay router_opts a b))
              (0 + 0.1e-9) }
        else rb.view a b := by
  unfold scaled_writes
  rw [forNets_forSinks_entry env route_budgets.view
    (fun i j v => { v with
      min := 0, lower_bound := 0, upper_bound := 100e-9
      max := scaled_max_budget env net_delay router_opts i j
      target := min (0.5 * (0 + scaled_max_budget env net_delay router_opts i j))
        (0 + 0.1e-9) })]
  intro i j s a b
  by_cases h : a = i ∧ b = j
  · obtain ⟨rfl, rfl⟩ := h
    simp [route_budgets.view, Table.set, scaled_pin_writes]
  · simp [route_budgets.view, Table.set, scaled_pin_writes, h]

theorem scaled_writes_set (env : Env) (net_delay : Table) (router_opts : t_router_opts)
    (rb : route_budgets) : (scaled_writes env net_delay router_opts rb).set = rb.set := by
  unfold scaled_writes
  refine forNets_forSinks_preserve env (fun s => s.set) _ (fun i j s => ?_) rb
  rfl

theorem allocate_slack_using_delays_and_criticalities_ok (env : Env) (net_delay : Table)
    (router_opts : t_router_opts) (rb : route_budgets)
    (h : ¬ budgets_do_not_fit env net_delay router_opts) :
    allocate_slack_using_delays_and_criticalities env net_delay router_opts rb
      = Except.ok (scaled_writes env net_delay router_opts rb) := by
  unfold allocate_slack_using_delays_and_criticalities scaled_writes
  refine forNetsM_forSinksM_ok env
    (fun i j => 0 ≤ scaled_max_budget env net_delay router_opts i j) _ _
    (fun i j s hA => scaled_pin_ok env net_delay router_opts i j s hA) rb (fun a b hs => ?_)
  by_contra hneg
  exact h ⟨a, b, hs, not_le.mp hneg⟩

theorem allocate_slack_using_delays_and_criticalities_error (env : Env) (net_delay : Table)
    (router_opts : t_router_opts) (rb : route_budgets)
    (h : budgets_do_not_fit env net_delay router_opts) :
    allocate_slack_using_delays_and_criticalities env net_delay router_opts rb
      = Except.error VtrError.assertion_failed := by
  unfold allocate_slack_using_delays_and_criticalities
  refine forNetsM_forSinksM_error env
    (fun i j => 0 ≤ scaled_max_budget env net_delay router_opts i j)
    (fun i j s => scaled_pin_writes env net_delay router_opts i j s) _ _
    (fun i j s hA => scaled_pin_ok env net_delay router_opts i j s hA)
    (fun i j s hA => scaled_pin_error env net_delay router_opts i j s hA) rb (fun hall => ?_)
  obtain ⟨a, b, hs, hlt⟩ := h
  exact absurd (hall a b hs) (not_le.mpr hlt)

/-! ## The outcomes of `load_route_budgets` -/

theorem load_route_budgets_disable (env : Env) (net_delay : Table) (router_opts : t_router_opts)
    (rb : route_budgets)
    (h : router_opts.routing_budgets_algorithm = e_routing_budgets_algorithm.DISABLE) :
    load_route_budgets env net_delay router_opts rb = Except.ok { rb with set := false } := by
  unfold load_route_budgets
  rw [if_pos h]

theorem load_route_budgets_minimax (env : Env) (net_delay : Table) (router_opts : t_router_opts)
    (rb : route_budgets)
    (h : router_opts.routing_budgets_algorithm = e_routing_budgets_algorithm.MINIMAX) :
    load_route_budgets env net_delay router_opts rb
      = Except.ok { calculate_delay_tagets env
          (allocate_slack_minimax_PERT env net_delay (init_bounds env rb)) with set := true } := by
  unfold load_route_budgets
  simp [h]

theorem load_route_budgets_scale_ok (env : Env) (net_delay : Table)
    (router_opts : t_router_opts) (rb : route_budgets)
    (h : router_opts.routing_budgets_algorithm = e_routing_budgets_algorithm.SCALE_DELAY)
    (hfit : ¬ budgets_do_not_fit env net_delay router_opts) :
    load_route_budgets env net_delay router_opts rb
      = Except.ok { scaled_writes env net_delay router_opts (init_bounds env rb) with
          set := true } := by
  unfold load_route_budgets
  simp [h, allocate_slack_using_delays_and_criticalities_ok env net_delay router_opts _ hfit]

theorem load_route_budgets_scale_error (env : Env) (net_delay : Table)
    (router_opts : t_router_opts) (rb : route_budgets)
    (h : router_opts.routing_budgets_algorithm = e_routing_budgets_algorithm.SCALE_DELAY)
    (hfit : budgets_do_not_fit env net_delay router_opts) :
    load_route_budgets env net_delay router_opts rb
      = Except.error VtrError.assertion_failed := by
  unfold load_route_budgets
  simp [h, allocate_slack_using_delays_and_criticalities_error env net_delay router_opts _ hfit]

/-! ## Relaxation -/

theorem lower_budgets_frame (env : Env) (rb : route_budgets) :
    same_but_min rb (lower_budgets env rb) := by
  unfold lower_budgets
  have := forNets_preserve env
    (fun s : route_budgets => (s.delay_max_budget, s.delay_target, s.delay_lower_bound,
      s.delay_upper_bound, s.num_times_congested, s.set))
    (fun inet (rb : route_budgets) =>
      if rb.num_times_congested inet ≥ 3 then
        forSinks env inet (fun ipin rb =>
          if rb.delay_min_budget inet ipin - rb.delay_lower_bound inet ipin ≥ 1e-9 then
            { rb with delay_min_budget :=
                (rb.delay_min_budget.set inet ipin
                  (rb.delay_min_budget inet ipin - MIN_DELAY_DECREMENT)) }
          else rb) rb
      else rb)
    (fun i s => by
      by_cases hc : s.num_times_congested i ≥ 3
      · simp only [hc, if_true]
        refine forSinks_preserve env i
          (fun s : route_budgets => (s.delay_max_budget, s.delay_target, s.delay_lower_bound,
            s.delay_upper_bound, s.num_times_congested, s.set)) _ (fun j st => ?_) s
        by_cases h : st.delay_min_budget i j - st.delay_lower_bound i j ≥ 1e-9 <;> simp [h]
      · simp only [hc, if_false]) rb
  simp only [Prod.mk.injEq] at this
  exact this

theorem lower_budgets_view (env : Env) (rb : route_budgets) (a b : Nat) :
    (lower_budgets env rb).view a b
      = if a < env.net.length then
          (if (rb.view a b).congested ≥ 3 ∧ 1 ≤ b ∧ b < env.num_pins a
              ∧ (rb.view a b).min - (rb.view a b).lower_bound ≥ 1e-9 then
            { rb.view a b with min := (rb.view a b).min - MIN_DELAY_DECREMENT }
          else rb.view a b)
        else rb.view a b := by
  unfold lower_budgets
  refine forNets_entry env route_budgets.view
    (fun i b v => if v.congested ≥ 3 ∧ 1 ≤ b ∧ b < env.num_pins i
        ∧ v.min - v.lower_bound ≥ 1e-9 then { v with min := v.min - MIN_DELAY_DECREMENT } else v)
    _ (fun i s a b => ?_) rb a b
  by_cases hc : s.num_times_congested i ≥ 3
  · simp only [hc, if_true]
    rw [forSinks_entry env i route_budgets.view
      (fun _ v => if v.min - v.lower_bound ≥ 1e-9 then
        { v with min := v.min - MIN_DELAY_DECREMENT } else v)]
    · by_cases ha : a = i
      · subst ha
        have hc' : (s.view a b).congested ≥ 3 := hc
        split_ifs <;> first | rfl | (exfalso; tauto)
      · split_ifs <;> first | rfl | (exfalso; tauto)
    · intro j st a b
      by_cases h : a = i ∧ b = j
      · obtain ⟨rfl, rfl⟩ := h
        by_cases h2 : st.delay_min_budget a b - st.delay_lower_bound a b ≥ 1e-9 <;>
          simp [route_budgets.view, Table.set, h2]
      · by_cases h2 : st.delay_min_budget i j - st.delay_lower_bound i j ≥ 1e-9 <;>
          simp [route_budgets.view, Table.set, h, h2]
  · simp only [hc, if_false]
    by_cases ha : a = i
    · subst ha
      have hc' : ¬ (s.view a b).congested ≥ 3 := hc
      split_ifs <;> first | rfl | (exfalso; tauto)
    · rw [if_neg ha]

theorem lower_budgets_min (env : Env) (rb : route_budgets) (a b : Nat) :
    (lower_budgets env rb).delay_min_budget a b
      = if env.isSink a b ∧ 3 ≤ rb.num_times_congested a
            ∧ rb.delay_min_budget a b - rb.delay_lower_bound a b ≥ 1e-9 then
          rb.delay_min_budget a b - MIN_DELAY_DECREMENT
        else rb.delay_min_budget a b := by
  have := congrArg PinView.min (lower_budgets_view env rb a b)
  simp only [route_budgets.view] at this
  rw [this]
  unfold Env.isSink
  split_ifs <;> first | rfl | (exfalso; tauto)

/-! ## The example design -/

theorem example_isSink (crit : ℚ) (a b : Nat) :
    (example_env crit).isSink a b ↔ a = 0 ∧ b = 1 := by
  unfold Env.isSink Env.num_pins example_env
  constructor
  · rintro ⟨h1, h2, h3⟩
    simp only [List.length_singleton, Nat.lt_one_iff] at h1
    subst h1
    simp at h3
    omega
  · rintro ⟨rfl, rfl⟩
    simp

theorem target_bounds (mn mx : ℚ) (h : mn ≤ mx) :
    mn ≤ min (0.5 * (mn + mx)) (mn + 0.1e-9) ∧ min (0.5 * (mn + mx)) (mn + 0.1e-9) ≤ mx := by
  constructor
  · refine le_min ?_ ?_
    · norm_num
      linarith
    · norm_num
  · refine le_trans (min_le_left _ _) ?_
    norm_num
    linarith

/-! ## C1 -/

/-- C1, as stated, fails: after `load_route_budgets` with the MINIMAX strategy on the example
design the sink pin 1 of net 0 has `lower_bound = 0` and `min = -1 ns`, so
`lower_bound <= min` does not hold. -/
theorem load_route_budgets_minimax_min_below_lower_bound :
    ∃ rb1,
      load_route_budgets (example_env 0) example_net_delay
        (example_opts e_routing_budgets_algorithm.MINIMAX) (route_budgets.new example_mem)
        = Except.ok rb1
      ∧ (example_env 0).isSink 0 1
      ∧ rb1.delay_lower_bound 0 1 = 0
      ∧ rb1.delay_min_budget 0 1 = -1e-9
      ∧ ¬ (rb1.delay_lower_bound 0 1 ≤ rb1.delay_min_budget 0 1) :=
  ⟨_, load_route_budgets_minimax _ _ _ _ rfl, by decide!, by decide!, by decide!, by decide!⟩

/-- C1 (amended): for every net list, delay-estimate table, timing oracle and non-disabled
strategy, `load_route_budgets` either returns a state in which every sink pin satisfies
`-1 ns <= min <= max`, `lower_bound <= max <= upper_bound` and `min <= target <= max`
(and, for SCALE_DELAY, also `lower_bound <= min`), or the strategy is SCALE_DELAY and the call
stops on its assertion because some sink's computed max budget is negative. -/
theorem load_route_budgets_budget_window (env : Env) (net_delay : Table)
    (router_opts : t_router_opts) (rb : route_budgets)
    (halg : router_opts.routing_budgets_algorithm ≠ e_routing_budgets_algorithm.DISABLE) :
    (∃ rb1, load_route_budgets env net_delay router_opts rb = Except.ok rb1
      ∧ ∀ a b, env.isSink a b →
          -1e-9 ≤ rb1.delay_min_budget a b
          ∧ rb1.delay_min_budget a b ≤ rb1.delay_max_budget a b
          ∧ rb1.delay_lower_bound a b ≤ rb1.delay_max_budget a b
          ∧ rb1.delay_max_budget a b ≤ rb1.delay_upper_bound a b
          ∧ rb1.delay_min_budget a b ≤ rb1.delay_target a b
          ∧ rb1.delay_target a b ≤ rb1.delay_max_budget a b
          ∧ (router_opts.routing_budgets_algorithm = e_routing_budgets_algorithm.SCALE_DELAY →
              rb1.delay_lower_bound a b ≤ rb1.delay_min_budget a b))
    ∨ (router_opts.routing_budgets_algorithm = e_routing_budgets_algorithm.SCALE_DELAY
        ∧ budgets_do_not_fit env net_delay router_opts
        ∧ load_route_budgets env net_delay router_opts rb
            = Except.error VtrError.assertion_failed) := by
  rcases hcase : router_opts.routing_budgets_algorithm with _ | _ | _
  · -- MINIMAX
    left
    refine ⟨_, load_route_budgets_minimax env net_delay router_opts rb hcase, fun a b hs => ?_⟩
    have hinit := init_bounds_view env rb a b
    rw [if_pos hs] at hinit
    have hlb : (init_bounds env rb).delay_lower_bound a b = 0 :=
      congrArg PinView.lower_bound hinit
    have hub : (init_bounds env rb).delay_upper_bound a b = 100e-9 :=
      congrArg PinView.upper_bound hinit
    obtain ⟨-, q2, q3, -, -, hp⟩ :=
      allocate_slack_minimax_PERT_spec env net_delay (init_bounds env rb)
    obtain ⟨hmaxb, hmin, hfloor⟩ := hp a b hs
    have hb := hmaxb (by rw [hlb, hub]; norm_num)
    rw [hlb, hub] at hb
    have hv := calculate_delay_tagets_view env
      (allocate_slack_minimax_PERT env net_delay (init_bounds env rb)) a b
    rw [if_pos hs] at hv
    set P := allocate_slack_minimax_PERT env net_delay (init_bounds env rb) with hP
    have e1 : (calculate_delay_tagets env P).delay_min_budget a b = P.delay_min_budget a b :=
      congrArg PinView.min hv
    have e2 : (calculate_delay_tagets env P).delay_max_budget a b = P.delay_max_budget a b :=
      congrArg PinView.max hv
    have e3 : (calculate_delay_tagets env P).delay_lower_bound a b = P.delay_lower_bound a b :=
      congrArg PinView.lower_bound hv
    have e4 : (calculate_delay_tagets env P).delay_upper_bound a b = P.delay_upper_bound a b :=
      congrArg PinView.upper_bound hv
    have e5 : (calculate_delay_tagets env P).delay_target a b
        = min (0.5 * (P.delay_min_budget a b + P.delay_max_budget a b))
            (P.delay_min_budget a b + 0.1e-9) := congrArg PinView.target hv
    have htb := target_bounds _ _ hmin
    show -1e-9 ≤ (calculate_delay_tagets env P).delay_min_budget a b
      ∧ (calculate_delay_tagets env P).delay_min_budget a b
          ≤ (calculate_delay_tagets env P).delay_max_budget a b
      ∧ (calculate_delay_tagets env P).delay_lower_bound a b
          ≤ (calculate_delay_tagets env P).delay_max_budget a b
      ∧ (calculate_delay_tagets env P).delay_max_budget a b
          ≤ (calculate_delay_tagets env P).delay_upper_bound a b
      ∧ (calculate_delay_tagets env P).delay_min_budget a b
          ≤ (calculate_delay_tagets env P).delay_target a b
      ∧ (calculate_delay_tagets env P).delay_target a b
          ≤ (calculate_delay_tagets env P).delay_max_budget a b
      ∧ (e_routing_budgets_algorithm.MINIMAX = e_routing_budgets_algorithm.SCALE_DELAY → _)
    rw [e1, e2, e3, e4, e5, q2, q3, hlb, hub]
    refine ⟨hfloor (le_trans (by norm_num) hb.1), hmin, hb.1, hb.2, htb.1, htb.2, ?_⟩
    intro hne
    exact absurd hne (by decide)
  · -- SCALE_DELAY
    by_cases hfit : budgets_do_not_fit env net_delay router_opts
    · right
      exact ⟨rfl, hfit, load_route_budgets_scale_error env net_delay router_opts rb hcase hfit⟩
    · left
      refine ⟨_, load_route_budgets_scale_ok env net_delay router_opts rb hcase hfit,
        fun a b hs => ?_⟩
      have hv := scaled_writes_view env net_delay router_opts (init_bounds env rb) a b
      rw [if_pos hs] at hv
      set S := scaled_writes env net_delay router_opts (init_bounds env rb) with hS
      have e1 : S.delay_min_budget a b = 0 := congrArg PinView.min hv
      have e2 : S.delay_max_budget a b = scaled_max_budget env net_delay router_opts a b :=
        congrArg PinView.max hv
      have e3 : S.delay_lower_bound a b = 0 := congrArg PinView.lower_bound hv
      have e4 : S.delay_upper_bound a b = 100e-9 := congrArg PinView.upper_bound hv
      have e5 : S.delay_target a b
          = min (0.5 * (0 + scaled_max_budget env net_delay router_opts a b)) (0 + 0.1e-9) :=
        congrArg PinView.target hv
      have h0 : 0 ≤ scaled_max_budget env net_delay router_opts a b := by
        by_contra hneg
        exact hfit ⟨a, b, hs, not_le.mp hneg⟩
      have hle := scaled_max_budget_le env net_delay router_opts a b
      have htb := target_bounds _ _ h0
      show -1e-9 ≤ S.delay_min_budget a b
        ∧ S.delay_min_budget a b ≤ S.delay_max_budget a b
        ∧ S.delay_lower_bound a b ≤ S.delay_max_budget a b
        ∧ S.delay_max_budget a b ≤ S.delay_upper_bound a b
        ∧ S.delay_min_budget a b ≤ S.delay_target a b
        ∧ S.delay_target a b ≤ S.delay_max_budget a b
        ∧ (_ → S.delay_lower_bound a b ≤ S.delay_min_budget a b)
      rw [e1, e2, e3, e4, e5]
      exact ⟨by norm_num, h0, h0, hle, htb.1, htb.2, fun _ => le_refl _⟩
  · exact absurd hcase halg

/-- C1 (amended), on the example design with the MINIMAX strategy. -/
theorem load_route_budgets_budget_window_witness :
    (example_opts e_routing_budgets_algorithm.MINIMAX).routing_budgets_algorithm
        ≠ e_routing_budgets_algorithm.DISABLE
    ∧ ((∃ rb1, load_route_budgets (example_env 0) example_net_delay
          (example_opts e_routing_budgets_algorithm.MINIMAX) (route_budgets.new example_mem)
          = Except.ok rb1
        ∧ ∀ a b, (example_env 0).isSink a b →
            -1e-9 ≤ rb1.delay_min_budget a b
            ∧ rb1.delay_min_budget a b ≤ rb1.delay_max_budget a b
            ∧ rb1.delay_lower_bound a b ≤ rb1.delay_max_budget a b
            ∧ rb1.delay_max_budget a b ≤ rb1.delay_upper_bound a b
            ∧ rb1.delay_min_budget a b ≤ rb1.delay_target a b
            ∧ rb1.delay_target a b ≤ rb1.delay_max_budget a b
            ∧ ((example_opts e_routing_budgets_algorithm.MINIMAX).routing_budgets_algorithm
                  = e_routing_budgets_algorithm.SCALE_DELAY →
                rb1.delay_lower_bound a b ≤ rb1.delay_min_budget a b))
      ∨ ((example_opts e_routing_budgets_algorithm.MINIMAX).routing_budgets_algorithm
            = e_routing_budgets_algorithm.SCALE_DELAY
          ∧ budgets_do_not_fit (example_env 0) example_net_delay
              (example_opts e_routing_budgets_algorithm.MINIMAX)
          ∧ load_route_budgets (example_env 0) example_net_delay
              (example_opts e_routing_budgets_algorithm.MINIMAX) (route_budgets.new example_mem)
              = Except.error VtrError.assertion_failed)) :=
  ⟨by decide, load_route_budgets_budget_window (example_env 0) example_net_delay
    (example_opts e_routing_budgets_algorithm.MINIMAX) (route_budgets.new example_mem)
    (by decide)⟩

/-- The rule of the loops of `allocate_slack_minimax_PERT`, for a loop known to stop after
`N` rounds. -/
theorem pert_rule_of_stop {σ : Type} (round : σ → σ × ℚ) (s : σ) (N : Nat) (r : σ × Nat)
    (hr : r = ((rounds round s N).1, N)) (hN3 : 3 ≤ N) (hN8 : N ≤ 8)
    (hstop : N < 8 → (rounds round s N).2 ≤ 800e-12)
    (hbefore : ∀ j, 3 ≤ j → j < N → ¬ (rounds round s j).2 ≤ 800e-12) :
    3 ≤ r.2 ∧ r.2 ≤ 8 ∧ r.1 = (rounds round s r.2).1
    ∧ (∀ k, 3 ≤ k → k < 8 →
        (r.2 = k ↔
          ((rounds round s k).2 ≤ 800e-12
            ∧ ∀ j, 3 ≤ j → j < k → ¬ (rounds round s j).2 ≤ 800e-12)))
    ∧ (r.2 = 8 ↔ ∀ j, 3 ≤ j → j < 8 → ¬ (rounds round s j).2 ≤ 800e-12) := by
  subst hr
  refine ⟨hN3, hN8, rfl, fun k h3 h8 => ⟨fun hk => ?_, fun hk => ?_⟩, ⟨fun h => ?_, fun h => ?_⟩⟩
  · have hk' : N = k := hk
    subst hk'
    exact ⟨hstop h8, hbefore⟩
  · show N = k
    rcases Nat.lt_trichotomy N k with hlt | heq | hgt
    · exact absurd (hstop (by omega)) (hk.2 N hN3 hlt)
    · exact heq
    · exact absurd hk.1 (hbefore k h3 hgt)
  · have h' : N = 8 := h
    subst h'
    exact hbefore
  · show N = 8
    by_contra hne
    have hlt : N < 8 := by omega
    exact h N hN3 hlt (hstop hlt)

/-- The number of rounds of a loop of `allocate_slack_minimax_PERT` and where it stops. -/
theorem pert_while_rule {σ : Type} (round : σ → σ × ℚ) (s : σ) :
    3 ≤ (pert_while round 0 900e-12 s).2 ∧ (pert_while round 0 900e-12 s).2 ≤ 8
    ∧ (pert_while round 0 900e-12 s).1
        = (rounds round s (pert_while round 0 900e-12 s).2).1
    ∧ (∀ k, 3 ≤ k → k < 8 →
        ((pert_while round 0 900e-12 s).2 = k ↔
          ((rounds round s k).2 ≤ 800e-12
            ∧ ∀ j, 3 ≤ j → j < k → ¬ (rounds round s j).2 ≤ 800e-12)))
    ∧ ((pert_while round 0 900e-12 s).2 = 8 ↔
        ∀ j, 3 ≤ j → j < 8 → ¬ (rounds round s j).2 ≤ 800e-12) := by
  have tr := pert_while_trace round s
  by_cases c3 : (rounds round s 3).2 ≤ 800e-12
  · rw [if_pos c3] at tr
    exact pert_rule_of_stop round s 3 _ tr (by omega) (by omega) (fun _ => c3)
      (fun j h1 h2 => by omega)
  rw [if_neg c3] at tr
  by_cases c4 : (rounds round s 4).2 ≤ 800e-12
  · rw [if_pos c4] at tr
    exact pert_rule_of_stop round s 4 _ tr (by omega) (by omega) (fun _ => c4)
      (fun j h1 h2 => by interval_cases j; assumption)
  rw [if_neg c4] at tr
  by_cases c5 : (rounds round s 5).2 ≤ 800e-12
  · rw [if_pos c5] at tr
    exact pert_rule_of_stop round s 5 _ tr (by omega) (by omega) (fun _ => c5)
      (fun j h1 h2 => by interval_cases j <;> assumption)
  rw [if_neg c5] at tr
  by_cases c6 : (rounds round s 6).2 ≤ 800e-12
  · rw [if_pos c6] at tr
    exact pert_rule_of_stop round s 6 _ tr (by omega) (by omega) (fun _ => c6)
      (fun j h1 h2 => by interval_cases j <;> assumption)
  rw [if_neg c6] at tr
  by_cases c7 : (rounds round s 7).2 ≤ 800e-12
  · rw [if_pos c7] at tr
    exact pert_rule_of_stop round s 7 _ tr (by omega) (by omega) (fun _ => c7)
      (fun j h1 h2 => by interval_cases j <;> assumption)
  rw [if_neg c7] at tr
  exact pert_rule_of_stop round s 8 _ tr (by omega) (by omega) (fun h => by omega)
    (fun j h1 h2 => by interval_cases j <;> assumption)

/-! ## C2 -/

/-- C2: for every timing oracle, each of the two loops of `allocate_slack_minimax_PERT` (the
loop of `setup_round` and the loop of `hold_round`, from any state) performs `N` rounds with
`3 <= N <= 8` and ends in the state after `N` rounds; for `3 <= k < 8`, `N = k` exactly when
the change returned by round `k` is at most `800 ps` and no round `j` with `3 <= j < k`
returned a change of at most `800 ps`; and `N = 8` exactly when no round `j` with
`3 <= j < 8` returned a change of at most `800 ps`. -/
theorem pert_loops_round_count (env : Env) (net_delay : Table) (analysis : analysis_type)
    (rb : route_budgets) :
    3 ≤ (pert_while (pert_round env net_delay analysis) 0 900e-12 rb).2
    ∧ (pert_while (pert_round env net_delay analysis) 0 900e-12 rb).2 ≤ 8
    ∧ (pert_while (pert_round env net_delay analysis) 0 900e-12 rb).1
        = (rounds (pert_round env net_delay analysis) rb
            (pert_while (pert_round env net_delay analysis) 0 900e-12 rb).2).1
    ∧ (∀ k, 3 ≤ k → k < 8 →
        ((pert_while (pert_round env net_delay analysis) 0 900e-12 rb).2 = k ↔
          ((rounds (pert_round env net_delay analysis) rb k).2 ≤ 800e-12
            ∧ ∀ j, 3 ≤ j → j < k →
                ¬ (rounds (pert_round env net_delay analysis) rb j).2 ≤ 800e-12)))
    ∧ ((pert_while (pert_round env net_delay analysis) 0 900e-12 rb).2 = 8 ↔
        ∀ j, 3 ≤ j → j < 8 →
          ¬ (rounds (pert_round env net_delay analysis) rb j).2 ≤ 800e-12) :=
  pert_while_rule (pert_round env net_delay analysis) rb

/-- C2 on the example design, whose oracle never reports convergence: no round of the first
loop returns a change of at most `800 ps`, and the loop runs exactly 8 rounds. -/
theorem pert_loops_round_count_witness :
    (∀ j, 3 ≤ j → j < 8 →
        ¬ (rounds (pert_round (example_env 0) example_net_delay analysis_type.SETUP)
            (init_bounds (example_env 0) example_mem) j).2 ≤ 800e-12)
    ∧ (pert_while (pert_round (example_env 0) example_net_delay analysis_type.SETUP) 0 900e-12
        (init_bounds (example_env 0) example_mem)).2 = 8 := by
  have hall : ∀ j, 3 ≤ j → j < 8 →
      ¬ (rounds (pert_round (example_env 0) example_net_delay analysis_type.SETUP)
          (init_bounds (example_env 0) example_mem) j).2 ≤ 800e-12 := by
    intro j h3 h8
    interval_cases j <;> decide!
  exact ⟨hall,
    (pert_loops_round_count (example_env 0) example_net_delay analysis_type.SETUP
      (init_bounds (example_env 0) example_mem)).2.2.2.2.mpr hall⟩

/-! ## C3 -/

/-- C3, as stated, fails: loading the example design with SCALE_DELAY and then with DISABLE
gives a state with `set == false` in which the three getters do not fail for pin 1 but return
the stored values. -/
theorem getters_succeed_while_not_set :
    ∃ rb1 rb2,
      load_route_budgets (example_env 0.995) example_net_delay
        (example_opts e_routing_budgets_algorithm.SCALE_DELAY) (route_budgets.new example_mem)
        = Except.ok rb1
      ∧ load_route_budgets (example_env 0.995) example_net_delay
          (example_opts e_routing_budgets_algorithm.DISABLE) rb1 = Except.ok rb2
      ∧ rb2.set = false
      ∧ get_min_delay_budget rb2 0 1 = Except.ok 0
      ∧ get_max_delay_budget rb2 0 1 = Except.ok (5e-9 / 0.985)
      ∧ get_delay_target rb2 0 1 = Except.ok 0.1e-9 := by
  have hfit : ¬ budgets_do_not_fit (example_env 0.995) example_net_delay
      (example_opts e_routing_budgets_algorithm.SCALE_DELAY) := by
    rintro ⟨a, b, hs, hlt⟩
    obtain ⟨rfl, rfl⟩ := (example_isSink 0.995 a b).mp hs
    revert hlt
    decide!
  refine ⟨_, _, load_route_budgets_scale_ok _ _ _ _ rfl hfit,
    load_route_budgets_disable _ _ _ _ rfl, rfl, ?_, ?_, ?_⟩
  · show Except.ok _ = Except.ok _
    refine congrArg Except.ok ?_
    decide!
  · show Except.ok _ = Except.ok _
    refine congrArg Except.ok ?_
    decide!
  · show Except.ok _ = Except.ok _
    refine congrArg Except.ok ?_
    decide!

/-- C3 (amended): `get_min_delay_budget`, `get_max_delay_budget` and `get_delay_target` fail if
and only if `pin == 0`; they do not consult `set`, and for `pin >= 1` they return the min, max
and target value that the tables hold for that net and pin, whether `set` is true or false. -/
theorem getters_fail_iff_driver_pin (rb : route_budgets) (inet ipin : Nat) :
    ((get_min_delay_budget rb inet ipin = Except.error VtrError.assertion_failed ↔ ipin = 0)
      ∧ (get_max_delay_budget rb inet ipin = Except.error VtrError.assertion_failed ↔ ipin = 0)
      ∧ (get_delay_target rb inet ipin = Except.error VtrError.assertion_failed ↔ ipin = 0))
    ∧ (1 ≤ ipin →
        get_min_delay_budget rb inet ipin = Except.ok (rb.delay_min_budget inet ipin)
        ∧ get_max_delay_budget rb inet ipin = Except.ok (rb.delay_max_budget inet ipin)
        ∧ get_delay_target rb inet ipin = Except.ok (rb.delay_target inet ipin)) := by
  unfold get_min_delay_budget get_max_delay_budget get_delay_target
  by_cases h : ipin = 0
  · subst h
    simp
  · have h1 : 1 ≤ ipin := Nat.one_le_iff_ne_zero.mpr h
    simp [h]

/-- C3 (amended), on a state that is not set: pin 1 of net 0 is read, pin 0 is refused. -/
theorem getters_fail_iff_driver_pin_witness :
    (1 ≤ 1 ∧ example_mem.set = false
      ∧ get_min_delay_budget example_mem 0 1 = Except.ok (example_mem.delay_min_budget 0 1)
      ∧ get_max_delay_budget example_mem 0 1 = Except.ok (example_mem.delay_max_budget 0 1)
      ∧ get_delay_target example_mem 0 1 = Except.ok (example_mem.delay_target 0 1))
    ∧ get_min_delay_budget example_mem 0 0 = Except.error VtrError.assertion_failed :=
  ⟨⟨le_refl 1, rfl, (getters_fail_iff_driver_pin example_mem 0 1).2 (le_refl 1)⟩,
    (getters_fail_iff_driver_pin example_mem 0 0).1.1.mpr rfl⟩

/-! ## C4 -/

/-- C4: `if_set()` is false on a freshly constructed `route_budgets`; and
`load_route_budgets` either returns a state in which `if_set()` is true if and only if the
selected strategy is not DISABLE, or the strategy is SCALE_DELAY and the call stops on its
assertion because some sink's computed max budget is negative. -/
theorem if_set_after_load (env : Env) (net_delay : Table) (router_opts : t_router_opts)
    (mem rb : route_budgets) :
    (route_budgets.new mem).if_set = false
    ∧ ((∃ rb1, load_route_budgets env net_delay router_opts rb = Except.ok rb1
          ∧ (rb1.if_set = true ↔
              router_opts.routing_budgets_algorithm ≠ e_routing_budgets_algorithm.DISABLE))
      ∨ (router_opts.routing_budgets_algorithm = e_routing_budgets_algorithm.SCALE_DELAY
          ∧ budgets_do_not_fit env net_delay router_opts
          ∧ load_route_budgets env net_delay router_opts rb
              = Except.error VtrError.assertion_failed)) := by
  refine ⟨rfl, ?_⟩
  rcases hcase : router_opts.routing_budgets_algorithm with _ | _ | _
  · left
    refine ⟨_, load_route_budgets_minimax env net_delay router_opts rb hcase, ?_⟩
    simp [route_budgets.if_set]
  · by_cases hfit : budgets_do_not_fit env net_delay router_opts
    · right
      exact ⟨rfl, hfit, load_route_budgets_scale_error env net_delay router_opts rb hcase hfit⟩
    · left
      refine ⟨_, load_route_budgets_scale_ok env net_delay router_opts rb hcase hfit, ?_⟩
      simp [route_budgets.if_set]
  · left
    refine ⟨_, load_route_budgets_disable env net_delay router_opts rb hcase, ?_⟩
    simp [route_budgets.if_set]

/-! ## C5 -/

/-- C5: when the assertion of `allocate_slack_using_delays_and_criticalities` holds at every
sink pin (no computed max budget is negative), the function returns, and for every sink pin,
with `c''` the reshaped criticality `min(max(c - (1 - m), 0)^e, m)`, it has set `min = 0`,
`lower_bound = 0`, `upper_bound = 100 ns`, `max = 100 ns` if `c'' = 0` and otherwise
`max = min(delay_estimate / c'', 100 ns)`, and `target = min(0.5*(min+max), min + 0.1 ns)`. -/
theorem allocate_slack_using_delays_and_criticalities_values (env : Env) (net_delay : Table)
    (router_opts : t_router_opts) (rb : route_budgets)
    (hfit : ∀ a b, env.isSink a b → 0 ≤ scaled_max_budget env net_delay router_opts a b) :
    ∃ rb1, allocate_slack_using_delays_and_criticalities env net_delay router_opts rb
        = Except.ok rb1
      ∧ ∀ a b, env.isSink a b →
          reshaped_criticality env router_opts a b
              = min (env.pow (max (env.calculate_clb_net_pin_criticality a b
                  - (1 - router_opts.max_criticality)) 0) router_opts.criticality_exp)
                router_opts.max_criticality
          ∧ rb1.delay_min_budget a b = 0
          ∧ rb1.delay_lower_bound a b = 0
          ∧ rb1.delay_upper_bound a b = 100e-9
          ∧ rb1.delay_max_budget a b
              = (if reshaped_criticality env router_opts a b = 0 then 100e-9
                 else min (net_delay a b / reshaped_criticality env router_opts a b) 100e-9)
          ∧ rb1.delay_target a b
              = min (0.5 * (rb1.delay_min_budget a b + rb1.delay_max_budget a b))
                  (rb1.delay_min_budget a b + 0.1e-9) := by
  have hfit' : ¬ budgets_do_not_fit env net_delay router_opts := by
    rintro ⟨a, b, hs, hlt⟩
    exact absurd (hfit a b hs) (not_le.mpr hlt)
  refine ⟨_, allocate_slack_using_delays_and_criticalities_ok env net_delay router_opts rb hfit',
    fun a b hs => ?_⟩
  have hv := scaled_writes_view env net_delay router_opts rb a b
  rw [if_pos hs] at hv
  set S := scaled_writes env net_delay router_opts rb with hS
  have e1 : S.delay_min_budget a b = 0 := congrArg PinView.min hv
  have e2 : S.delay_max_budget a b = scaled_max_budget env net_delay router_opts a b :=
    congrArg PinView.max hv
  have e3 : S.delay_lower_bound a b = 0 := congrArg PinView.lower_bound hv
  have e4 : S.delay_upper_bound a b = 100e-9 := congrArg PinView.upper_bound hv
  have e5 : S.delay_target a b
      = min (0.5 * (0 + scaled_max_budget env net_delay router_opts a b)) (0 + 0.1e-9) :=
    congrArg PinView.target hv
  refine ⟨rfl, e1, e3, e4, e2, ?_⟩
  rw [e5, e1, e2]

/-- C5 on the two scenarios of the example design (`delay_estimate = 5 ns`, `m = 0.99`,
`e = 1`): with `c = 0.995` the reshaped criticality is `0.985`, `max = 5/0.985 ns`, `min = 0`
and `target = 0.1 ns`; with `c = 0` the max budget is `100 ns` and `target = 0.1 ns`. -/
theorem allocate_slack_using_delays_and_criticalities_values_witness :
    (∀ a b, (example_env 0.995).isSink a b →
        0 ≤ scaled_max_budget (example_env 0.995) example_net_delay
          (example_opts e_routing_budgets_algorithm.SCALE_DELAY) a b)
    ∧ (∃ rb1, allocate_slack_using_delays_and_criticalities (example_env 0.995)
          example_net_delay (example_opts e_routing_budgets_algorithm.SCALE_DELAY) example_mem
          = Except.ok rb1
        ∧ reshaped_criticality (example_env 0.995)
            (example_opts e_routing_budgets_algorithm.SCALE_DELAY) 0 1 = 0.985
        ∧ rb1.delay_min_budget 0 1 = 0
        ∧ rb1.delay_lower_bound 0 1 = 0
        ∧ rb1.delay_upper_bound 0 1 = 100e-9
        ∧ rb1.delay_max_budget 0 1 = 5e-9 / 0.985
        ∧ rb1.delay_target 0 1 = 0.1e-9)
    ∧ (∃ rb1, allocate_slack_using_delays_and_criticalities (example_env 0)
          example_net_delay (example_opts e_routing_budgets_algorithm.SCALE_DELAY) example_mem
          = Except.ok rb1
        ∧ rb1.delay_max_budget 0 1 = 100e-9
        ∧ rb1.delay_target 0 1 = 0.1e-9) := by
  have h1 : ∀ a b, (example_env 0.995).isSink a b →
      0 ≤ scaled_max_budget (example_env 0.995) example_net_delay
        (example_opts e_routing_budgets_algorithm.SCALE_DELAY) a b := by
    intro a b hs
    obtain ⟨rfl, rfl⟩ := (example_isSink 0.995 a b).mp hs
    decide!
  have h2 : ∀ a b, (example_env 0).isSink a b →
      0 ≤ scaled_max_budget (example_env 0) example_net_delay
        (example_opts e_routing_budgets_algorithm.SCALE_DELAY) a b := by
    intro a b hs
    obtain ⟨rfl, rfl⟩ := (example_isSink 0 a b).mp hs
    decide!
  obtain ⟨r1, hr1, hv1⟩ := allocate_slack_using_delays_and_criticalities_values
    (example_env 0.995) example_net_delay
    (example_opts e_routing_budgets_algorithm.SCALE_DELAY) example_mem h1
  obtain ⟨r2, hr2, hv2⟩ := allocate_slack_using_delays_and_criticalities_values
    (example_env 0) example_net_delay
    (example_opts e_routing_budgets_algorithm.SCALE_DELAY) example_mem h2
  obtain ⟨-, a1, a2, a3, a4, a5⟩ := hv1 0 1 ((example_isSink 0.995 0 1).mpr ⟨rfl, rfl⟩)
  obtain ⟨-, b1, b2, b3, b4, b5⟩ := hv2 0 1 ((example_isSink 0 0 1).mpr ⟨rfl, rfl⟩)
  have c1 : reshaped_criticality (example_env 0.995)
      (example_opts e_routing_budgets_algorithm.SCALE_DELAY) 0 1 = 0.985 := by decide!
  have c2 : reshaped_criticality (example_env 0)
      (example_opts e_routing_budgets_algorithm.SCALE_DELAY) 0 1 = 0 := by decide!
  refine ⟨h1, ⟨r1, hr1, c1, a1, a2, a3, ?_, ?_⟩, ⟨r2, hr2, ?_, ?_⟩⟩
  · rw [a4, c1]
    decide!
  · rw [a5, a1, a4, c1]
    decide!
  · rw [b4, c2]
    decide!
  · rw [b5, b1, b4, c2]
    decide!

/-! ## C6 -/

/-- C6: for a sink pin with delay estimate `>= 0`, raw criticality in `[0,1]`,
`max_criticality` in `(0,1]` and `criticality_exp > 0` (and a `pow` that is non-negative on a
non-negative base), the assertion "Delay budgets do not fit in delay bounds" of
`allocate_slack_using_delays_and_criticalities` does not fail at that pin, whatever the state
before it, and after the pin is processed `lower_bound <= min <= max <= upper_bound`. -/
theorem criticality_pin_fits_bounds (env : Env) (net_delay : Table)
    (router_opts : t_router_opts) (inet ipin : Nat) (rb : route_budgets)
    (hdelay : 0 ≤ net_delay inet ipin)
    (_hc0 : 0 ≤ env.calculate_clb_net_pin_criticality inet ipin)
    (_hc1 : env.calculate_clb_net_pin_criticality inet ipin ≤ 1)
    (hm0 : 0 < router_opts.max_criticality) (_hm1 : router_opts.max_criticality ≤ 1)
    (_he : 0 < router_opts.criticality_exp)
    (hpow : ∀ x, 0 ≤ x → 0 ≤ env.pow x router_opts.criticality_exp) :
    ∃ rb1, allocate_slack_using_delays_and_criticalities_pin env net_delay router_opts
          inet ipin rb = Except.ok rb1
      ∧ rb1.delay_lower_bound inet ipin ≤ rb1.delay_min_budget inet ipin
      ∧ rb1.delay_min_budget inet ipin ≤ rb1.delay_max_budget inet ipin
      ∧ rb1.delay_max_budget inet ipin ≤ rb1.delay_upper_bound inet ipin := by
  have hcr : 0 ≤ reshaped_criticality env router_opts inet ipin := by
    unfold reshaped_criticality
    exact le_min (hpow _ (le_max_right _ _)) (le_of_lt hm0)
  have h0 : 0 ≤ scaled_max_budget env net_delay router_opts inet ipin := by
    unfold scaled_max_budget
    split_ifs with hz
    · norm_num
    · have hpos : 0 < reshaped_criticality env router_opts inet ipin :=
        lt_of_le_of_ne hcr (Ne.symm hz)
      exact le_min (div_nonneg hdelay (le_of_lt hpos)) (by norm_num)
  have hle := scaled_max_budget_le env net_delay router_opts inet ipin
  refine ⟨_, scaled_pin_ok env net_delay router_opts inet ipin rb h0, ?_⟩
  simp only [scaled_pin_writes, Table.set, and_self, if_true]
  exact ⟨le_refl _, h0, hle⟩

/-- C6 on the sink pin of the example design with raw criticality `0.995`. -/
theorem criticality_pin_fits_bounds_witness :
    (0 ≤ example_net_delay 0 1
      ∧ 0 ≤ (example_env 0.995).calculate_clb_net_pin_criticality 0 1
      ∧ (example_env 0.995).calculate_clb_net_pin_criticality 0 1 ≤ 1
      ∧ 0 < (example_opts e_routing_budgets_algorithm.SCALE_DELAY).max_criticality
      ∧ (example_opts e_routing_budgets_algorithm.SCALE_DELAY).max_criticality ≤ 1
      ∧ 0 < (example_opts e_routing_budgets_algorithm.SCALE_DELAY).criticality_exp
      ∧ ∀ x, 0 ≤ x → 0 ≤ (example_env 0.995).pow x
          (example_opts e_routing_budgets_algorithm.SCALE_DELAY).criticality_exp)
    ∧ ∃ rb1, allocate_slack_using_delays_and_criticalities_pin (example_env 0.995)
          example_net_delay (example_opts e_routing_budgets_algorithm.SCALE_DELAY) 0 1
          example_mem = Except.ok rb1
      ∧ rb1.delay_lower_bound 0 1 ≤ rb1.delay_min_budget 0 1
      ∧ rb1.delay_min_budget 0 1 ≤ rb1.delay_max_budget 0 1
      ∧ rb1.delay_max_budget 0 1 ≤ rb1.delay_upper_bound 0 1 :=
  ⟨⟨by decide!, by decide!, by decide!, by decide!, by decide!, by decide!, fun _ hx => hx⟩,
    criticality_pin_fits_bounds (example_env 0.995) example_net_delay
      (example_opts e_routing_budgets_algorithm.SCALE_DELAY) 0 1 example_mem
      (by decide!) (by decide!) (by decide!) (by decide!) (by decide!) (by decide!)
      (fun _ hx => hx)⟩

/-! ## C7 -/

/-- C7: with either non-disabled strategy, `load_route_budgets` either returns a state in
which the stored target of every sink pin equals `min(0.5*(min + max), min + 0.1 ns)` of that
pin's stored (final) min and max budget, or the strategy is SCALE_DELAY and the call stops on
its assertion because some sink's computed max budget is negative. -/
theorem load_route_budgets_target (env : Env) (net_delay : Table)
    (router_opts : t_router_opts) (rb : route_budgets)
    (halg : router_opts.routing_budgets_algorithm ≠ e_routing_budgets_algorithm.DISABLE) :
    (∃ rb1, load_route_budgets env net_delay router_opts rb = Except.ok rb1
      ∧ ∀ a b, env.isSink a b →
          rb1.delay_target a b
            = min (0.5 * (rb1.delay_min_budget a b + rb1.delay_max_budget a b))
                (rb1.delay_min_budget a b + 0.1e-9))
    ∨ (router_opts.routing_budgets_algorithm = e_routing_budgets_algorithm.SCALE_DELAY
        ∧ budgets_do_not_fit env net_delay router_opts
        ∧ load_route_budgets env net_delay router_opts rb
            = Except.error VtrError.assertion_failed) := by
  rcases hcase : router_opts.routing_budgets_algorithm with _ | _ | _
  · left
    refine ⟨_, load_route_budgets_minimax env net_delay router_opts rb hcase, fun a b hs => ?_⟩
    have hv := calculate_delay_tagets_view env
      (allocate_slack_minimax_PERT env net_delay (init_bounds env rb)) a b
    rw [if_pos hs] at hv
    set P := allocate_slack_minimax_PERT env net_delay (init_bounds env rb) with hP
    have e1 : (calculate_delay_tagets env P).delay_min_budget a b = P.delay_min_budget a b :=
      congrArg PinView.min hv
    have e2 : (calculate_delay_tagets env P).delay_max_budget a b = P.delay_max_budget a b :=
      congrArg PinView.max hv
    have e5 : (calculate_delay_tagets env P).delay_target a b
        = min (0.5 * (P.delay_min_budget a b + P.delay_max_budget a b))
            (P.delay_min_budget a b + 0.1e-9) := congrArg PinView.target hv
    show (calculate_delay_tagets env P).delay_target a b
      = min (0.5 * ((calculate_delay_tagets env P).delay_min_budget a b
          + (calculate_delay_tagets env P).delay_max_budget a b))
        ((calculate_delay_tagets env P).delay_min_budget a b + 0.1e-9)
    rw [e1, e2, e5]
  · by_cases hfit : budgets_do_not_fit env net_delay router_opts
    · right
      exact ⟨rfl, hfit, load_route_budgets_scale_error env net_delay router_opts rb hcase hfit⟩
    · left
      refine ⟨_, load_route_budgets_scale_ok env net_delay router_opts rb hcase hfit,
        fun a b hs => ?_⟩
      have hv := scaled_writes_view env net_delay router_opts (init_bounds env rb) a b
      rw [if_pos hs] at hv
      set S := scaled_writes env net_delay router_opts (init_bounds env rb) with hS
      have e1 : S.delay_min_budget a b = 0 := congrArg PinView.min hv
      have e2 : S.delay_max_budget a b = scaled_max_budget env net_delay router_opts a b :=
        congrArg PinView.max hv
      have e5 : S.delay_target a b
          = min (0.5 * (0 + scaled_max_budget env net_delay router_opts a b)) (0 + 0.1e-9) :=
        congrArg PinView.target hv
      show S.delay_target a b
        = min (0.5 * (S.delay_min_budget a b + S.delay_max_budget a b))
            (S.delay_min_budget a b + 0.1e-9)
      rw [e1, e2, e5]
  · exact absurd hcase halg

/-- C7 on the example design with the MINIMAX strategy: the call returns and the target of the
sink pin is `min(0.5*(min + max), min + 0.1 ns)` of its final min and max budget. -/
theorem load_route_budgets_target_witness :
    (example_opts e_routing_budgets_algorithm.MINIMAX).routing_budgets_algorithm
        ≠ e_routing_budgets_algorithm.DISABLE
    ∧ ∃ rb1, load_route_budgets (example_env 0) example_net_delay
          (example_opts e_routing_budgets_algorithm.MINIMAX) (route_budgets.new example_mem)
          = Except.ok rb1
        ∧ ∀ a b, (example_env 0).isSink a b →
            rb1.delay_target a b
              = min (0.5 * (rb1.delay_min_budget a b + rb1.delay_max_budget a b))
                  (rb1.delay_min_budget a b + 0.1e-9) := by
  refine ⟨by decide, ?_⟩
  rcases load_route_budgets_target (example_env 0) example_net_delay
    (example_opts e_routing_budgets_algorithm.MINIMAX) (route_budgets.new example_mem)
    (by decide) with h | h
  · exact h
  · exact absurd h.1 (by decide)

/-! ## C8 -/

/-- C8: `lower_budgets` leaves all five table entries of every pin of a net whose congestion
counter is below 3 unchanged; and for every net it leaves the max budgets, the targets, the
lower and upper bounds and all congestion counters unchanged. -/
theorem lower_budgets_noop_below_three (env : Env) (rb : route_budgets) :
    (∀ a b, rb.num_times_congested a < 3 →
        (lower_budgets env rb).delay_min_budget a b = rb.delay_min_budget a b
        ∧ (lower_budgets env rb).delay_max_budget a b = rb.delay_max_budget a b
        ∧ (lower_budgets env rb).delay_target a b = rb.delay_target a b
        ∧ (lower_budgets env rb).delay_lower_bound a b = rb.delay_lower_bound a b
        ∧ (lower_budgets env rb).delay_upper_bound a b = rb.delay_upper_bound a b)
    ∧ (lower_budgets env rb).delay_max_budget = rb.delay_max_budget
    ∧ (lower_budgets env rb).delay_target = rb.delay_target
    ∧ (lower_budgets env rb).delay_lower_bound = rb.delay_lower_bound
    ∧ (lower_budgets env rb).delay_upper_bound = rb.delay_upper_bound
    ∧ (lower_budgets env rb).num_times_congested = rb.num_times_congested := by
  obtain ⟨f1, f2, f3, f4, f5, -⟩ := lower_budgets_frame env rb
  refine ⟨fun a b hlt => ⟨?_, by rw [f1], by rw [f2], by rw [f3], by rw [f4]⟩, f1, f2, f3, f4, f5⟩
  rw [lower_budgets_min, if_neg]
  intro h
  omega

/-- C8 on the example design with a counter of 2 for net 0 and a min budget of `5 ns`. -/
theorem lower_budgets_noop_below_three_witness :
    ({ example_congested 5e-9 with num_times_congested := fun _ => 2 }
        : route_budgets).num_times_congested 0 < 3
    ∧ (lower_budgets (example_env 0)
        { example_congested 5e-9 with num_times_congested := fun _ => 2 }).delay_min_budget 0 1
        = 5e-9 :=
  ⟨by decide,
    ((lower_budgets_noop_below_three (example_env 0)
      { example_congested 5e-9 with num_times_congested := fun _ => 2 }).1 0 1 (by decide)).1⟩

/-! ## C9 -/

/-- C9, as stated, fails: on the example design with a counter of 3, `min = 5 ns` and
`lower_bound = 0`, `lower_budgets` lowers the min budget of the sink pin by `1 ns`
(`MIN_DELAY_DECREMENT = 1e-9`) to `4 ns`, not by `1 ps`. -/
theorem lower_budgets_decrement_not_one_picosecond :
    (example_env 0).isSink 0 1
    ∧ (example_congested 5e-9).num_times_congested 0 ≥ 3
    ∧ (example_congested 5e-9).delay_min_budget 0 1
        - (example_congested 5e-9).delay_lower_bound 0 1 ≥ 1e-9
    ∧ (lower_budgets (example_env 0) (example_congested 5e-9)).delay_min_budget 0 1 = 4e-9
    ∧ (lower_budgets (example_env 0) (example_congested 5e-9)).delay_min_budget 0 1
        ≠ (example_congested 5e-9).delay_min_budget 0 1 - 1e-12 := by
  decide!

/-- C9 (amended): for every net whose congestion counter is at least 3, `lower_budgets`
decreases the min budget of each sink pin with `min - lower_bound >= 1 ns` by exactly
`1 ns` (`MIN_DELAY_DECREMENT`), and leaves the min budget of every sink pin with
`min - lower_bound < 1 ns` unchanged. -/
theorem lower_budgets_decrement (env : Env) (rb : route_budgets) (a b : Nat)
    (hs : env.isSink a b) (hc : 3 ≤ rb.num_times_congested a) :
    (rb.delay_min_budget a b - rb.delay_lower_bound a b ≥ 1e-9 →
        (lower_budgets env rb).delay_min_budget a b = rb.delay_min_budget a b - 1e-9)
    ∧ (rb.delay_min_budget a b - rb.delay_lower_bound a b < 1e-9 →
        (lower_budgets env rb).delay_min_budget a b = rb.delay_min_budget a b) := by
  constructor
  · intro h
    rw [lower_budgets_min, if_pos ⟨hs, hc, h⟩]
    rfl
  · intro h
    rw [lower_budgets_min, if_neg]
    intro hh
    exact absurd hh.2.2 (not_le.mpr h)

/-- C9 (amended), on the example design with a counter of 3: a min budget of `5 ns` becomes
`4 ns`, a min budget of `0.5 ns` stays. -/
theorem lower_budgets_decrement_witness :
    (example_env 0).isSink 0 1
    ∧ 3 ≤ (example_congested 5e-9).num_times_congested 0
    ∧ (lower_budgets (example_env 0) (example_congested 5e-9)).delay_min_budget 0 1
        = 5e-9 - 1e-9
    ∧ (lower_budgets (example_env 0) (example_congested 0.5e-9)).delay_min_budget 0 1
        = 0.5e-9 :=
  ⟨by decide, by decide,
    (lower_budgets_decrement (example_env 0) (example_congested 5e-9) 0 1
      (by decide) (by decide)).1 (by decide!),
    (lower_budgets_decrement (example_env 0) (example_congested 0.5e-9) 0 1
      (by decide) (by decide)).2 (by decide!)⟩

theorem lower_budgets_iterate_frame (env : Env) (rb : route_budgets) (n : Nat) :
    same_but_min rb ((lower_budgets env)^[n] rb) := by
  induction n with
  | zero => exact same_but_min_refl rb
  | succ n ih =>
    rw [Function.iterate_succ_apply']
    exact same_but_min_trans ih (lower_budgets_frame env _)

/-- Below the threshold `lower_bound + 1 ns` repeated calls of `lower_budgets` leave a min
budget where it is. -/
theorem lower_budgets_iterate_stable (env : Env) (rb : route_budgets) (a b : Nat)
    (h : rb.delay_min_budget a b < rb.delay_lower_bound a b + 1e-9) (n : Nat) :
    ((lower_budgets env)^[n] rb).delay_min_budget a b = rb.delay_min_budget a b := by
  induction n with
  | zero => rfl
  | succ n ih =>
    rw [Function.iterate_succ_apply', lower_budgets_min, if_neg, ih]
    rintro ⟨-, -, hge⟩
    rw [ih, (lower_budgets_iterate_frame env rb n).2.2.1] at hge
    have : rb.delay_min_budget a b - rb.delay_lower_bound a b < 1e-9 := by linarith
    exact absurd hge (not_le.mpr this)

/-- From a min budget at or above the lower bound, finitely many calls of `lower_budgets` on a
net that stays congested bring the min budget of a sink into
`[lower_bound, lower_bound + 1 ns)`. -/
theorem lower_budgets_reaches_floor (env : Env) (a b : Nat) (hs : env.isSink a b) (k : Nat) :
    ∀ rb : route_budgets, 3 ≤ rb.num_times_congested a →
      rb.delay_lower_bound a b ≤ rb.delay_min_budget a b →
      rb.delay_min_budget a b - rb.delay_lower_bound a b < k * 1e-9 →
      ∃ n, rb.delay_lower_bound a b ≤ ((lower_budgets env)^[n] rb).delay_min_budget a b
        ∧ ((lower_budgets env)^[n] rb).delay_min_budget a b
            < rb.delay_lower_bound a b + 1e-9 := by
  induction k with
  | zero =>
    intro rb _ hle hlt
    simp only [Nat.cast_zero, zero_mul] at hlt
    linarith
  | succ k ih =>
    intro rb hc hle hlt
    by_cases hth : rb.delay_min_budget a b - rb.delay_lower_bound a b ≥ 1e-9
    · obtain ⟨f1, f2, f3, f4, f5, f6⟩ := lower_budgets_frame env rb
      have hmin : (lower_budgets env rb).delay_min_budget a b
          = rb.delay_min_budget a b - 1e-9 := by
        rw [lower_budgets_min, if_pos ⟨hs, hc, hth⟩]
        rfl
      have hlb : (lower_budgets env rb).delay_lower_bound a b = rb.delay_lower_bound a b := by
        rw [f3]
      obtain ⟨n, hn1, hn2⟩ := ih (lower_budgets env rb) (by rw [f5]; exact hc)
        (by rw [hmin, hlb]; linarith)
        (by
          rw [hmin, hlb]
          push_cast at hlt
          linarith)
      refine ⟨n + 1, ?_, ?_⟩
      · rw [Function.iterate_succ_apply, ← hlb]
        exact hn1
      · rw [Function.iterate_succ_apply, ← hlb]
        exact hn2
    · refine ⟨0, hle, ?_⟩
      have := not_le.mp hth
      show rb.delay_min_budget a b < _
      linarith

/-! ## C10 -/

/-- C10, as stated, fails: on the example design with a counter of 3, `lower_bound = 0` and a
min budget that has reached `lower_bound + 1 ns`, a further call of `lower_budgets` does not
leave the min budget unchanged but lowers it to `lower_bound`. -/
theorem lower_budgets_no_floor_at_one_nanosecond :
    (example_env 0).isSink 0 1
    ∧ (example_congested 1e-9).num_times_congested 0 ≥ 3
    ∧ (example_congested 1e-9).delay_min_budget 0 1
        = (example_congested 1e-9).delay_lower_bound 0 1 + 1e-9
    ∧ (lower_budgets (example_env 0) (example_congested 1e-9)).delay_min_budget 0 1 = 0
    ∧ (lower_budgets (example_env 0) (example_congested 1e-9)).delay_min_budget 0 1
        ≠ (example_congested 1e-9).delay_min_budget 0 1 := by
  decide!

/-- C10 (amended): for a net whose congestion counter is at least 3 (`lower_budgets` leaves
the counters alone), after any number `n` of `lower_budgets` calls a further call strictly
decreases a sink pin's min budget (by `1 ns`) while it is at or above `lower_bound + 1 ns`,
and once the min budget is below `lower_bound + 1 ns` every further call leaves it unchanged;
starting at or above `lower_bound`, finitely many calls bring it into
`[lower_bound, lower_bound + 1 ns)`, where it stays. -/
theorem lower_budgets_repeated (env : Env) (rb : route_budgets) (a b : Nat)
    (hs : env.isSink a b) (hc : 3 ≤ rb.num_times_congested a) :
    (∀ n,
      (((lower_budgets env)^[n] rb).delay_min_budget a b ≥ rb.delay_lower_bound a b + 1e-9 →
        ((lower_budgets env)^[n + 1] rb).delay_min_budget a b
          = ((lower_budgets env)^[n] rb).delay_min_budget a b - 1e-9
        ∧ ((lower_budgets env)^[n + 1] rb).delay_min_budget a b
          < ((lower_budgets env)^[n] rb).delay_min_budget a b)
      ∧ (((lower_budgets env)^[n] rb).delay_min_budget a b < rb.delay_lower_bound a b + 1e-9 →
        ∀ m, ((lower_budgets env)^[n + m] rb).delay_min_budget a b
          = ((lower_budgets env)^[n] rb).delay_min_budget a b))
    ∧ (rb.delay_lower_bound a b ≤ rb.delay_min_budget a b →
        ∃ n, rb.delay_lower_bound a b ≤ ((lower_budgets env)^[n] rb).delay_min_budget a b
          ∧ ((lower_budgets env)^[n] rb).delay_min_budget a b < rb.delay_lower_bound a b + 1e-9
          ∧ ∀ m, ((lower_budgets env)^[n + m] rb).delay_min_budget a b
              = ((lower_budgets env)^[n] rb).delay_min_budget a b) := by
  have stable : ∀ n,
      ((lower_budgets env)^[n] rb).delay_min_budget a b < rb.delay_lower_bound a b + 1e-9 →
      ∀ m, ((lower_budgets env)^[n + m] rb).delay_min_budget a b
        = ((lower_budgets env)^[n] rb).delay_min_budget a b := by
    intro n hlt m
    rw [Nat.add_comm, Function.iterate_add_apply]
    refine lower_budgets_iterate_stable env _ a b ?_ m
    rw [(lower_budgets_iterate_frame env rb n).2.2.1]
    exact hlt
  refine ⟨fun n => ⟨fun hge => ?_, stable n⟩, fun hle => ?_⟩
  · obtain ⟨-, -, f3, -, f5, -⟩ := lower_budgets_iterate_frame env rb n
    have hdec : ((lower_budgets env)^[n + 1] rb).delay_min_budget a b
        = ((lower_budgets env)^[n] rb).delay_min_budget a b - 1e-9 := by
      rw [Function.iterate_succ_apply', lower_budgets_min, if_pos]
      · rfl
      · refine ⟨hs, by rw [f5]; exact hc, ?_⟩
        rw [f3]
        linarith
    refine ⟨hdec, ?_⟩
    rw [hdec]
    norm_num
  · obtain ⟨k, hk⟩ := exists_nat_gt
      ((rb.delay_min_budget a b - rb.delay_lower_bound a b) / 1e-9)
    have hk' : rb.delay_min_budget a b - rb.delay_lower_bound a b < k * 1e-9 := by
      rwa [div_lt_iff₀ (by norm_num)] at hk
    obtain ⟨n, h1, h2⟩ := lower_budgets_reaches_floor env a b hs k rb hc hle hk'
    exact ⟨n, h1, h2, stable n h2⟩

/-- C10 (amended), on the example design with a counter of 3 and `min = 2.5 ns`: the first two
calls lower the min budget by `1 ns` each, and at `0.5 ns` it stays. -/
theorem lower_budgets_repeated_witness :
    (example_env 0).isSink 0 1
    ∧ 3 ≤ (example_congested 2.5e-9).num_times_congested 0
    ∧ ((lower_budgets (example_env 0))^[0 + 1] (example_congested 2.5e-9)).delay_min_budget 0 1
        < ((lower_budgets (example_env 0))^[0] (example_congested 2.5e-9)).delay_min_budget 0 1
    ∧ ((lower_budgets (example_env 0))^[2] (example_congested 2.5e-9)).delay_min_budget 0 1
        = 0.5e-9
    ∧ ∀ m, ((lower_budgets (example_env 0))^[2 + m]
          (example_congested 2.5e-9)).delay_min_budget 0 1
        = ((lower_budgets (example_env 0))^[2] (example_congested 2.5e-9)).delay_min_budget 0 1 :=
  have h := lower_budgets_repeated (example_env 0) (example_congested 2.5e-9) 0 1
    (by decide) (by decide)
  ⟨by decide, by decide, ((h.1 0).1 (by decide!)).2, by decide!, (h.1 2).2 (by decide!)⟩

/-! ## C11 -/

/-- C11: `lower_budgets` preserves the budget invariant at every pin, whatever the congestion
counters: if before the call a pin satisfies `lower_bound <= min <= max <= upper_bound` and
`min <= target <= max`, the same holds after the call; in particular the min budget does not
cross below the lower bound. -/
theorem lower_budgets_preserves_invariant (env : Env) (rb : route_budgets) (a b : Nat)
    (h1 : rb.delay_lower_bound a b ≤ rb.delay_min_budget a b)
    (h2 : rb.delay_min_budget a b ≤ rb.delay_max_budget a b)
    (h3 : rb.delay_max_budget a b ≤ rb.delay_upper_bound a b)
    (h4 : rb.delay_min_budget a b ≤ rb.delay_target a b)
    (h5 : rb.delay_target a b ≤ rb.delay_max_budget a b) :
    (lower_budgets env rb).delay_lower_bound a b ≤ (lower_budgets env rb).delay_min_budget a b
    ∧ (lower_budgets env rb).delay_min_budget a b ≤ (lower_budgets env rb).delay_max_budget a b
    ∧ (lower_budgets env rb).delay_max_budget a b
        ≤ (lower_budgets env rb).delay_upper_bound a b
    ∧ (lower_budgets env rb).delay_min_budget a b ≤ (lower_budgets env rb).delay_target a b
    ∧ (lower_budgets env rb).delay_target a b ≤ (lower_budgets env rb).delay_max_budget a b := by
  obtain ⟨f1, f2, f3, f4, -, -⟩ := lower_budgets_frame env rb
  rw [f1, f2, f3, f4, lower_budgets_min]
  by_cases hd : env.isSink a b ∧ 3 ≤ rb.num_times_congested a
      ∧ rb.delay_min_budget a b - rb.delay_lower_bound a b ≥ 1e-9
  · rw [if_pos hd]
    have hdec : MIN_DELAY_DECREMENT = 1e-9 := rfl
    have hge := hd.2.2
    have hpos : (0 : ℚ) < 1e-9 := by norm_num
    rw [hdec]
    refine ⟨by linarith, by linarith, h3, by linarith, h5⟩
  · rw [if_neg hd]
    exact ⟨h1, h2, h3, h4, h5⟩

/-- C11 on the example design with a counter of 3 and a min budget and target of `5 ns`
between the bounds `0` and `100 ns`: after `lower_budgets` the invariant holds, with the min
budget at `4 ns`. -/
theorem lower_budgets_preserves_invariant_witness :
    ((example_congested 5e-9).delay_lower_bound 0 1 ≤ (example_congested 5e-9).delay_min_budget 0 1
      ∧ (example_congested 5e-9).delay_min_budget 0 1
          ≤ (example_congested 5e-9).delay_max_budget 0 1
      ∧ (example_congested 5e-9).delay_max_budget 0 1
          ≤ (example_congested 5e-9).delay_upper_bound 0 1
      ∧ (example_congested 5e-9).delay_min_budget 0 1
          ≤ (example_congested 5e-9).delay_target 0 1
      ∧ (example_congested 5e-9).delay_target 0 1
          ≤ (example_congested 5e-9).delay_max_budget 0 1)
    ∧ (lower_budgets (example_env 0) (example_congested 5e-9)).delay_min_budget 0 1 = 4e-9
    ∧ (lower_budgets (example_env 0) (example_congested 5e-9)).delay_lower_bound 0 1
        ≤ (lower_budgets (example_env 0) (example_congested 5e-9)).delay_min_budget 0 1 :=
  ⟨by decide!, by decide!,
    (lower_budgets_preserves_invariant (example_env 0) (example_congested 5e-9) 0 1
      (by decide!) (by decide!) (by decide!) (by decide!) (by decide!)).1⟩

/-! ## The slack of a pin and the budget `allocate_slack` stores -/

theorem calculate_clb_pin_slack_eq (env : Env) (rb : route_budgets) (inet ipin : Nat)
    (timing_info : SetupHoldTimingInfo) (type : analysis_type) :
    calculate_clb_pin_slack env rb inet ipin timing_info type
      = (env.atom_pins inet ipin).foldl (fun clb_min_slack atom_pin =>
          if timing_info.setup_pin_slack atom_pin = none then clb_min_slack
          else min_slack clb_min_slack (pin_slack timing_info type atom_pin))
          (rb.delay_upper_bound inet ipin) := by
  cases type <;> rfl

/-- A minimum that starts from `x` and skips every atom pin stays `x`. -/
theorem foldl_skip_all (timing_info : SetupHoldTimingInfo) (type : analysis_type)
    (l : List AtomPinId) (x : ℚ) (h : ∀ p ∈ l, timing_info.setup_pin_slack p = none) :
    l.foldl (fun clb_min_slack atom_pin =>
        if timing_info.setup_pin_slack atom_pin = none then clb_min_slack
        else min_slack clb_min_slack (pin_slack timing_info type atom_pin)) x = x := by
  induction l generalizing x with
  | nil => rfl
  | cons p l ih =>
    rw [List.foldl_cons, if_pos (h p (List.mem_cons_self _ _))]
    exact ih x (fun q hq => h q (List.mem_cons_of_mem _ hq))

theorem calculate_clb_pin_slack_untimed (env : Env) (rb : route_budgets) (inet ipin : Nat)
    (timing_info : SetupHoldTimingInfo) (type : analysis_type)
    (h : ∀ p ∈ env.atom_pins inet ipin, timing_info.setup_pin_slack p = none) :
    calculate_clb_pin_slack env rb inet ipin timing_info type
      = rb.delay_upper_bound inet ipin := by
  rw [calculate_clb_pin_slack_eq]
  exact foldl_skip_all timing_info type _ _ h

theorem allocate_slack_budget_eq (env : Env) (rb : route_budgets)
    (timing_info : SetupHoldTimingInfo) (net_delay : Table) (analysis : analysis_type)
    (inet ipin : Nat) :
    allocate_slack_budget env rb timing_info net_delay analysis inet ipin
      = if total_path_delay env timing_info analysis inet ipin = 0 then 0
        else if analysis = analysis_type.HOLD then
          - slack_share env rb timing_info net_delay analysis inet ipin
        else slack_share env rb timing_info net_delay analysis inet ipin := by
  unfold allocate_slack_budget allocate_slack_pin slack_share
  cases analysis
  · by_cases h0 : total_path_delay env timing_info analysis_type.SETUP inet ipin = 0
    · simp [h0, Table.set]
    · simp [h0, Table.set]
  · by_cases h0 : total_path_delay env timing_info analysis_type.HOLD inet ipin = 0
    · simp [h0, Table.set]
    · simp [h0, Table.set]
      ring

/-! ## C12 -/

/-- C12, as stated, fails: on the example design with an oracle that reports `+infinity`
setup slack for every atom pin, the sink pin has max budget `0` before a SETUP round and
`100 ns` after it: the adjustment is not skipped. -/
theorem setup_round_untimed_pin_changes_max :
    (example_env_slack none none).isSink 0 1
    ∧ (∀ p ∈ (example_env_slack none none).atom_pins 0 1,
        ((example_env_slack none none).perform_sta
          (init_bounds (example_env_slack none none) example_mem).delay_max_budget).setup_pin_slack
            p = none)
    ∧ (init_bounds (example_env_slack none none) example_mem).delay_max_budget 0 1 = 0
    ∧ (setup_round (example_env_slack none none) example_net_delay
        (init_bounds (example_env_slack none none) example_mem)).1.delay_max_budget 0 1 = 100e-9
    ∧ (setup_round (example_env_slack none none) example_net_delay
        (init_bounds (example_env_slack none none) example_mem)).1.delay_max_budget 0 1
      ≠ (init_bounds (example_env_slack none none) example_mem).delay_max_budget 0 1 :=
  ⟨by decide, fun _ _ => rfl, by decide!, by decide!, by decide!⟩

/-- C12 (amended): in a SETUP round (`allocate_slack` with analysis type `SETUP` followed by
`keep_budget_in_bounds`), for a sink pin all of whose atom pins report `+infinity` setup slack
the slack used is the pin's upper bound, the start value of the minimum: the max budget after
the round is `0` clamped into `[lower_bound, upper_bound]` when the pin's total path delay is
zero, and otherwise `net_delay * upper_bound / total_path_delay` clamped into
`[lower_bound, upper_bound]`. -/
theorem setup_round_untimed_pin (env : Env) (net_delay : Table) (rb : route_budgets)
    (a b : Nat) (hs : env.isSink a b)
    (hinf : ∀ p ∈ env.atom_pins a b,
      (env.perform_sta rb.delay_max_budget).setup_pin_slack p = none) :
    (setup_round env net_delay rb).1.delay_max_budget a b
      = min (max
          (if total_path_delay env (env.perform_sta rb.delay_max_budget)
                analysis_type.SETUP a b = 0 then 0
           else net_delay a b * rb.delay_upper_bound a b
                  / total_path_delay env (env.perform_sta rb.delay_max_budget)
                      analysis_type.SETUP a b)
          (rb.delay_lower_bound a b)) (rb.delay_upper_bound a b) := by
  rw [setup_round_max, if_pos hs, allocate_slack_budget_eq]
  unfold slack_share
  rw [calculate_clb_pin_slack_untimed env rb a b _ analysis_type.SETUP hinf]
  simp

/-- C12 (amended), on the example design with an oracle that reports `+infinity` setup slack:
the max budget of the sink pin after the round is `5 ns * 100 ns / 1 ns` clamped, `100 ns`. -/
theorem setup_round_untimed_pin_witness :
    (example_env_slack none none).isSink 0 1
    ∧ (∀ p ∈ (example_env_slack none none).atom_pins 0 1,
        ((example_env_slack none none).perform_sta
          (init_bounds (example_env_slack none none) example_mem).delay_max_budget).setup_pin_slack
            p = none)
    ∧ (setup_round (example_env_slack none none) example_net_delay
        (init_bounds (example_env_slack none none) example_mem)).1.delay_max_budget 0 1
      = min (max (5e-9 * 100e-9 / 1e-9) 0) 100e-9 :=
  ⟨by decide, fun _ _ => rfl,
    (setup_round_untimed_pin (example_env_slack none none) example_net_delay
      (init_bounds (example_env_slack none none) example_mem) 0 1 (by decide)
      (fun _ _ => rfl)).trans (by decide!)⟩

/-! ## C13 -/

/-- C13: for every sink pin (`ipin >= 1`), `get_crit_short_path` returns 0 if the stored target
is 0 and otherwise `((target - lower_bound) / target)` raised to the power `0.5`. -/
theorem get_crit_short_path_value (env : Env) (rb : route_budgets) (inet ipin : Nat)
    (hpin : 1 ≤ ipin) :
    get_crit_short_path env rb inet ipin
      = Except.ok
          (if rb.delay_target inet ipin = 0 then 0
           else env.pow ((rb.delay_target inet ipin - rb.delay_lower_bound inet ipin)
                  / rb.delay_target inet ipin) 0.5) := by
  have h0 : ipin ≠ 0 := by omega
  have he : SHORT_PATH_EXP = 0.5 := rfl
  unfold get_crit_short_path
  rw [if_neg h0, he]
  split_ifs <;> rfl

/-- C13 on two states of the example design: a target of 0 gives 0, and a target of `5 ns`
over a lower bound of 0 gives `pow(1, 0.5)`. -/
theorem get_crit_short_path_value_witness :
    1 ≤ 1
    ∧ get_crit_short_path (example_env 0) (example_congested 0) 0 1 = Except.ok 0
    ∧ get_crit_short_path (example_env 0) (example_congested 5e-9) 0 1
        = Except.ok ((example_env 0).pow 1 0.5) :=
  ⟨le_refl 1,
    (get_crit_short_path_value (example_env 0) (example_congested 0) 0 1 (le_refl 1)).trans rfl,
    (get_crit_short_path_value (example_env 0) (example_congested 5e-9) 0 1 (le_refl 1)).trans
      (congrArg Except.ok (by decide!))⟩

/-! ## The checked divisions never fail -/

theorem checked_div_ok (x y : ℚ) (h : y ≠ 0) : checked_div x y = Except.ok (x / y) := by
  unfold checked_div
  rw [if_neg h]

theorem allocate_slack_pin_checked_eq (env : Env) (rb : route_budgets)
    (timing_info : SetupHoldTimingInfo) (net_delay : Table) (analysis : analysis_type)
    (inet ipin : Nat) (st : Table × ℚ) :
    allocate_slack_pin_checked env rb timing_info net_delay analysis inet ipin st
      = Except.ok (allocate_slack_pin env rb timing_info net_delay analysis inet ipin st) := by
  unfold allocate_slack_pin_checked allocate_slack_pin
  by_cases h0 : total_path_delay env timing_info analysis inet ipin = 0
  · simp only [h0, if_true]
  · simp only [h0, if_false, checked_div_ok _ _ h0]
    cases analysis <;> rfl

theorem allocate_slack_checked_eq (env : Env) (rb : route_budgets)
    (timing_info : SetupHoldTimingInfo) (t net_delay : Table) (analysis : analysis_type) :
    allocate_slack_checked env rb timing_info t net_delay analysis
      = Except.ok (allocate_slack env rb timing_info t net_delay analysis) := by
  unfold allocate_slack_checked allocate_slack
  exact forNetsM_forSinksM_ok env (fun _ _ => True)
    (fun i j st => allocate_slack_pin env rb timing_info net_delay analysis i j st)
    (fun i j st => allocate_slack_pin_checked env rb timing_info net_delay analysis i j st)
    (fun i j st _ => allocate_slack_pin_checked_eq env rb timing_info net_delay analysis i j st)
    (t, 0) (fun _ _ _ => trivial)

theorem criticality_pin_checked_eq (env : Env) (net_delay : Table)
    (router_opts : t_router_opts) (inet ipin : Nat) (rb : route_budgets) :
    allocate_slack_using_delays_and_criticalities_pin_checked env net_delay router_opts
        inet ipin rb
      = allocate_slack_using_delays_and_criticalities_pin env net_delay router_opts
          inet ipin rb := by
  unfold allocate_slack_using_delays_and_criticalities_pin_checked
    allocate_slack_using_delays_and_criticalities_pin
  by_cases hc : min (env.pow (max (env.calculate_clb_net_pin_criticality inet ipin
        - (1 - router_opts.max_criticality)) 0) router_opts.criticality_exp)
      router_opts.max_criticality = 0
  · simp only [hc, if_true]
    rfl
  · simp only [hc, if_false, checked_div_ok _ _ hc]
    rfl

theorem criticality_checked_eq (env : Env) (net_delay : Table)
    (router_opts : t_router_opts) (rb : route_budgets) :
    allocate_slack_using_delays_and_criticalities_checked env net_delay router_opts rb
      = allocate_slack_using_delays_and_criticalities env net_delay router_opts rb := by
  unfold allocate_slack_using_delays_and_criticalities_checked
    allocate_slack_using_delays_and_criticalities
  simp only [criticality_pin_checked_eq]

theorem get_crit_short_path_checked_eq (env : Env) (rb : route_budgets) (inet ipin : Nat) :
    get_crit_short_path_checked env rb inet ipin = get_crit_short_path env rb inet ipin := by
  unfold get_crit_short_path_checked get_crit_short_path
  by_cases h0 : ipin = 0
  · simp only [h0, if_true]
  · by_cases ht : rb.delay_target inet ipin = 0
    · simp only [h0, ht, if_true, if_false]
    · simp only [h0, ht, if_false, checked_div_ok _ _ ht]
      rfl

theorem criticality_never_divides_by_zero (env : Env) (net_delay : Table)
    (router_opts : t_router_opts) (rb : route_budgets) :
    allocate_slack_using_delays_and_criticalities env net_delay router_opts rb
      ≠ Except.error VtrError.division_by_zero := by
  by_cases hfit : budgets_do_not_fit env net_delay router_opts
  · rw [allocate_slack_using_delays_and_criticalities_error env net_delay router_opts rb hfit]
    intro h
    cases h
  · rw [allocate_slack_using_delays_and_criticalities_ok env net_delay router_opts rb hfit]
    intro h
    cases h

/-! ## C14 -/

/-- C14: no division by zero is reached.  With every division of the source checked,
`allocate_slack` returns what it returns unchecked (it divides by `total_path_delay` only when
it is not zero; when it is zero the pin's budget is set to 0 and the returned change is left as
it was); `allocate_slack_using_delays_and_criticalities` behaves as unchecked and never fails
with a division by zero (it divides by the reshaped criticality only when it is not zero;
when it is zero the max budget is the upper bound); and `get_crit_short_path` behaves as
unchecked and never fails with a division by zero (it divides by the target only when it is
not zero). -/
theorem no_division_by_zero (env : Env) (rb : route_budgets)
    (timing_info : SetupHoldTimingInfo) (t net_delay : Table) (analysis : analysis_type)
    (router_opts : t_router_opts) (inet ipin : Nat) (st : Table × ℚ) :
    (allocate_slack_checked env rb timing_info t net_delay analysis
        = Except.ok (allocate_slack env rb timing_info t net_delay analysis)
      ∧ (total_path_delay env timing_info analysis inet ipin = 0 →
          allocate_slack_pin env rb timing_info net_delay analysis inet ipin st
            = (st.1.set inet ipin 0, st.2)))
    ∧ (allocate_slack_using_delays_and_criticalities_checked env net_delay router_opts rb
          = allocate_slack_using_delays_and_criticalities env net_delay router_opts rb
        ∧ allocate_slack_using_delays_and_criticalities_checked env net_delay router_opts rb
            ≠ Except.error VtrError.division_by_zero
        ∧ (reshaped_criticality env router_opts inet ipin = 0 →
            ∃ rb1, allocate_slack_using_delays_and_criticalities_pin env net_delay router_opts
                inet ipin rb = Except.ok rb1
              ∧ rb1.delay_max_budget inet ipin = rb1.delay_upper_bound inet ipin))
    ∧ (get_crit_short_path_checked env rb inet ipin = get_crit_short_path env rb inet ipin
        ∧ get_crit_short_path_checked env rb inet ipin
            ≠ Except.error VtrError.division_by_zero) := by
  refine ⟨⟨allocate_slack_checked_eq env rb timing_info t net_delay analysis, fun h0 => ?_⟩,
    ⟨criticality_checked_eq env net_delay router_opts rb, ?_, fun hz => ?_⟩,
    ⟨get_crit_short_path_checked_eq env rb inet ipin, ?_⟩⟩
  · unfold allocate_slack_pin
    simp only [h0, if_true]
  · rw [criticality_checked_eq]
    exact criticality_never_divides_by_zero env net_delay router_opts rb
  · have hmax : scaled_max_budget env net_delay router_opts inet ipin = 100e-9 := by
      unfold scaled_max_budget
      rw [if_pos hz]
    refine ⟨_, scaled_pin_ok env net_delay router_opts inet ipin rb
      (by rw [hmax]; norm_num), ?_⟩
    simp only [scaled_pin_writes, Table.set, and_self, if_true]
    exact hmax
  · rw [get_crit_short_path_checked_eq]
    unfold get_crit_short_path
    split_ifs <;> intro h <;> cases h

/-- C14 on the example design with a total path delay of zero (no tags), a raw criticality of
zero and a target of zero: the three checked functions return. -/
theorem no_division_by_zero_witness :
    total_path_delay (example_env 0)
        { setup_pin_slack := fun _ => none, hold_pin_slack := fun _ => none,
          setup_tags := fun _ _ => [], hold_tags := fun _ _ => [] }
        analysis_type.SETUP 0 1 = 0
    ∧ reshaped_criticality (example_env 0)
        (example_opts e_routing_budgets_algorithm.SCALE_DELAY) 0 1 = 0
    ∧ (example_congested 0).delay_target 0 1 = 0
    ∧ allocate_slack_pin (example_env 0) (example_congested 0)
        { setup_pin_slack := fun _ => none, hold_pin_slack := fun _ => none,
          setup_tags := fun _ _ => [], hold_tags := fun _ _ => [] }
        example_net_delay analysis_type.SETUP 0 1 (example_net_delay, 3)
        = (example_net_delay.set 0 1 0, 3)
    ∧ get_crit_short_path_checked (example_env 0) (example_congested 0) 0 1 = Except.ok 0 :=
  have h := no_division_by_zero (example_env 0) (example_congested 0)
    { setup_pin_slack := fun _ => none, hold_pin_slack := fun _ => none,
      setup_tags := fun _ _ => [], hold_tags := fun _ _ => [] }
    example_net_delay example_net_delay analysis_type.SETUP
    (example_opts e_routing_budgets_algorithm.SCALE_DELAY) 0 1 (example_net_delay, 3)
  ⟨by decide!, by decide!, by decide!, h.1.2 (by decide!), h.2.2.1.trans rfl⟩

/-! ## C15 -/

/-- C15, as stated, fails: on the example design the sink pin enters the second round of the
first loop with max budget `5 ns`, non-zero total path delay and adjustment `5 ns`; after the
round its max budget is `5 ns`, the clamped adjustment, not the clamped sum `10 ns`. -/
theorem setup_round_does_not_add :
    (example_env 0).isSink 0 1
    ∧ total_path_delay (example_env 0)
        ((example_env 0).perform_sta example_round1.delay_max_budget) analysis_type.SETUP 0 1 ≠ 0
    ∧ example_round1.delay_max_budget 0 1 = 5e-9
    ∧ slack_share (example_env 0) example_round1
        ((example_env 0).perform_sta example_round1.delay_max_budget) example_net_delay
        analysis_type.SETUP 0 1 = 5e-9
    ∧ example_round1.delay_lower_bound 0 1 = 0
    ∧ example_round1.delay_upper_bound 0 1 = 100e-9
    ∧ (setup_round (example_env 0) example_net_delay example_round1).1.delay_max_budget 0 1
        = 5e-9
    ∧ (setup_round (example_env 0) example_net_delay example_round1).1.delay_max_budget 0 1
        ≠ min (max (example_round1.delay_max_budget 0 1
              + slack_share (example_env 0) example_round1
                  ((example_env 0).perform_sta example_round1.delay_max_budget)
                  example_net_delay analysis_type.SETUP 0 1)
            (example_round1.delay_lower_bound 0 1)) (example_round1.delay_upper_bound 0 1) := by
  decide!

/-- C15 (amended): in each round of the first loop of `allocate_slack_minimax_PERT`, for every
sink pin with non-zero `total_path_delay` the new max budget equals the adjustment
`delay_estimate * setup_slack / total_path_delay` clamped into `[lower_bound, upper_bound]`:
the adjustment replaces the pin's previous max budget, it is not added to it. -/
theorem setup_round_max_budget (env : Env) (net_delay : Table) (rb : route_budgets)
    (a b : Nat) (hs : env.isSink a b)
    (h0 : total_path_delay env (env.perform_sta rb.delay_max_budget)
      analysis_type.SETUP a b ≠ 0) :
    slack_share env rb (env.perform_sta rb.delay_max_budget) net_delay analysis_type.SETUP a b
      = net_delay a b
          * calculate_clb_pin_slack env rb a b (env.perform_sta rb.delay_max_budget)
              analysis_type.SETUP
          / total_path_delay env (env.perform_sta rb.delay_max_budget) analysis_type.SETUP a b
    ∧ (setup_round env net_delay rb).1.delay_max_budget a b
      = min (max
          (slack_share env rb (env.perform_sta rb.delay_max_budget) net_delay
            analysis_type.SETUP a b)
          (rb.delay_lower_bound a b)) (rb.delay_upper_bound a b) := by
  refine ⟨rfl, ?_⟩
  rw [setup_round_max, if_pos hs, allocate_slack_budget_eq, if_neg h0, if_neg (by decide)]

/-- C15 (amended), on the second round of the example design: the max budget after the round
is the clamped adjustment `5 ns`. -/
theorem setup_round_max_budget_witness :
    (example_env 0).isSink 0 1
    ∧ total_path_delay (example_env 0)
        ((example_env 0).perform_sta example_round1.delay_max_budget) analysis_type.SETUP 0 1 ≠ 0
    ∧ (setup_round (example_env 0) example_net_delay example_round1).1.delay_max_budget 0 1
      = min (max (5e-9) 0) 100e-9 :=
  ⟨by decide, by decide!,
    (setup_round_max_budget (example_env 0) example_net_delay example_round1 0 1
      (by decide) (by decide!)).2.trans (by decide!)⟩

/-! ## The change returned by `allocate_slack` -/

/-- A fold whose steps only raise a tracked value, each to at least the candidates `T k` of
its step and either leaving it or setting it to such a candidate, ends at the maximum of the
start value and the candidates. -/
theorem foldl_running_max {σ κ : Type} (proj : σ → ℚ) (T : κ → ℚ → Prop) (body : κ → σ → σ)
    (h : ∀ k s, proj s ≤ proj (body k s) ∧ (∀ x, T k x → x ≤ proj (body k s))
      ∧ (proj (body k s) = proj s ∨ T k (proj (body k s))))
    (l : List κ) (s : σ) :
    proj s ≤ proj (l.foldl (fun st k => body k st) s)
    ∧ (∀ k ∈ l, ∀ x, T k x → x ≤ proj (l.foldl (fun st k => body k st) s))
    ∧ (proj (l.foldl (fun st k => body k st) s) = proj s
        ∨ ∃ k ∈ l, T k (proj (l.foldl (fun st k => body k st) s))) := by
  induction l generalizing s with
  | nil => exact ⟨le_refl _, fun k hk => absurd hk (List.not_mem_nil k), Or.inl rfl⟩
  | cons k l ih =>
    rw [List.foldl_cons]
    obtain ⟨i1, i2, i3⟩ := ih (body k s)
    obtain ⟨s1, s2, s3⟩ := h k s
    refine ⟨le_trans s1 i1, fun k1 hk1 x hx => ?_, ?_⟩
    · rcases List.mem_cons.mp hk1 with rfl | hmem
      · exact le_trans (s2 x hx) i1
      · exact i2 k1 hmem x hx
    · rcases i3 with heq | ⟨k1, hk1, hT⟩
      · rcases s3 with hsame | hT
        · exact Or.inl (heq.trans hsame)
        · exact Or.inr ⟨k, List.mem_cons_self _ _, by rw [heq]; exact hT⟩
      · exact Or.inr ⟨k1, List.mem_cons_of_mem _ hk1, hT⟩

theorem allocate_slack_pin_snd (env : Env) (rb : route_budgets)
    (timing_info : SetupHoldTimingInfo) (net_delay : Table) (analysis : analysis_type)
    (i j : Nat) (st : Table × ℚ) :
    (allocate_slack_pin env rb timing_info net_delay analysis i j st).2
      = if total_path_delay env timing_info analysis i j = 0 then st.2
        else max st.2 (slack_share env rb timing_info net_delay analysis i j) := by
  unfold allocate_slack_pin slack_share
  cases analysis
  · by_cases h0 : total_path_delay env timing_info analysis_type.SETUP i j = 0 <;> simp [h0]
  · by_cases h0 : total_path_delay env timing_info analysis_type.HOLD i j = 0 <;> simp [h0]

/-- The change `allocate_slack` returns is the maximum of 0 and the quantities
`net_delay * path_slack / total_path_delay` of the sink pins with non-zero total path delay. -/
theorem allocate_slack_snd (env : Env) (rb : route_budgets) (timing_info : SetupHoldTimingInfo)
    (t net_delay : Table) (analysis : analysis_type) :
    0 ≤ (allocate_slack env rb timing_info t net_delay analysis).2
    ∧ (∀ a b, env.isSink a b → total_path_delay env timing_info analysis a b ≠ 0 →
        slack_share env rb timing_info net_delay analysis a b
          ≤ (allocate_slack env rb timing_info t net_delay analysis).2)
    ∧ ((allocate_slack env rb timing_info t net_delay analysis).2 = 0
        ∨ ∃ a b, env.isSink a b ∧ total_path_delay env timing_info analysis a b ≠ 0
            ∧ (allocate_slack env rb timing_info t net_delay analysis).2
                = slack_share env rb timing_info net_delay analysis a b) := by
  have pin : ∀ i (l : List Nat) (st : Table × ℚ),
      st.2 ≤ (l.foldl (fun st j =>
          allocate_slack_pin env rb timing_info net_delay analysis i j st) st).2
      ∧ (∀ j ∈ l, ∀ x, (total_path_delay env timing_info analysis i j ≠ 0
            ∧ x = slack_share env rb timing_info net_delay analysis i j) →
          x ≤ (l.foldl (fun st j =>
            allocate_slack_pin env rb timing_info net_delay analysis i j st) st).2)
      ∧ ((l.foldl (fun st j =>
            allocate_slack_pin env rb timing_info net_delay analysis i j st) st).2 = st.2
          ∨ ∃ j ∈ l, (total_path_delay env timing_info analysis i j ≠ 0
              ∧ (l.foldl (fun st j =>
                  allocate_slack_pin env rb timing_info net_delay analysis i j st) st).2
                = slack_share env rb timing_info net_delay analysis i j)) := by
    intro i l st
    refine foldl_running_max (fun st : Table × ℚ => st.2)
      (fun j x => total_path_delay env timing_info analysis i j ≠ 0
        ∧ x = slack_share env rb timing_info net_delay analysis i j)
      (fun j st => allocate_slack_pin env rb timing_info net_delay analysis i j st)
      (fun j st => ?_) l st
    simp only [allocate_slack_pin_snd]
    by_cases h0 : total_path_delay env timing_info analysis i j = 0
    · rw [if_pos h0]
      exact ⟨le_refl _, fun x hx => absurd h0 hx.1, Or.inl rfl⟩
    · rw [if_neg h0]
      refine ⟨le_max_left _ _, fun x hx => ?_, ?_⟩
      · rw [hx.2]
        exact le_max_right _ _
      · rcases max_choice st.2 (slack_share env rb timing_info net_delay analysis i j)
          with hm | hm
        · exact Or.inl hm
        · exact Or.inr ⟨h0, hm⟩
  have net := foldl_running_max (fun st : Table × ℚ => st.2)
    (fun i x => ∃ j ∈ List.range' 1 (env.num_pins i - 1),
      total_path_delay env timing_info analysis i j ≠ 0
        ∧ x = slack_share env rb timing_info net_delay analysis i j)
    (fun i st => forSinks env i (fun j st =>
      allocate_slack_pin env rb timing_info net_delay analysis i j st) st)
    (fun i st => by
      obtain ⟨p1, p2, p3⟩ := pin i (List.range' 1 (env.num_pins i - 1)) st
      refine ⟨p1, fun x hx => ?_, ?_⟩
      · obtain ⟨j, hj, hT⟩ := hx
        exact p2 j hj x hT
      · rcases p3 with hsame | ⟨j, hj, hT⟩
        · exact Or.inl hsame
        · exact Or.inr ⟨j, hj, hT⟩)
    (List.range env.net.length) (t, 0)
  obtain ⟨n1, n2, n3⟩ := net
  refine ⟨n1, fun a b hs h0 => ?_, ?_⟩
  · obtain ⟨ha, hb⟩ := (mem_sinks_iff env a b).mpr hs
    exact n2 a ha _ ⟨b, hb, h0, rfl⟩
  · rcases n3 with hzero | ⟨a, ha, b, hb, h0, hr⟩
    · exact Or.inl hzero
    · exact Or.inr ⟨a, b, (mem_sinks_iff env a b).mp ⟨ha, hb⟩, h0, hr⟩

/-! ## C16 -/

/-- C16, as stated, fails: on the example design with a setup slack of `-1 ns` the only sink
pin is adjusted in a SETUP round by `5 ns * (-1 ns) / 1 ns = -5 ns`, of absolute value
`5 ns`, and `allocate_slack` returns 0. -/
theorem allocate_slack_returns_signed_change :
    (example_env_slack (some (-1e-9)) (some 1e-9)).isSink 0 1
    ∧ total_path_delay (example_env_slack (some (-1e-9)) (some 1e-9))
        ((example_env_slack (some (-1e-9)) (some 1e-9)).perform_sta example_round1.delay_max_budget)
        analysis_type.SETUP 0 1 ≠ 0
    ∧ slack_share (example_env_slack (some (-1e-9)) (some 1e-9)) example_round1
        ((example_env_slack (some (-1e-9)) (some 1e-9)).perform_sta example_round1.delay_max_budget)
        example_net_delay analysis_type.SETUP 0 1 = -5e-9
    ∧ (allocate_slack (example_env_slack (some (-1e-9)) (some 1e-9)) example_round1
        ((example_env_slack (some (-1e-9)) (some 1e-9)).perform_sta example_round1.delay_max_budget)
        example_round1.delay_max_budget example_net_delay analysis_type.SETUP).1 0 1 = -5e-9
    ∧ (allocate_slack (example_env_slack (some (-1e-9)) (some 1e-9)) example_round1
        ((example_env_slack (some (-1e-9)) (some 1e-9)).perform_sta example_round1.delay_max_budget)
        example_round1.delay_max_budget example_net_delay analysis_type.SETUP).2 = 0
    ∧ (allocate_slack (example_env_slack (some (-1e-9)) (some 1e-9)) example_round1
        ((example_env_slack (some (-1e-9)) (some 1e-9)).perform_sta example_round1.delay_max_budget)
        example_round1.delay_max_budget example_net_delay analysis_type.SETUP).2
      ≠ |slack_share (example_env_slack (some (-1e-9)) (some 1e-9)) example_round1
          ((example_env_slack (some (-1e-9)) (some 1e-9)).perform_sta
            example_round1.delay_max_budget)
          example_net_delay analysis_type.SETUP 0 1| := by
  decide!

/-- C16 (amended): for both SETUP and HOLD mode, the value returned by `allocate_slack` is the
maximum of 0 and, over the sink pins adjusted in that round (those with non-zero
`total_path_delay`), of the signed quantity `delay_estimate * slack / total_path_delay`
(no absolute value, and no sign inversion in HOLD mode); it is 0 when no pin is adjusted. -/
theorem allocate_slack_returned_change (env : Env) (rb : route_budgets)
    (timing_info : SetupHoldTimingInfo) (t net_delay : Table) (analysis : analysis_type) :
    0 ≤ (allocate_slack env rb timing_info t net_delay analysis).2
    ∧ (∀ a b, env.isSink a b → total_path_delay env timing_info analysis a b ≠ 0 →
        net_delay a b * calculate_clb_pin_slack env rb a b timing_info analysis
            / total_path_delay env timing_info analysis a b
          ≤ (allocate_slack env rb timing_info t net_delay analysis).2)
    ∧ ((allocate_slack env rb timing_info t net_delay analysis).2 = 0
        ∨ ∃ a b, env.isSink a b ∧ total_path_delay env timing_info analysis a b ≠ 0
            ∧ (allocate_slack env rb timing_info t net_delay analysis).2
                = net_delay a b * calculate_clb_pin_slack env rb a b timing_info analysis
                    / total_path_delay env timing_info analysis a b)
    ∧ ((∀ a b, env.isSink a b → total_path_delay env timing_info analysis a b = 0) →
        (allocate_slack env rb timing_info t net_delay analysis).2 = 0) := by
  obtain ⟨h1, h2, h3⟩ := allocate_slack_snd env rb timing_info t net_delay analysis
  refine ⟨h1, h2, h3, fun hnone => ?_⟩
  rcases h3 with hz | ⟨a, b, hs, h0, -⟩
  · exact hz
  · exact absurd (hnone a b hs) h0

/-- C16 (amended), on the example design: with a setup slack of `1 ns` the returned change is
the quantity `5 ns` of the sink pin, with a setup slack of `-1 ns` it is 0. -/
theorem allocate_slack_returned_change_witness :
    (example_env 0).isSink 0 1
    ∧ total_path_delay (example_env 0)
        ((example_env 0).perform_sta example_round1.delay_max_budget) analysis_type.SETUP 0 1 ≠ 0
    ∧ example_net_delay 0 1 * calculate_clb_pin_slack (example_env 0) example_round1 0 1
          ((example_env 0).perform_sta example_round1.delay_max_budget) analysis_type.SETUP
        / total_path_delay (example_env 0)
          ((example_env 0).perform_sta example_round1.delay_max_budget) analysis_type.SETUP 0 1
      ≤ (allocate_slack (example_env 0) example_round1
          ((example_env 0).perform_sta example_round1.delay_max_budget)
          example_round1.delay_max_budget example_net_delay analysis_type.SETUP).2
    ∧ (allocate_slack (example_env 0) example_round1
          ((example_env 0).perform_sta example_round1.delay_max_budget)
          example_round1.delay_max_budget example_net_delay analysis_type.SETUP).2 = 5e-9 :=
  ⟨by decide, by decide!,
    (allocate_slack_returned_change (example_env 0) example_round1
      ((example_env 0).perform_sta example_round1.delay_max_budget)
      example_round1.delay_max_budget example_net_delay analysis_type.SETUP).2.1 0 1
      (by decide) (by decide!),
    by decide!⟩

/-! ## C17 -/

/-- The minimum that `calculate_clb_pin_slack` forms when it skips no atom pin of finite
slack: it is at most its start value and every finite slack, and it is the start value or one
of the finite slacks. -/
theorem foldl_min_slack (slack : AtomPinId → Option ℚ) (l : List AtomPinId) (x : ℚ) :
    l.foldl (fun acc p => min_slack acc (slack p)) x ≤ x
    ∧ (∀ p ∈ l, ∀ s, slack p = some s → l.foldl (fun acc p => min_slack acc (slack p)) x ≤ s)
    ∧ (l.foldl (fun acc p => min_slack acc (slack p)) x = x
        ∨ ∃ p ∈ l, slack p = some (l.foldl (fun acc p => min_slack acc (slack p)) x)) := by
  induction l generalizing x with
  | nil => exact ⟨le_refl _, fun p hp => absurd hp (List.not_mem_nil p), Or.inl rfl⟩
  | cons q l ih =>
    rw [List.foldl_cons]
    obtain ⟨i1, i2, i3⟩ := ih (min_slack x (slack q))
    have hstep : min_slack x (slack q) ≤ x := by
      cases hq : slack q with
      | none => exact le_refl _
      | some s => exact min_le_left _ _
    refine ⟨le_trans i1 hstep, fun p hp s hs => ?_, ?_⟩
    · rcases List.mem_cons.mp hp with rfl | hmem
      · refine le_trans i1 ?_
        rw [hs]
        exact min_le_right _ _
      · exact i2 p hmem s hs
    · rcases i3 with heq | ⟨p, hp, hs⟩
      · cases hq : slack q with
        | none =>
          rw [hq] at heq
          exact Or.inl heq
        | some s =>
          rw [hq] at heq
          rcases min_choice x s with hm | hm
          · exact Or.inl (heq.trans hm)
          · refine Or.inr ⟨q, List.mem_cons_self _ _, ?_⟩
            rw [hq, heq]
            exact congrArg some hm.symm
      · exact Or.inr ⟨p, List.mem_cons_of_mem _ hp, hs⟩

/-- C17, as stated, fails: on the example design with a setup slack of `200 ns` for the only
atom pin of the sink, `calculate_clb_pin_slack` in SETUP mode returns the upper bound
`100 ns`, its start value, not the minimum `200 ns` of the finite setup slacks. -/
theorem calculate_clb_pin_slack_capped_at_upper_bound :
    (example_env_slack (some 200e-9) none).isSink 0 1
    ∧ (example_env_slack (some 200e-9) none).atom_pins 0 1 = [0]
    ∧ pin_slack ((example_env_slack (some 200e-9) none).perform_sta example_round1.delay_max_budget)
        analysis_type.SETUP 0 = some 200e-9
    ∧ example_round1.delay_upper_bound 0 1 = 100e-9
    ∧ calculate_clb_pin_slack (example_env_slack (some 200e-9) none) example_round1 0 1
        ((example_env_slack (some 200e-9) none).perform_sta example_round1.delay_max_budget)
        analysis_type.SETUP = 100e-9
    ∧ calculate_clb_pin_slack (example_env_slack (some 200e-9) none) example_round1 0 1
        ((example_env_slack (some 200e-9) none).perform_sta example_round1.delay_max_budget)
        analysis_type.SETUP ≠ 200e-9 := by
  decide!

/-- C17 (amended): for mode `M` in SETUP, HOLD and every pin none of whose atom pins has
`+infinity` setup slack together with a finite mode-`M` slack (always so for SETUP),
`calculate_clb_pin_slack` returns the minimum of the pin's upper bound and of the mode-`M`
slack over exactly those atom pins whose mode-`M` slack is not `+infinity`: the result is at
most the upper bound and every finite mode-`M` slack, and it is the upper bound or one of
the finite mode-`M` slacks. -/
theorem calculate_clb_pin_slack_min (env : Env) (rb : route_budgets) (inet ipin : Nat)
    (timing_info : SetupHoldTimingInfo) (type : analysis_type)
    (hskip : ∀ p ∈ env.atom_pins inet ipin,
      timing_info.setup_pin_slack p = none → pin_slack timing_info type p = none) :
    calculate_clb_pin_slack env rb inet ipin timing_info type ≤ rb.delay_upper_bound inet ipin
    ∧ (∀ p ∈ env.atom_pins inet ipin, ∀ s, pin_slack timing_info type p = some s →
        calculate_clb_pin_slack env rb inet ipin timing_info type ≤ s)
    ∧ (calculate_clb_pin_slack env rb inet ipin timing_info type
          = rb.delay_upper_bound inet ipin
        ∨ ∃ p ∈ env.atom_pins inet ipin,
            pin_slack timing_info type p
              = some (calculate_clb_pin_slack env rb inet ipin timing_info type)) := by
  have hfold : ∀ (l : List AtomPinId) (x : ℚ),
      (∀ p ∈ l, timing_info.setup_pin_slack p = none → pin_slack timing_info type p = none) →
      l.foldl (fun clb_min_slack atom_pin =>
          if timing_info.setup_pin_slack atom_pin = none then clb_min_slack
          else min_slack clb_min_slack (pin_slack timing_info type atom_pin)) x
        = l.foldl (fun acc p => min_slack acc (pin_slack timing_info type p)) x := by
    intro l
    induction l with
    | nil => intro x _; rfl
    | cons q l ih =>
      intro x hl
      rw [List.foldl_cons, List.foldl_cons]
      have hstep : (if timing_info.setup_pin_slack q = none then x
          else min_slack x (pin_slack timing_info type q))
            = min_slack x (pin_slack timing_info type q) := by
        by_cases hq : timing_info.setup_pin_slack q = none
        · rw [if_pos hq, hl q (List.mem_cons_self _ _) hq]
          rfl
        · rw [if_neg hq]
      rw [hstep]
      exact ih _ (fun p hp => hl p (List.mem_cons_of_mem _ hp))
  rw [calculate_clb_pin_slack_eq, hfold _ _ hskip]
  exact foldl_min_slack (pin_slack timing_info type) (env.atom_pins inet ipin)
    (rb.delay_upper_bound inet ipin)

/-- C17 (amended), on the example design with a hold slack of `1 ns` and a setup slack of
`200 ns`: in HOLD mode the slack of the sink pin is at most the hold slack `1 ns` of its atom
pin. -/
theorem calculate_clb_pin_slack_min_witness :
    (∀ p ∈ (example_env_slack (some 200e-9) (some 1e-9)).atom_pins 0 1,
        ((example_env_slack (some 200e-9) (some 1e-9)).perform_sta
            example_round1.delay_max_budget).setup_pin_slack p = none →
          pin_slack ((example_env_slack (some 200e-9) (some 1e-9)).perform_sta
            example_round1.delay_max_budget) analysis_type.HOLD p = none)
    ∧ calculate_clb_pin_slack (example_env_slack (some 200e-9) (some 1e-9)) example_round1 0 1
        ((example_env_slack (some 200e-9) (some 1e-9)).perform_sta
          example_round1.delay_max_budget) analysis_type.HOLD ≤ 1e-9 :=
  ⟨fun _ _ h => Option.noConfusion h,
    (calculate_clb_pin_slack_min (example_env_slack (some 200e-9) (some 1e-9)) example_round1 0 1
      ((example_env_slack (some 200e-9) (some 1e-9)).perform_sta example_round1.delay_max_budget)
      analysis_type.HOLD (fun _ _ h => Option.noConfusion h)).2.1 0
      (List.mem_singleton.mpr rfl) 1e-9 rfl⟩

/-! ## C18 -/

/-- C18: for every oracle and delay-estimate table, after `allocate_slack_minimax_PERT` every
sink pin that entered with `lower_bound = 0` and `upper_bound = 100 ns` (the values
`load_route_budgets` gives it) satisfies `-1 ns <= min <= max` and
`lower_bound <= max <= upper_bound`, still with `lower_bound = 0` and
`upper_bound = 100 ns`. -/
theorem minimax_budget_window (env : Env) (net_delay : Table) (rb : route_budgets)
    (a b : Nat) (hs : env.isSink a b) (hlb : rb.delay_lower_bound a b = 0)
    (hub : rb.delay_upper_bound a b = 100e-9) :
    -1e-9 ≤ (allocate_slack_minimax_PERT env net_delay rb).delay_min_budget a b
    ∧ (allocate_slack_minimax_PERT env net_delay rb).delay_min_budget a b
        ≤ (allocate_slack_minimax_PERT env net_delay rb).delay_max_budget a b
    ∧ (allocate_slack_minimax_PERT env net_delay rb).delay_lower_bound a b
        ≤ (allocate_slack_minimax_PERT env net_delay rb).delay_max_budget a b
    ∧ (allocate_slack_minimax_PERT env net_delay rb).delay_max_budget a b
        ≤ (allocate_slack_minimax_PERT env net_delay rb).delay_upper_bound a b
    ∧ (allocate_slack_minimax_PERT env net_delay rb).delay_lower_bound a b = 0
    ∧ (allocate_slack_minimax_PERT env net_delay rb).delay_upper_bound a b = 100e-9 := by
  obtain ⟨-, q2, q3, -, -, hp⟩ := allocate_slack_minimax_PERT_spec env net_delay rb
  obtain ⟨hmaxb, hmin, hfloor⟩ := hp a b hs
  have hb := hmaxb (by rw [hlb, hub]; norm_num)
  rw [hlb, hub] at hb
  rw [q2, q3, hlb, hub]
  exact ⟨hfloor (le_trans (by norm_num) hb.1), hmin, hb.1, hb.2, rfl, rfl⟩

/-- C18 on the example design after the initialisation of `load_route_budgets`: the sink pin
ends with `min = -1 ns` and `max = 5 ns`. -/
theorem minimax_budget_window_witness :
    (example_env 0).isSink 0 1
    ∧ (init_bounds (example_env 0) example_mem).delay_lower_bound 0 1 = 0
    ∧ (init_bounds (example_env 0) example_mem).delay_upper_bound 0 1 = 100e-9
    ∧ (allocate_slack_minimax_PERT (example_env 0) example_net_delay
        (init_bounds (example_env 0) example_mem)).delay_min_budget 0 1 = -1e-9
    ∧ (allocate_slack_minimax_PERT (example_env 0) example_net_delay
        (init_bounds (example_env 0) example_mem)).delay_max_budget 0 1 = 5e-9
    ∧ -1e-9 ≤ (allocate_slack_minimax_PERT (example_env 0) example_net_delay
        (init_bounds (example_env 0) example_mem)).delay_min_budget 0 1 :=
  ⟨by decide, by decide!, by decide!, by decide!, by decide!,
    (minimax_budget_window (example_env 0) example_net_delay
      (init_bounds (example_env 0) example_mem) 0 1 (by decide) (by decide!) (by decide!)).1⟩

/-! ## C19 -/

/-- C19: for every table, `keep_budget_in_bounds` sets the entry of every sink pin to
`min(max(old, lower_bound), upper_bound)`; when `lower_bound <= upper_bound` the new value is
inside `[lower_bound, upper_bound]`, it equals the old value when that was already inside the
interval, and a second application changes nothing; the entries of driver pins (index 0) are
untouched. -/
theorem keep_budget_in_bounds_clamps (env : Env) (rb : route_budgets) (t : Table) :
    (∀ a b, env.isSink a b →
        keep_budget_in_bounds env rb t a b
          = min (max (t a b) (rb.delay_lower_bound a b)) (rb.delay_upper_bound a b)
        ∧ (rb.delay_lower_bound a b ≤ rb.delay_upper_bound a b →
            rb.delay_lower_bound a b ≤ keep_budget_in_bounds env rb t a b
            ∧ keep_budget_in_bounds env rb t a b ≤ rb.delay_upper_bound a b
            ∧ (rb.delay_lower_bound a b ≤ t a b → t a b ≤ rb.delay_upper_bound a b →
                keep_budget_in_bounds env rb t a b = t a b)
            ∧ keep_budget_in_bounds env rb (keep_budget_in_bounds env rb t) a b
                = keep_budget_in_bounds env rb t a b))
    ∧ (∀ a, keep_budget_in_bounds env rb t a 0 = t a 0) := by
  constructor
  · intro a b hs
    have hnew : keep_budget_in_bounds env rb t a b
        = min (max (t a b) (rb.delay_lower_bound a b)) (rb.delay_upper_bound a b) := by
      rw [keep_budget_in_bounds_apply, if_pos hs]
    refine ⟨hnew, fun hb => ?_⟩
    obtain ⟨c1, c2⟩ := clamp_bounds (t a b) _ _ hb
    refine ⟨by rw [hnew]; exact c1, by rw [hnew]; exact c2, fun h1 h2 => ?_, ?_⟩
    · rw [hnew, max_eq_left h1, min_eq_left h2]
    · rw [keep_budget_in_bounds_apply env rb (keep_budget_in_bounds env rb t), if_pos hs, hnew,
        max_eq_left c1, min_eq_left c2]
  · intro a
    rw [keep_budget_in_bounds_apply, if_neg]
    intro hs
    exact absurd hs.2.1 (by omega)

/-- C19 on the example design with bounds `0` and `100 ns`: an entry of `500 ns` becomes
`100 ns`, and the entry of the driver pin stays. -/
theorem keep_budget_in_bounds_clamps_witness :
    (example_env 0).isSink 0 1
    ∧ (example_congested 0).delay_lower_bound 0 1 ≤ (example_congested 0).delay_upper_bound 0 1
    ∧ keep_budget_in_bounds (example_env 0) (example_congested 0) (fun _ _ => 500e-9) 0 1
        = 100e-9
    ∧ keep_budget_in_bounds (example_env 0) (example_congested 0) (fun _ _ => 500e-9) 0 0
        = 500e-9 :=
  ⟨by decide, by decide!,
    ((keep_budget_in_bounds_clamps (example_env 0) (example_congested 0)
      (fun _ _ => 500e-9)).1 0 1 (by decide)).1.trans (by decide!),
    (keep_budget_in_bounds_clamps (example_env 0) (example_congested 0)
      (fun _ _ => 500e-9)).2 0⟩

/-! ## C20 -/

/-- C20: after `keep_min_below_max_budget` every sink pin has `min <= max`; the max-budget
table is unchanged, a min budget of a sink pin that was above its max budget becomes exactly
the max budget, and a min budget that was already at most the max budget is unchanged. -/
theorem keep_min_below_max_budget_effect (env : Env) (rb : route_budgets) :
    (∀ a b, env.isSink a b →
        (keep_min_below_max_budget env rb).delay_min_budget a b
          ≤ (keep_min_below_max_budget env rb).delay_max_budget a b)
    ∧ (keep_min_below_max_budget env rb).delay_max_budget = rb.delay_max_budget
    ∧ (∀ a b, env.isSink a b → rb.delay_min_budget a b > rb.delay_max_budget a b →
        (keep_min_below_max_budget env rb).delay_min_budget a b = rb.delay_max_budget a b)
    ∧ (∀ a b, rb.delay_min_budget a b ≤ rb.delay_max_budget a b →
        (keep_min_below_max_budget env rb).delay_min_budget a b = rb.delay_min_budget a b) := by
  have hmax := (keep_min_below_max_budget_frame env rb).1
  refine ⟨fun a b hs => ?_, hmax, fun a b hs hgt => ?_, fun a b hle => ?_⟩
  · rw [hmax, keep_min_below_max_budget_min]
    by_cases hgt : rb.delay_min_budget a b > rb.delay_max_budget a b
    · rw [if_pos ⟨hs, hgt⟩]
    · rw [if_neg (fun h => hgt h.2)]
      exact not_lt.mp hgt
  · rw [keep_min_below_max_budget_min, if_pos ⟨hs, hgt⟩]
  · rw [keep_min_below_max_budget_min, if_neg (fun h => absurd hle (not_le.mpr h.2))]

/-- C20 on the example design: a min budget of `200 ns` above the max budget `100 ns` becomes
`100 ns`, and a min budget of `5 ns` stays. -/
theorem keep_min_below_max_budget_effect_witness :
    (example_env 0).isSink 0 1
    ∧ (example_congested 200e-9).delay_min_budget 0 1
        > (example_congested 200e-9).delay_max_budget 0 1
    ∧ (keep_min_below_max_budget (example_env 0) (example_congested 200e-9)).delay_min_budget 0 1
        = (example_congested 200e-9).delay_max_budget 0 1
    ∧ (keep_min_below_max_budget (example_env 0) (example_congested 5e-9)).delay_min_budget 0 1
        = 5e-9 :=
  ⟨by decide, by decide!,
    (keep_min_below_max_budget_effect (example_env 0) (example_congested 200e-9)).2.2.1 0 1
      (by decide) (by decide!),
    ((keep_min_below_max_budget_effect (example_env 0) (example_congested 5e-9)).2.2.2 0 1
      (by decide!)).trans rfl⟩

/-! ## The congestion counters -/

theorem route_budgets.reports_append (rb : route_budgets) (l : List congestion_report)
    (r : congestion_report) : rb.reports (l ++ [r]) = (rb.reports l).report r := by
  unfold route_budgets.reports
  rw [List.foldl_append]
  rfl

theorem recent_reports_append (inet : Nat) (l : List congestion_report)
    (r : congestion_report) :
    recent_reports inet (l ++ [r])
      = if r.inet = inet then r :: recent_reports inet l else recent_reports inet l := by
  unfold recent_reports
  by_cases h : r.inet = inet
  · simp [List.filter_append, h]
  · simp [List.filter_append, h]

/-- The counter of a net after a sequence of reports on a fresh object is the length of the
trailing run of congested reports about the net. -/
theorem reports_counter (mem : route_budgets) (l : List congestion_report) (inet : Nat) :
    ((route_budgets.new mem).reports l).num_times_congested inet = trailing_run inet l := by
  induction l using List.reverseRecOn with
  | nil => rfl
  | append_singleton l r ih =>
    rw [route_budgets.reports_append]
    unfold trailing_run at ih ⊢
    rw [recent_reports_append]
    cases r with
    | update_congestion_times i =>
      by_cases h : i = inet
      · subst h
        simp [route_budgets.report, update_congestion_times, congestion_report.inet,
          congestion_report.congested, ih]
      · have h' : ¬ inet = i := fun e => h e.symm
        simp [route_budgets.report, update_congestion_times, congestion_report.inet, h, h', ih]
    | not_congested_this_iteration i =>
      by_cases h : i = inet
      · subst h
        simp [route_budgets.report, not_congested_this_iteration, congestion_report.inet,
          congestion_report.congested]
      · have h' : ¬ inet = i := fun e => h e.symm
        simp [route_budgets.report, not_congested_this_iteration, congestion_report.inet, h, h',
          ih]

/-- A run of at least `n` leading elements satisfying `p` is a prefix of length `n` all of
whose elements satisfy `p`. -/
theorem le_length_takeWhile_iff {α : Type} (p : α → Bool) (xs : List α) (n : Nat) :
    n ≤ (xs.takeWhile p).length ↔ ((xs.take n).length = n ∧ ∀ x ∈ xs.take n, p x = true) := by
  induction xs generalizing n with
  | nil =>
    cases n with
    | zero => simp
    | succ n => simp
  | cons y ys ih =>
    cases n with
    | zero => simp
    | succ n =>
      by_cases hy : p y = true
      · simp [List.takeWhile_cons, hy, ih n]
      · simp [List.takeWhile_cons, hy]

/-! ## C21 -/

/-- C21: on a freshly constructed object (all counters 0), after any sequence of
`update_congestion_times` / `not_congested_this_iteration` calls (fewer than `2^31`, the range
of the `int` counters) the counter of each net equals the length of the trailing run of
`update_congestion_times` calls for that net since its last `not_congested_this_iteration`
call (or since construction); a call for net `i` leaves the counter of every other net
unchanged; hence the counter is at least 3, and `lower_budgets` lowers the min budget of a
sink pin of the net that is at least `1 ns` above its lower bound, if and only if the 3 most
recent reports about the net exist and were all congested. -/
theorem congestion_counter_is_trailing_run (env : Env) (mem : route_budgets)
    (l : List congestion_report) (_hlen : l.length < 2 ^ 31) (inet : Nat) :
    ((route_budgets.new mem).reports l).num_times_congested inet = trailing_run inet l
    ∧ (∀ (rb : route_budgets) (i j : Nat), j ≠ i →
        (update_congestion_times rb i).num_times_congested j = rb.num_times_congested j
        ∧ (not_congested_this_iteration rb i).num_times_congested j
            = rb.num_times_congested j)
    ∧ (3 ≤ ((route_budgets.new mem).reports l).num_times_congested inet ↔
        (((recent_reports inet l).take 3).length = 3
          ∧ ∀ r ∈ (recent_reports inet l).take 3, r.congested = true))
    ∧ (∀ b, env.isSink inet b →
        ((route_budgets.new mem).reports l).delay_min_budget inet b
          - ((route_budgets.new mem).reports l).delay_lower_bound inet b ≥ 1e-9 →
        ((lower_budgets env ((route_budgets.new mem).reports l)).delay_min_budget inet b
            ≠ ((route_budgets.new mem).reports l).delay_min_budget inet b ↔
          (((recent_reports inet l).take 3).length = 3
            ∧ ∀ r ∈ (recent_reports inet l).take 3, r.congested = true))) := by
  have hcount := reports_counter mem l inet
  have hthree : 3 ≤ ((route_budgets.new mem).reports l).num_times_congested inet ↔
      (((recent_reports inet l).take 3).length = 3
        ∧ ∀ r ∈ (recent_reports inet l).take 3, r.congested = true) := by
    rw [hcount]
    exact le_length_takeWhile_iff congestion_report.congested (recent_reports inet l) 3
  refine ⟨hcount, fun rb i j hne => ?_, hthree, fun b hs hgap => ?_⟩
  · unfold update_congestion_times not_congested_this_iteration
    simp [hne]
  · rw [← hthree, lower_budgets_min]
    constructor
    · intro hchg
      by_contra hlt
      exact hchg (if_neg (fun h => hlt h.2.1))
    · intro h3
      rw [if_pos ⟨hs, h3, hgap⟩]
      have hdec : MIN_DELAY_DECREMENT = 1e-9 := rfl
      rw [hdec]
      intro heq
      have hpos : (0 : ℚ) < 1e-9 := by norm_num
      linarith

/-- C21 on the example design: after two congested reports, an uncongested one and three
more congested ones about net 0 (and one about net 1) the counter of net 0 is 3, that of
net 1 is 1, and `lower_budgets` lowers the min budget `5 ns` of the sink pin of net 0. -/
theorem congestion_counter_is_trailing_run_witness :
    [congestion_report.update_congestion_times 0, congestion_report.update_congestion_times 0,
      congestion_report.not_congested_this_iteration 0,
      congestion_report.update_congestion_times 0, congestion_report.update_congestion_times 0,
      congestion_report.update_congestion_times 0,
      congestion_report.update_congestion_times 1].length < 2 ^ 31
    ∧ ((route_budgets.new (example_congested 5e-9)).reports
        [congestion_report.update_congestion_times 0, congestion_report.update_congestion_times 0,
          congestion_report.not_congested_this_iteration 0,
          congestion_report.update_congestion_times 0, congestion_report.update_congestion_times 0,
          congestion_report.update_congestion_times 0,
          congestion_report.update_congestion_times 1]).num_times_congested 0 = 3
    ∧ ((route_budgets.new (example_congested 5e-9)).reports
        [congestion_report.update_congestion_times 0, congestion_report.update_congestion_times 0,
          congestion_report.not_congested_this_iteration 0,
          congestion_report.update_congestion_times 0, congestion_report.update_congestion_times 0,
          congestion_report.update_congestion_times 0,
          congestion_report.update_congestion_times 1]).num_times_congested 1 = 1
    ∧ (lower_budgets (example_env 0) ((route_budgets.new (example_congested 5e-9)).reports
        [congestion_report.update_congestion_times 0, congestion_report.update_congestion_times 0,
          congestion_report.not_congested_this_iteration 0,
          congestion_report.update_congestion_times 0, congestion_report.update_congestion_times 0,
          congestion_report.update_congestion_times 0,
          congestion_report.update_congestion_times 1])).delay_min_budget 0 1 = 4e-9 :=
  ⟨by decide,
    (congestion_counter_is_trailing_run (example_env 0) (example_congested 5e-9) _ (by decide)
      0).1.trans (by decide),
    (congestion_counter_is_trailing_run (example_env 0) (example_congested 5e-9) _ (by decide)
      1).1.trans (by decide),
    by decide!⟩

/-! ## C22 -/

theorem lower_budgets_iterate_bounds (env : Env) (rb : route_budgets) (n : Nat) (a b : Nat) :
    ((lower_budgets env)^[n] rb).delay_lower_bound a b = rb.delay_lower_bound a b
    ∧ ((lower_budgets env)^[n] rb).delay_upper_bound a b = rb.delay_upper_bound a b := by
  obtain ⟨-, -, f3, f4, -, -⟩ := lower_budgets_iterate_frame env rb n
  rw [f3, f4]
  exact ⟨rfl, rfl⟩

/-- With a lower bound of 0, `get_crit_short_path` of a sink pin is 0 for a target of 0 and
`pow(1, 0.5)` otherwise. -/
theorem get_crit_short_path_of_zero_lower_bound (env : Env) (rb : route_budgets) (a b : Nat)
    (hb : 1 ≤ b) (hlb : rb.delay_lower_bound a b = 0) (hpow : env.pow 1 0.5 = 1) :
    get_crit_short_path env rb a b
      = Except.ok (if rb.delay_target a b = 0 then 0 else 1) := by
  have h0 : b ≠ 0 := by omega
  have he : SHORT_PATH_EXP = 0.5 := rfl
  unfold get_crit_short_path
  rw [if_neg h0, hlb, he]
  by_cases ht : rb.delay_target a b = 0
  · rw [if_pos ht, if_pos ht]
  · rw [if_neg ht, if_neg ht, sub_zero, div_self ht, hpow]

/-- C22: with either non-disabled strategy (and a `pow` with `pow(1, 0.5) = 1`),
`load_route_budgets` either returns a state such that, after any number of subsequent
`lower_budgets` calls, every sink pin has `lower_bound = 0` and `upper_bound = 100 ns` and
`get_crit_short_path` returns 0 when its target is 0 and 1 whenever its target is not 0,
whatever the budget window; or the strategy is SCALE_DELAY and the call stops on its
assertion because some sink's computed max budget is negative. -/
theorem short_path_criticality_zero_or_one (env : Env) (net_delay : Table)
    (router_opts : t_router_opts) (rb : route_budgets)
    (halg : router_opts.routing_budgets_algorithm ≠ e_routing_budgets_algorithm.DISABLE)
    (hpow : env.pow 1 0.5 = 1) :
    (∃ rb1, load_route_budgets env net_delay router_opts rb = Except.ok rb1
      ∧ ∀ n a b, env.isSink a b →
          ((lower_budgets env)^[n] rb1).delay_lower_bound a b = 0
          ∧ ((lower_budgets env)^[n] rb1).delay_upper_bound a b = 100e-9
          ∧ get_crit_short_path env ((lower_budgets env)^[n] rb1) a b
              = Except.ok (if ((lower_budgets env)^[n] rb1).delay_target a b = 0 then 0 else 1))
    ∨ (router_opts.routing_budgets_algorithm = e_routing_budgets_algorithm.SCALE_DELAY
        ∧ budgets_do_not_fit env net_delay router_opts
        ∧ load_route_budgets env net_delay router_opts rb
            = Except.error VtrError.assertion_failed) := by
  have finish : ∀ rb1 : route_budgets,
      (∀ a b, env.isSink a b →
        rb1.delay_lower_bound a b = 0 ∧ rb1.delay_upper_bound a b = 100e-9) →
      ∀ n a b, env.isSink a b →
        ((lower_budgets env)^[n] rb1).delay_lower_bound a b = 0
        ∧ ((lower_budgets env)^[n] rb1).delay_upper_bound a b = 100e-9
        ∧ get_crit_short_path env ((lower_budgets env)^[n] rb1) a b
            = Except.ok (if ((lower_budgets env)^[n] rb1).delay_target a b = 0 then 0 else 1) := by
    intro rb1 hb n a b hs
    obtain ⟨i1, i2⟩ := lower_budgets_iterate_bounds env rb1 n a b
    obtain ⟨b1, b2⟩ := hb a b hs
    have hlb : ((lower_budgets env)^[n] rb1).delay_lower_bound a b = 0 := i1.trans b1
    exact ⟨hlb, i2.trans b2,
      get_crit_short_path_of_zero_lower_bound env _ a b hs.2.1 hlb hpow⟩
  rcases hcase : router_opts.routing_budgets_algorithm with _ | _ | _
  · left
    refine ⟨_, load_route_budgets_minimax env net_delay router_opts rb hcase, finish _ ?_⟩
    intro a b hs
    have hinit := init_bounds_view env rb a b
    rw [if_pos hs] at hinit
    have hlb : (init_bounds env rb).delay_lower_bound a b = 0 :=
      congrArg PinView.lower_bound hinit
    have hub : (init_bounds env rb).delay_upper_bound a b = 100e-9 :=
      congrArg PinView.upper_bound hinit
    obtain ⟨-, q2, q3, -, -, -⟩ :=
      allocate_slack_minimax_PERT_spec env net_delay (init_bounds env rb)
    have hv := calculate_delay_tagets_view env
      (allocate_slack_minimax_PERT env net_delay (init_bounds env rb)) a b
    rw [if_pos hs] at hv
    have e3 := congrArg PinView.lower_bound hv
    have e4 := congrArg PinView.upper_bound hv
    simp only [route_budgets.view] at e3 e4
    show (calculate_delay_tagets env
        (allocate_slack_minimax_PERT env net_delay (init_bounds env rb))).delay_lower_bound a b = 0
      ∧ (calculate_delay_tagets env
        (allocate_slack_minimax_PERT env net_delay (init_bounds env rb))).delay_upper_bound a b
          = 100e-9
    rw [e3, e4, q2, q3]
    exact ⟨hlb, hub⟩
  · by_cases hfit : budgets_do_not_fit env net_delay router_opts
    · right
      exact ⟨rfl, hfit, load_route_budgets_scale_error env net_delay router_opts rb hcase hfit⟩
    · left
      refine ⟨_, load_route_budgets_scale_ok env net_delay router_opts rb hcase hfit,
        finish _ ?_⟩
      intro a b hs
      have hv := scaled_writes_view env net_delay router_opts (init_bounds env rb) a b
      rw [if_pos hs] at hv
      exact ⟨congrArg PinView.lower_bound hv, congrArg PinView.upper_bound hv⟩
  · exact absurd hcase halg

/-- C22 on the example design with the MINIMAX strategy: after the load and two
`lower_budgets` calls the sink pin has a target other than 0 and short-path criticality 1. -/
theorem short_path_criticality_zero_or_one_witness :
    (example_opts e_routing_budgets_algorithm.MINIMAX).routing_budgets_algorithm
        ≠ e_routing_budgets_algorithm.DISABLE
    ∧ (example_env 0).pow 1 0.5 = 1
    ∧ ∃ rb1, load_route_budgets (example_env 0) example_net_delay
          (example_opts e_routing_budgets_algorithm.MINIMAX) (route_budgets.new example_mem)
          = Except.ok rb1
        ∧ ((lower_budgets (example_env 0))^[2] rb1).delay_lower_bound 0 1 = 0
        ∧ ((lower_budgets (example_env 0))^[2] rb1).delay_upper_bound 0 1 = 100e-9
        ∧ get_crit_short_path (example_env 0) ((lower_budgets (example_env 0))^[2] rb1) 0 1
            = Except.ok
                (if ((lower_budgets (example_env 0))^[2] rb1).delay_target 0 1 = 0 then 0
                 else 1) := by
  refine ⟨by decide, rfl, ?_⟩
  rcases short_path_criticality_zero_or_one (example_env 0) example_net_delay
    (example_opts e_routing_budgets_algorithm.MINIMAX) (route_budgets.new example_mem)
    (by decide) rfl with ⟨rb1, hload, hall⟩ | h
  · exact ⟨rb1, hload, hall 2 0 1 (by decide)⟩
  · exact absurd h.1 (by decide)

end RouteBudgets
